import Mathlib

/-!
Olex::DX12App: command submission and frame synchronisation.

A shallow embedding of `LearningDX12/DX12App.cpp`, and of the resize of the
scene in `LearningDX12/TexturedDemoBoxGame.cpp`.

* C++ member functions become state-passing programs `Prog σ α`: a program
  takes the state and gives an outcome (normal return, a thrown
  `std::exception`, or a wait that never returns) together with the state it
  leaves behind.  A throw keeps the state, since the C++ writes made before the
  throw are not undone.
* Every call that leaves `DX12App` (Direct3D 12, DXGI, Win32, the
  `CommandQueue` object) is appended to a call log, `trace`, with its
  arguments and with the value it gave back.
* What the outside world answers is fixed by a `Device`: each answer is a
  function of the position of the call in the run.
* `uint64_t` and `uint32_t` values are natural numbers, reduced modulo `2 ^ 64`
  or `2 ^ 32` where the C++ arithmetic can wrap; `HRESULT` is an integer; a
  difference of two `LONG` coordinates is reduced to the signed 32-bit range.
* `DX12App::GetAdapter` touches no data member: what DXGI answers for each
  adapter is passed to it as an argument instead of being logged.
-/

namespace Olex

/-! ## Machine constants -/

/-- Number of values of a `uint64_t`. -/
def UINT64_MOD : Nat := 2 ^ 64

/-- Number of values of a `uint32_t` (`UINT`, `DWORD`). -/
def UINT32_MOD : Nat := 2 ^ 32

/-- Win32 `INFINITE`: the time-out value that never elapses. -/
def INFINITE : Nat := 4294967295

/-- Win32 `WAIT_OBJECT_0`: the wait ended because the object was signalled. -/
def WAIT_OBJECT_0 : Nat := 0

/-- Win32 `WAIT_TIMEOUT`: the wait ended because the time-out elapsed. -/
def WAIT_TIMEOUT : Nat := 258

/-- `DXGI_PRESENT_ALLOW_TEARING`. -/
def DXGI_PRESENT_ALLOW_TEARING : Nat := 512

/-- `D3D12_RESOURCE_STATE_PRESENT`. -/
def D3D12_RESOURCE_STATE_PRESENT : Nat := 0

/-- `D3D12_RESOURCE_STATE_RENDER_TARGET`. -/
def D3D12_RESOURCE_STATE_RENDER_TARGET : Nat := 4

/-- The Windows SDK test `FAILED(hr)`: an `HRESULT` is a failure code iff it
is negative as a signed 32-bit value. -/
def FAILED (hr : Int) : Bool := decide (hr < 0)

/-- The cast `static_cast<DWORD>( duration.count() )` of a signed 64-bit
millisecond count: reduction modulo `2 ^ 32`. -/
def toDWORD (count : Int) : Nat := (count % 4294967296).toNat

/-- The Windows SDK test `SUCCEEDED(hr)`: the `HRESULT` is not negative. -/
def SUCCEEDED (hr : Int) : Bool := decide (0 ≤ hr)

/-- Reduction of an integer to the range of a `LONG` (signed 32 bits), the way
the compiled subtraction of two `LONG` values wraps. -/
def toLONG (z : Int) : Int := (z + 2147483648) % 4294967296 - 2147483648

/-- Win32 virtual-key code `VK_RETURN`. -/
def VK_RETURN : Nat := 0x0D

/-- Win32 virtual-key code `VK_ESCAPE`. -/
def VK_ESCAPE : Nat := 0x1B

/-- Win32 virtual-key code `VK_F11`. -/
def VK_F11 : Nat := 0x7A

/-- Win32 virtual-key code `VK_MENU`, the Alt key. -/
def VK_MENU : Nat := 0x12

/-- The character constant `'V'`. -/
def KEY_V : Nat := 0x56

/-- Win32 window style `WS_OVERLAPPEDWINDOW`. -/
def WS_OVERLAPPEDWINDOW : Nat := 0x00CF0000

/-- Win32 window style `WS_CAPTION`. -/
def WS_CAPTION : Nat := 0x00C00000

/-- Win32 window style `WS_SYSMENU`. -/
def WS_SYSMENU : Nat := 0x00080000

/-- Win32 window style `WS_THICKFRAME`. -/
def WS_THICKFRAME : Nat := 0x00040000

/-- Win32 window style `WS_MINIMIZEBOX`. -/
def WS_MINIMIZEBOX : Nat := 0x00020000

/-- Win32 window style `WS_MAXIMIZEBOX`. -/
def WS_MAXIMIZEBOX : Nat := 0x00010000

/-- Win32 `GWL_STYLE`, the index of the window style. -/
def GWL_STYLE : Int := -16

/-- Win32 `HWND_TOP`. -/
def HWND_TOP : Int := 0

/-- Win32 `HWND_NOTOPMOST`. -/
def HWND_NOTOPMOST : Int := -2

/-- Win32 `SWP_FRAMECHANGED`. -/
def SWP_FRAMECHANGED : Nat := 0x0020

/-- Win32 `SWP_NOACTIVATE`. -/
def SWP_NOACTIVATE : Nat := 0x0010

/-- Win32 `SW_NORMAL`. -/
def SW_NORMAL : Nat := 1

/-- Win32 `SW_MAXIMIZE`. -/
def SW_MAXIMIZE : Nat := 3

/-- Win32 `MONITOR_DEFAULTTONEAREST`. -/
def MONITOR_DEFAULTTONEAREST : Nat := 2

/-- `DXGI_ADAPTER_FLAG_SOFTWARE`. -/
def DXGI_ADAPTER_FLAG_SOFTWARE : Nat := 2

/-- Win32 `RECT`: four `LONG` coordinates. -/
structure RECT where
  /-- `LONG left`. -/
  left : Int := 0
  /-- `LONG top`. -/
  top : Int := 0
  /-- `LONG right`. -/
  right : Int := 0
  /-- `LONG bottom`. -/
  bottom : Int := 0
  deriving DecidableEq

/-! ## The call log -/

/-- One entry of the call log: a call that leaves `DX12App`, with its arguments
and, last, the value it gave back. -/
inductive Call where
  /-- The call `commandQueue->Signal( fence, value )`. -/
  | QueueSignal (value : Nat) (hr : Int)
  /-- The call `fence->GetCompletedValue()`. -/
  | GetCompletedValue (result : Nat)
  /-- The call `fence->SetEventOnCompletion( value, fenceEvent )`. -/
  | SetEventOnCompletion (value : Nat) (hr : Int)
  /-- The call `::WaitForSingleObject( fenceEvent, ms )`; `none` when the call
  never returns. -/
  | WaitForSingleObject (ms : Nat) (result : Option Nat)
  /-- The call `m_CommandQueue->Flush()`. -/
  | CommandQueueFlush
  /-- The call `m_CommandQueue->GetCommandList()`; `none` when the call does not
  return normally. -/
  | GetCommandList (commandList : Option Nat)
  /-- The call `m_CommandQueue->ExecuteCommandList( commandList )` with the fence
  value it returns; `none` when the call does not return normally. -/
  | ExecuteCommandList (commandList : Nat) (fenceValue : Option Nat)
  /-- The call `m_CommandQueue->WaitForFenceValue( fenceValue )`. -/
  | CommandQueueWaitForFenceValue (fenceValue : Nat)
  /-- The statement `backBuffer.Reset()` on `m_BackBuffers[i]`. -/
  | BackBufferReset (i : Nat)
  /-- The statement `m_BackBuffers[i] = backBuffer`. -/
  | BackBufferStore (i : Nat) (resource : Nat)
  /-- The call `m_SwapChain->GetDesc( &swapChainDesc )`. -/
  | GetDesc (hr : Int) (format : Nat) (flags : Nat)
  /-- The call `m_SwapChain->ResizeBuffers( count, width, height, format, flags )`. -/
  | ResizeBuffers (count width height format flags : Nat) (hr : Int)
  /-- The call `m_SwapChain->GetCurrentBackBufferIndex()`. -/
  | GetCurrentBackBufferIndex (result : Nat)
  /-- The call `m_Device->GetDescriptorHandleIncrementSize( RTV )`. -/
  | GetDescriptorHandleIncrementSize (result : Nat)
  /-- The call `descriptorHeap->GetCPUDescriptorHandleForHeapStart()`. -/
  | GetCPUDescriptorHandleForHeapStart (result : Nat)
  /-- The call `swapChain->GetBuffer( i, &backBuffer )`. -/
  | GetBuffer (i : Nat) (hr : Int) (resource : Nat)
  /-- The call `m_Device->CreateRenderTargetView( resource, nullptr, handle )`. -/
  | CreateRenderTargetView (resource : Option Nat) (handle : Nat)
  /-- The call `commandList->ResourceBarrier( 1, &barrier )` with a transition
  barrier of `resource` from state `before` to state `after`. -/
  | ResourceBarrier (commandList : Nat) (resource : Option Nat) (before after : Nat)
  /-- The call `commandList->ClearRenderTargetView( rtv, clearColor, 0, nullptr )`. -/
  | ClearRenderTargetView (commandList : Nat) (rtv : Nat)
  /-- The call `m_SwapChain->Present( syncInterval, presentFlags )`. -/
  | Present (syncInterval presentFlags : Nat) (hr : Int)
  /-- The call `::GetWindowRect( m_hWnd, &rect )` and the rectangle it wrote. -/
  | GetWindowRect (rect : RECT)
  /-- The call `::SetWindowLong( m_hWnd, index, style )`. -/
  | SetWindowLong (index : Int) (style : Nat)
  /-- The call `::MonitorFromWindow( m_hWnd, flags )` and the monitor it gave. -/
  | MonitorFromWindow (flags : Nat) (monitor : Nat)
  /-- The call `::GetMonitorInfo( monitor, &monitorInfo )` and the content of
  `monitorInfo.rcMonitor` after it. -/
  | GetMonitorInfo (monitor : Nat) (rcMonitor : RECT)
  /-- The call `::SetWindowPos( m_hWnd, insertAfter, x, y, cx, cy, flags )`. -/
  | SetWindowPos (insertAfter : Int) (x y cx cy : Int) (flags : Nat)
  /-- The call `::ShowWindow( m_hWnd, cmd )`. -/
  | ShowWindow (cmd : Nat)
  /-- The call `::GetAsyncKeyState( vKey )` and the `SHORT` it gave. -/
  | GetAsyncKeyState (vKey : Nat) (state : Int)
  /-- The call `::PostQuitMessage( exitCode )`. -/
  | PostQuitMessage (exitCode : Int)
  /-- The call `m_currentGame->UnloadResources()`. -/
  | GameUnloadResources
  /-- The statement `m_currentGame.reset()`, which destroys the game. -/
  | GameReset
  /-- The statement `m_CommandQueue.reset()`, which destroys the queue object. -/
  | CommandQueueReset
  /-- The assignment `m_Viewport = CD3DX12_VIEWPORT( 0.0f, 0.0f, width, height )`
  of the scene. -/
  | ViewportStore (width height : Int)
  /-- The call of the scene's `ResizeDepthBuffer( width, height )`. -/
  | ResizeDepthBuffer (width height : Int)
  /-- The call `device->CreateCommittedResource` for a depth texture of the
  given size, and the resource it wrote. -/
  | CreateCommittedResource (width height : Int) (hr : Int) (resource : Nat)
  /-- The call `device->CreateDepthStencilView( resource, &dsv, handle )`. -/
  | CreateDepthStencilView (resource : Option Nat)

/-- The constructor and the arguments of a log entry as plain data: the number
of the constructor, then its natural-number, integer, optional and rectangle
arguments, each kind in order. -/
def Call.code : Call → Nat × List Nat × List Int × List (Option Nat) × List RECT
  | Call.QueueSignal value hr => (0, [value], [hr], [], [])
  | Call.GetCompletedValue result => (1, [result], [], [], [])
  | Call.SetEventOnCompletion value hr => (2, [value], [hr], [], [])
  | Call.WaitForSingleObject ms result => (3, [ms], [], [result], [])
  | Call.CommandQueueFlush => (4, [], [], [], [])
  | Call.GetCommandList commandList => (5, [], [], [commandList], [])
  | Call.ExecuteCommandList commandList fenceValue => (6, [commandList], [], [fenceValue], [])
  | Call.CommandQueueWaitForFenceValue fenceValue => (7, [fenceValue], [], [], [])
  | Call.BackBufferReset i => (8, [i], [], [], [])
  | Call.BackBufferStore i resource => (9, [i, resource], [], [], [])
  | Call.GetDesc hr format flags => (10, [format, flags], [hr], [], [])
  | Call.ResizeBuffers count width height format flags hr => (11, [count, width, height, format, flags], [hr], [], [])
  | Call.GetCurrentBackBufferIndex result => (12, [result], [], [], [])
  | Call.GetDescriptorHandleIncrementSize result => (13, [result], [], [], [])
  | Call.GetCPUDescriptorHandleForHeapStart result => (14, [result], [], [], [])
  | Call.GetBuffer i hr resource => (15, [i, resource], [hr], [], [])
  | Call.CreateRenderTargetView resource handle => (16, [handle], [], [resource], [])
  | Call.ResourceBarrier commandList resource before after => (17, [commandList, before, after], [], [resource], [])
  | Call.ClearRenderTargetView commandList rtv => (18, [commandList, rtv], [], [], [])
  | Call.Present syncInterval presentFlags hr => (19, [syncInterval, presentFlags], [hr], [], [])
  | Call.GetWindowRect rect => (20, [], [], [], [rect])
  | Call.SetWindowLong index style => (21, [style], [index], [], [])
  | Call.MonitorFromWindow flags monitor => (22, [flags, monitor], [], [], [])
  | Call.GetMonitorInfo monitor rcMonitor => (23, [monitor], [], [], [rcMonitor])
  | Call.SetWindowPos insertAfter x y cx cy flags => (24, [flags], [insertAfter, x, y, cx, cy], [], [])
  | Call.ShowWindow cmd => (25, [cmd], [], [], [])
  | Call.GetAsyncKeyState vKey state => (26, [vKey], [state], [], [])
  | Call.PostQuitMessage exitCode => (27, [], [exitCode], [], [])
  | Call.GameUnloadResources => (28, [], [], [], [])
  | Call.GameReset => (29, [], [], [], [])
  | Call.CommandQueueReset => (30, [], [], [], [])
  | Call.ViewportStore width height => (31, [], [width, height], [], [])
  | Call.ResizeDepthBuffer width height => (32, [], [width, height], [], [])
  | Call.CreateCommittedResource width height hr resource => (33, [resource], [width, height, hr], [], [])
  | Call.CreateDepthStencilView resource => (34, [], [], [resource], [])

/-- The log entry with a given code, if there is one. -/
def Call.decode : Nat × List Nat × List Int × List (Option Nat) × List RECT → Option Call
  | (0, [value], [hr], [], []) => some (Call.QueueSignal value hr)
  | (1, [result], [], [], []) => some (Call.GetCompletedValue result)
  | (2, [value], [hr], [], []) => some (Call.SetEventOnCompletion value hr)
  | (3, [ms], [], [result], []) => some (Call.WaitForSingleObject ms result)
  | (4, [], [], [], []) => some (Call.CommandQueueFlush)
  | (5, [], [], [commandList], []) => some (Call.GetCommandList commandList)
  | (6, [commandList], [], [fenceValue], []) => some (Call.ExecuteCommandList commandList fenceValue)
  | (7, [fenceValue], [], [], []) => some (Call.CommandQueueWaitForFenceValue fenceValue)
  | (8, [i], [], [], []) => some (Call.BackBufferReset i)
  | (9, [i, resource], [], [], []) => some (Call.BackBufferStore i resource)
  | (10, [format, flags], [hr], [], []) => some (Call.GetDesc hr format flags)
  | (11, [count, width, height, format, flags], [hr], [], []) => some (Call.ResizeBuffers count width height format flags hr)
  | (12, [result], [], [], []) => some (Call.GetCurrentBackBufferIndex result)
  | (13, [result], [], [], []) => some (Call.GetDescriptorHandleIncrementSize result)
  | (14, [result], [], [], []) => some (Call.GetCPUDescriptorHandleForHeapStart result)
  | (15, [i, resource], [hr], [], []) => some (Call.GetBuffer i hr resource)
  | (16, [handle], [], [resource], []) => some (Call.CreateRenderTargetView resource handle)
  | (17, [commandList, before, after], [], [resource], []) => some (Call.ResourceBarrier commandList resource before after)
  | (18, [commandList, rtv], [], [], []) => some (Call.ClearRenderTargetView commandList rtv)
  | (19, [syncInterval, presentFlags], [hr], [], []) => some (Call.Present syncInterval presentFlags hr)
  | (20, [], [], [], [rect]) => some (Call.GetWindowRect rect)
  | (21, [style], [index], [], []) => some (Call.SetWindowLong index style)
  | (22, [flags, monitor], [], [], []) => some (Call.MonitorFromWindow flags monitor)
  | (23, [monitor], [], [], [rcMonitor]) => some (Call.GetMonitorInfo monitor rcMonitor)
  | (24, [flags], [insertAfter, x, y, cx, cy], [], []) => some (Call.SetWindowPos insertAfter x y cx cy flags)
  | (25, [cmd], [], [], []) => some (Call.ShowWindow cmd)
  | (26, [vKey], [state], [], []) => some (Call.GetAsyncKeyState vKey state)
  | (27, [], [exitCode], [], []) => some (Call.PostQuitMessage exitCode)
  | (28, [], [], [], []) => some (Call.GameUnloadResources)
  | (29, [], [], [], []) => some (Call.GameReset)
  | (30, [], [], [], []) => some (Call.CommandQueueReset)
  | (31, [], [width, height], [], []) => some (Call.ViewportStore width height)
  | (32, [], [width, height], [], []) => some (Call.ResizeDepthBuffer width height)
  | (33, [resource], [width, height, hr], [], []) => some (Call.CreateCommittedResource width height hr resource)
  | (34, [], [], [resource], []) => some (Call.CreateDepthStencilView resource)
  | _ => none

/-- Equality of log entries is decided on their codes: `Call.decode` recovers an
entry from its code, so entries with the same code are equal. -/
instance : DecidableEq Call := fun a b =>
  have hdecode : ∀ c : Call, Call.decode (Call.code c) = some c := fun c => by
    cases c <;> rfl
  decidable_of_iff (Call.code a = Call.code b)
    ⟨fun h => Option.some.inj (by rw [← hdecode a, ← hdecode b, h]), fun h => by rw [h]⟩

/-! ## Programs -/

/-- How a C++ call ends. -/
inductive Outcome (α : Type) where
  /-- Normal return with a value. -/
  | ok (a : α)
  /-- A `std::exception` left the function (`ThrowIfFailed`, or a callee). -/
  | threw
  /-- The thread is blocked for ever. -/
  | hang
  deriving DecidableEq

/-- A program over state `σ` that returns an `α`. -/
def Prog (σ α : Type) : Type := σ → Outcome α × σ

/-- Return without touching the state. -/
def Prog.pure {σ α : Type} (a : α) : Prog σ α := fun s => (Outcome.ok a, s)

/-- Sequencing: the second program runs only when the first returned normally. -/
def Prog.bind {σ α β : Type} (m : Prog σ α) (f : α → Prog σ β) : Prog σ β := fun s =>
  match m s with
  | (Outcome.ok a, s') => f a s'
  | (Outcome.threw, s') => (Outcome.threw, s')
  | (Outcome.hang, s') => (Outcome.hang, s')

instance {σ : Type} : Monad (Prog σ) where
  pure := Prog.pure
  bind := Prog.bind

/-- Read the state. -/
def Prog.get {σ : Type} : Prog σ σ := fun s => (Outcome.ok s, s)

/-- Change the state. -/
def Prog.modify {σ : Type} (f : σ → σ) : Prog σ Unit := fun s => (Outcome.ok (), f s)

/-- `DX12App::ThrowIfFailed`: throws `std::exception` when `FAILED( hr )`. -/
def ThrowIfFailed {σ : Type} (hr : Int) : Prog σ Unit := fun s =>
  if FAILED hr then (Outcome.threw, s) else (Outcome.ok (), s)

/-! ## The outside world -/

/-- What the outside world answers.  Every answer is a function of the number of
calls logged before the call, that is, of the position of the call in the run. -/
structure Device where
  /-- `HRESULT` of `commandQueue->Signal`. -/
  hrSignal : Nat → Int := fun _ => 0
  /-- `HRESULT` of `fence->SetEventOnCompletion`. -/
  hrSetEvent : Nat → Int := fun _ => 0
  /-- How many queued fence signals the GPU retires before the next call on the
  device returns, or while a finite wait lasts. -/
  gpuProgress : Nat → Nat := fun _ => 0
  /-- Outcome of `m_CommandQueue->Flush()`. -/
  cqFlush : Nat → Outcome Unit := fun _ => Outcome.ok ()
  /-- Outcome of `m_CommandQueue->GetCommandList()`. -/
  cqGetCommandList : Nat → Outcome Nat := fun _ => Outcome.ok 0
  /-- Outcome of `m_CommandQueue->ExecuteCommandList`. -/
  cqExecute : Nat → Outcome Nat := fun _ => Outcome.ok 0
  /-- Outcome of `m_CommandQueue->WaitForFenceValue`. -/
  cqWait : Nat → Outcome Unit := fun _ => Outcome.ok ()
  /-- `HRESULT` of `m_SwapChain->GetDesc`. -/
  hrGetDesc : Nat → Int := fun _ => 0
  /-- `swapChainDesc.BufferDesc.Format` written by `GetDesc`. -/
  descFormat : Nat → Nat := fun _ => 0
  /-- `swapChainDesc.Flags` written by `GetDesc`. -/
  descFlags : Nat → Nat := fun _ => 0
  /-- `HRESULT` of `m_SwapChain->ResizeBuffers`. -/
  hrResizeBuffers : Nat → Int := fun _ => 0
  /-- Result of `m_SwapChain->GetCurrentBackBufferIndex()`. -/
  currentBackBufferIndex : Nat → Nat := fun _ => 0
  /-- Result of `m_Device->GetDescriptorHandleIncrementSize`. -/
  descriptorSize : Nat → Nat := fun _ => 0
  /-- Result of `descriptorHeap->GetCPUDescriptorHandleForHeapStart()`. -/
  heapStart : Nat → Nat := fun _ => 0
  /-- `HRESULT` of `swapChain->GetBuffer`. -/
  hrGetBuffer : Nat → Int := fun _ => 0
  /-- Resource written by `swapChain->GetBuffer`. -/
  buffer : Nat → Nat := fun _ => 0
  /-- `HRESULT` of `m_SwapChain->Present`. -/
  hrPresent : Nat → Int := fun _ => 0
  /-- The helper `CD3DX12_CPU_DESCRIPTOR_HANDLE::Offset( size )` of `d3dx12.h`,
  a header outside `DX12App.cpp`, taken as a parameter: the handle that follows
  `handle` at distance `size`. -/
  handleOffset : Nat → Nat → Nat := fun handle size => handle + size
  /-- The constructor `CD3DX12_CPU_DESCRIPTOR_HANDLE( start, index, size )` of
  `d3dx12.h`: the handle of descriptor `index` in a heap that starts at `start`. -/
  handleAt : Nat → Nat → Nat → Nat := fun start index size => start + index * size
  /-- Rectangle written by `::GetWindowRect` for the window `m_hWnd`. -/
  windowRect : Nat → RECT := fun _ => {}
  /-- Monitor given by `::MonitorFromWindow`. -/
  monitor : Nat → Nat := fun _ => 0
  /-- Content of `monitorInfo.rcMonitor` after `::GetMonitorInfo`. -/
  rcMonitor : Nat → RECT := fun _ => {}
  /-- The `SHORT` given by `::GetAsyncKeyState`. -/
  asyncKeyState : Nat → Int := fun _ => 0
  /-- Outcome of `m_currentGame->UnloadResources()`, a virtual call. -/
  gameUnloadResources : Nat → Outcome Unit := fun _ => Outcome.ok ()
  /-- `HRESULT` of `device->CreateCommittedResource`. -/
  hrCreateCommittedResource : Nat → Int := fun _ => 0
  /-- Resource written by `device->CreateCommittedResource`. -/
  committedResource : Nat → Nat := fun _ => 0

/-! ## The fence, the GPU queue and the fence event

The three helpers `Signal`, `WaitForFenceValue` and `Flush` take the queue, the
fence, the event and the caller's counter as arguments.  `SyncState` holds that
counter together with the state of the one queue, fence and event they are
called with.  The device side follows the documented behaviour of
`ID3D12CommandQueue::Signal`, `ID3D12Fence` and a Win32 auto-reset event. -/

/-- The device-side state behind the arguments `commandQueue`, `fence` and
`fenceEvent` of `Signal`, `WaitForFenceValue` and `Flush`. -/
structure Gpu where
  /-- What `fence->GetCompletedValue()` reports. -/
  completed : Nat
  /-- Fence signals enqueued on the GPU queue and not yet retired, oldest first. -/
  pending : List Nat
  /-- Values for which `SetEventOnCompletion` has registered the event and which
  the fence has not reached yet. -/
  armed : List Nat
  /-- Whether the auto-reset event `fenceEvent` is signalled. -/
  eventSet : Bool
  deriving DecidableEq

/-- The caller's counter, the device-side state and the call log. -/
structure SyncState where
  /-- The caller's `uint64_t& fenceValue`. -/
  fenceValue : Nat
  /-- The queue, the fence and the event. -/
  gpu : Gpu
  /-- The call log. -/
  trace : List Call
  deriving DecidableEq

/-- The GPU retires the oldest queued signal: the fence takes its value, and
every registration the fence has now reached signals the event. -/
def gpuStep (g : Gpu) : Gpu :=
  match g.pending with
  | [] => g
  | p :: rest =>
    { completed := p
      pending := rest
      armed := g.armed.filter (fun a => decide (p < a))
      eventSet := g.eventSet || g.armed.any (fun a => decide (a ≤ p)) }

/-- The GPU retires `n` queued signals. -/
def gpuRun : Nat → Gpu → Gpu
  | 0, g => g
  | n + 1, g => gpuRun n (gpuStep g)

/-- The GPU retires at most `n` queued signals and the waiting thread wakes as
soon as the event is signalled. -/
def gpuRunUntilEvent : Nat → Gpu → Gpu
  | 0, g => g
  | n + 1, g => if g.eventSet then g else gpuRunUntilEvent n (gpuStep g)

/-- The device call `commandQueue->Signal( fence, value )`: on success the
signal is enqueued behind the work already on the queue. -/
def queueSignal (dev : Device) (value : Nat) : Prog SyncState Int := fun s =>
  let g := gpuRun (dev.gpuProgress s.trace.length) s.gpu
  let hr := dev.hrSignal s.trace.length
  (Outcome.ok hr,
    { fenceValue := s.fenceValue
      gpu := if FAILED hr then g else { g with pending := g.pending ++ [value] }
      trace := s.trace ++ [Call.QueueSignal value hr] })

/-- The device call `fence->GetCompletedValue()`. -/
def getCompletedValue (dev : Device) : Prog SyncState Nat := fun s =>
  let g := gpuRun (dev.gpuProgress s.trace.length) s.gpu
  (Outcome.ok g.completed,
    { fenceValue := s.fenceValue
      gpu := g
      trace := s.trace ++ [Call.GetCompletedValue g.completed] })

/-- The device call `fence->SetEventOnCompletion( value, fenceEvent )`: on
success the event is signalled at once when the fence has already reached
`value`, and is registered for `value` otherwise. -/
def setEventOnCompletion (dev : Device) (value : Nat) : Prog SyncState Int := fun s =>
  let g := gpuRun (dev.gpuProgress s.trace.length) s.gpu
  let hr := dev.hrSetEvent s.trace.length
  (Outcome.ok hr,
    { fenceValue := s.fenceValue
      gpu :=
        if FAILED hr then g
        else if value ≤ g.completed then { g with eventSet := true }
        else { g with armed := g.armed ++ [value] }
      trace := s.trace ++ [Call.SetEventOnCompletion value hr] })

/-- The Win32 call `::WaitForSingleObject( fenceEvent, ms )` on the auto-reset
event: it returns `WAIT_OBJECT_0` and resets the event once the event is
signalled; a finite wait that is not signalled in time returns `WAIT_TIMEOUT`;
an `INFINITE` wait that is never signalled does not return. -/
def waitForSingleObject (dev : Device) (ms : Nat) : Prog SyncState Nat := fun s =>
  let budget := if ms = INFINITE then s.gpu.pending.length else dev.gpuProgress s.trace.length
  let g := gpuRunUntilEvent budget s.gpu
  if g.eventSet then
    (Outcome.ok WAIT_OBJECT_0,
      { fenceValue := s.fenceValue
        gpu := { g with eventSet := false }
        trace := s.trace ++ [Call.WaitForSingleObject ms (some WAIT_OBJECT_0)] })
  else if ms = INFINITE then
    (Outcome.hang,
      { fenceValue := s.fenceValue
        gpu := g
        trace := s.trace ++ [Call.WaitForSingleObject ms none] })
  else
    (Outcome.ok WAIT_TIMEOUT,
      { fenceValue := s.fenceValue
        gpu := g
        trace := s.trace ++ [Call.WaitForSingleObject ms (some WAIT_TIMEOUT)] })

/-- `DX12App::Signal` (`DX12App.cpp`, lines 389-396). -/
def Signal (dev : Device) : Prog SyncState Nat := do
  -- const uint64_t fenceValueForSignal = ++fenceValue;
  Prog.modify (fun s => { s with fenceValue := (s.fenceValue + 1) % UINT64_MOD })
  let s ← Prog.get
  let fenceValueForSignal := s.fenceValue
  -- ThrowIfFailed( commandQueue->Signal( fence.Get(), fenceValueForSignal ) );
  let hr ← queueSignal dev fenceValueForSignal
  ThrowIfFailed hr
  -- return fenceValueForSignal;
  pure fenceValueForSignal

/-- `DX12App::WaitForFenceValue` (`DX12App.cpp`, lines 398-405). -/
def WaitForFenceValue (dev : Device) (fenceValue : Nat) (duration : Int) :
    Prog SyncState Unit := do
  -- if ( fence->GetCompletedValue() < fenceValue )
  let completedValue ← getCompletedValue dev
  if completedValue < fenceValue then
    -- ThrowIfFailed( fence->SetEventOnCompletion( fenceValue, fenceEvent ) );
    let hr ← setEventOnCompletion dev fenceValue
    ThrowIfFailed hr
    -- ::WaitForSingleObject( fenceEvent, static_cast<DWORD>( duration.count() ) );
    let _ ← waitForSingleObject dev (toDWORD duration)
    pure ()
  else
    pure ()

/-- `DX12App::Flush` (`DX12App.cpp`, lines 407-412).  The call of
`WaitForFenceValue` leaves out the duration; `duration` is the default argument
of the declaration, taken as a parameter. -/
def Flush (dev : Device) (duration : Int) : Prog SyncState Unit := do
  -- uint64_t fenceValueForSignal = Signal( commandQueue, fence, fenceValue );
  let fenceValueForSignal ← Signal dev
  -- WaitForFenceValue( fence, fenceValueForSignal, fenceEvent );
  WaitForFenceValue dev fenceValueForSignal duration

/-- A call of one of the two helpers that issue a marker. -/
inductive SyncCall where
  /-- A call `Signal( commandQueue, fence, fenceValue )`. -/
  | signal
  /-- A call `Flush( commandQueue, fence, fenceValue, fenceEvent )`; `duration`
  is the default duration of the wait. -/
  | flush (duration : Int)
  deriving DecidableEq

/-- A sequence of `Signal` and `Flush` calls on the same counter, queue, fence
and event.  The result lists, in call order, the values `Signal` returned
(`Flush` returns nothing). -/
def runSyncCalls (dev : Device) : List SyncCall → Prog SyncState (List Nat)
  | [] => pure []
  | SyncCall.signal :: rest => do
    let marker ← Signal dev
    let markers ← runSyncCalls dev rest
    pure (marker :: markers)
  | SyncCall.flush duration :: rest => do
    Flush dev duration
    runSyncCalls dev rest

/-- The markers issued to the GPU queue according to a call log: the values of
the queue `Signal` calls that succeeded, in order. -/
def issuedMarkers : List Call → List Nat
  | [] => []
  | Call.QueueSignal value hr :: rest =>
    if FAILED hr then issuedMarkers rest else value :: issuedMarkers rest
  | _ :: rest => issuedMarkers rest

/-- The entries a program appended to the call log `before`, given the log
`after` it left. -/
def newCalls (before after : List Call) : List Call := after.drop before.length

/-- The state after the calls of `calls` have been made in turn on the same
counter, queue, fence and event, whatever the outcome of each call: a caller
that catches the exception of a failed call goes on with the counter as that
call left it. -/
def syncAll (dev : Device) : List SyncCall → SyncState → SyncState
  | [], s => s
  | SyncCall.signal :: rest, s => syncAll dev rest (Signal dev s).2
  | SyncCall.flush duration :: rest, s => syncAll dev rest (Flush dev duration s).2

/-- The values passed to the queue `Signal` calls of a call log, in order,
whether the call succeeded or failed. -/
def signalledValues : List Call → List Nat
  | [] => []
  | Call.QueueSignal value _ :: rest => value :: signalledValues rest
  | _ :: rest => signalledValues rest

/-! ## The application object -/

/-- `DX12App::m_NumFrames`: the number of swap chain back buffers. -/
def m_NumFrames : Nat := 3

/-- The data members of `DX12App` that the modelled member functions read or
write, and the call log.  A `ComPtr` is `none` when it is null and `some r`
when it holds a reference to resource `r`. -/
structure DX12App where
  /-- `uint32_t m_ClientWidth = 1280`. -/
  m_ClientWidth : Nat := 1280
  /-- `uint32_t m_ClientHeight = 720`. -/
  m_ClientHeight : Nat := 720
  /-- `bool m_IsInitialized = false`. -/
  m_IsInitialized : Bool := false
  /-- `ComPtr<ID3D12Resource> m_BackBuffers[m_NumFrames]`, by slot index. -/
  m_BackBuffers : Nat → Option Nat := fun _ => none
  /-- `UINT m_RTVDescriptorSize`. -/
  m_RTVDescriptorSize : Nat := 0
  /-- `UINT m_CurrentBackBufferIndex`. -/
  m_CurrentBackBufferIndex : Nat := 0
  /-- `bool m_VSync = true`. -/
  m_VSync : Bool := true
  /-- `bool m_TearingSupported = false`. -/
  m_TearingSupported : Bool := false
  /-- `bool m_Fullscreen = false`. -/
  m_Fullscreen : Bool := false
  /-- `RECT m_WindowRect`: window rectangle (used to toggle fullscreen state). -/
  m_WindowRect : RECT := {}
  /-- `std::unique_ptr<BaseGameInterface> m_currentGame`: `none` when empty. -/
  m_currentGame : Option Nat := none
  /-- `std::unique_ptr<CommandQueue> m_CommandQueue`: `none` when empty. -/
  m_CommandQueue : Option Nat := none
  /-- The call log. -/
  trace : List Call := []

/-- Append one entry to the call log. -/
def DX12App.log (a : DX12App) (c : Call) : DX12App :=
  { a with trace := a.trace ++ [c] }

/-- The array `m_BackBuffers` with slot `i` replaced by `v`. -/
def setSlot (slots : Nat → Option Nat) (i : Nat) (v : Option Nat) : Nat → Option Nat :=
  fun j => if j = i then v else slots j

/-- The value an outcome carries, if it is a normal return. -/
def Outcome.toOption {α : Type} : Outcome α → Option α
  | Outcome.ok a => some a
  | Outcome.threw => none
  | Outcome.hang => none

/-- The call `m_CommandQueue->Flush()`.  The class `CommandQueue` lies outside
`DX12App.cpp`: the call is logged and its outcome is the device's. -/
def commandQueueFlush (dev : Device) : Prog DX12App Unit := fun a =>
  (dev.cqFlush a.trace.length, a.log Call.CommandQueueFlush)

/-- The call `m_CommandQueue->GetCommandList()`. -/
def commandQueueGetCommandList (dev : Device) : Prog DX12App Nat := fun a =>
  (dev.cqGetCommandList a.trace.length,
    a.log (Call.GetCommandList (dev.cqGetCommandList a.trace.length).toOption))

/-- The call `m_CommandQueue->ExecuteCommandList( commandList )`. -/
def commandQueueExecuteCommandList (dev : Device) (commandList : Nat) : Prog DX12App Nat :=
  fun a =>
    (dev.cqExecute a.trace.length,
      a.log (Call.ExecuteCommandList commandList (dev.cqExecute a.trace.length).toOption))

/-- The call `m_CommandQueue->WaitForFenceValue( fenceValue )`. -/
def commandQueueWaitForFenceValue (dev : Device) (fenceValue : Nat) : Prog DX12App Unit :=
  fun a => (dev.cqWait a.trace.length, a.log (Call.CommandQueueWaitForFenceValue fenceValue))

/-- The statement `backBuffer.Reset()` on `m_BackBuffers[i]`. -/
def backBufferReset (i : Nat) : Prog DX12App Unit := fun a =>
  (Outcome.ok (),
    { a with m_BackBuffers := setSlot a.m_BackBuffers i none }.log (Call.BackBufferReset i))

/-- The statement `m_BackBuffers[i] = backBuffer`. -/
def backBufferStore (i : Nat) (backBuffer : Nat) : Prog DX12App Unit := fun a =>
  (Outcome.ok (),
    { a with m_BackBuffers := setSlot a.m_BackBuffers i (some backBuffer) }.log
      (Call.BackBufferStore i backBuffer))

/-- The call `m_SwapChain->GetDesc( &swapChainDesc )`: the `HRESULT`, and the
fields `BufferDesc.Format` and `Flags` of the description. -/
def swapChainGetDesc (dev : Device) : Prog DX12App (Int × Nat × Nat) := fun a =>
  let r := (dev.hrGetDesc a.trace.length, dev.descFormat a.trace.length, dev.descFlags a.trace.length)
  (Outcome.ok r, a.log (Call.GetDesc r.1 r.2.1 r.2.2))

/-- The call `m_SwapChain->ResizeBuffers( count, width, height, format, flags )`. -/
def swapChainResizeBuffers (dev : Device) (count width height format flags : Nat) :
    Prog DX12App Int := fun a =>
  (Outcome.ok (dev.hrResizeBuffers a.trace.length),
    a.log (Call.ResizeBuffers count width height format flags (dev.hrResizeBuffers a.trace.length)))

/-- The call `m_SwapChain->GetCurrentBackBufferIndex()`. -/
def swapChainGetCurrentBackBufferIndex (dev : Device) : Prog DX12App Nat := fun a =>
  (Outcome.ok (dev.currentBackBufferIndex a.trace.length),
    a.log (Call.GetCurrentBackBufferIndex (dev.currentBackBufferIndex a.trace.length)))

/-- The call `m_Device->GetDescriptorHandleIncrementSize( D3D12_DESCRIPTOR_HEAP_TYPE_RTV )`. -/
def deviceGetDescriptorHandleIncrementSize (dev : Device) : Prog DX12App Nat := fun a =>
  (Outcome.ok (dev.descriptorSize a.trace.length),
    a.log (Call.GetDescriptorHandleIncrementSize (dev.descriptorSize a.trace.length)))

/-- The call `descriptorHeap->GetCPUDescriptorHandleForHeapStart()`. -/
def heapGetCPUDescriptorHandleForHeapStart (dev : Device) : Prog DX12App Nat := fun a =>
  (Outcome.ok (dev.heapStart a.trace.length),
    a.log (Call.GetCPUDescriptorHandleForHeapStart (dev.heapStart a.trace.length)))

/-- The call `swapChain->GetBuffer( i, IID_PPV_ARGS( &backBuffer ) )`: the
`HRESULT` and the resource. -/
def swapChainGetBuffer (dev : Device) (i : Nat) : Prog DX12App (Int × Nat) := fun a =>
  (Outcome.ok (dev.hrGetBuffer a.trace.length, dev.buffer a.trace.length),
    a.log (Call.GetBuffer i (dev.hrGetBuffer a.trace.length) (dev.buffer a.trace.length)))

/-- The call `m_Device->CreateRenderTargetView( backBuffer.Get(), nullptr, rtvHandle )`. -/
def deviceCreateRenderTargetView (backBuffer : Option Nat) (rtvHandle : Nat) :
    Prog DX12App Unit := fun a =>
  (Outcome.ok (), a.log (Call.CreateRenderTargetView backBuffer rtvHandle))

/-- The call `commandList->ResourceBarrier( 1, &barrier )` for the barrier
`CD3DX12_RESOURCE_BARRIER::Transition( resource, before, after )`. -/
def commandListResourceBarrier (commandList : Nat) (resource : Option Nat)
    (before after : Nat) : Prog DX12App Unit := fun a =>
  (Outcome.ok (), a.log (Call.ResourceBarrier commandList resource before after))

/-- The call `commandList->ClearRenderTargetView( rtv, clearColor, 0, nullptr )`. -/
def commandListClearRenderTargetView (commandList : Nat) (rtv : Nat) : Prog DX12App Unit :=
  fun a => (Outcome.ok (), a.log (Call.ClearRenderTargetView commandList rtv))

/-- The call `m_SwapChain->Present( syncInterval, presentFlags )`. -/
def swapChainPresent (dev : Device) (syncInterval presentFlags : Nat) : Prog DX12App Int :=
  fun a =>
    (Outcome.ok (dev.hrPresent a.trace.length),
      a.log (Call.Present syncInterval presentFlags (dev.hrPresent a.trace.length)))

/-- The loop `for ( int i = 0; i < m_NumFrames; ++i )` of
`DX12App::UpdateRenderTargetViews` (`DX12App.cpp`, lines 330-340), with
`remaining` iterations to go from index `i` on. -/
def UpdateRenderTargetViews.loop (dev : Device) :
    (remaining : Nat) → (i : Nat) → (rtvHandle : Nat) → Prog DX12App Unit
  | 0, _, _ => pure ()
  | remaining + 1, i, rtvHandle => do
    -- ThrowIfFailed( swapChain->GetBuffer( i, IID_PPV_ARGS( &backBuffer ) ) );
    let (hr, backBuffer) ← swapChainGetBuffer dev i
    ThrowIfFailed hr
    -- m_Device->CreateRenderTargetView( backBuffer.Get(), nullptr, rtvHandle );
    deviceCreateRenderTargetView (some backBuffer) rtvHandle
    -- m_BackBuffers[i] = backBuffer;
    backBufferStore i backBuffer
    -- rtvHandle.Offset( m_RTVDescriptorSize );
    let a ← Prog.get
    UpdateRenderTargetViews.loop dev remaining (i + 1)
      (dev.handleOffset rtvHandle a.m_RTVDescriptorSize)

/-- `DX12App::UpdateRenderTargetViews` (`DX12App.cpp`, lines 323-341). -/
def UpdateRenderTargetViews (dev : Device) : Prog DX12App Unit := do
  -- m_RTVDescriptorSize = m_Device->GetDescriptorHandleIncrementSize( ... );
  let size ← deviceGetDescriptorHandleIncrementSize dev
  Prog.modify (fun a => { a with m_RTVDescriptorSize := size })
  -- CD3DX12_CPU_DESCRIPTOR_HANDLE rtvHandle( descriptorHeap->GetCPUDescriptorHandleForHeapStart() );
  let rtvHandle ← heapGetCPUDescriptorHandleForHeapStart dev
  UpdateRenderTargetViews.loop dev m_NumFrames 0 rtvHandle

/-- The loop `for ( auto& backBuffer : m_BackBuffers ) backBuffer.Reset();` of
`DX12App::Resize` (`DX12App.cpp`, lines 499-504), with `remaining` slots to go
from index `i` on. -/
def Resize.resetLoop : (remaining : Nat) → (i : Nat) → Prog DX12App Unit
  | 0, _ => pure ()
  | remaining + 1, i => do
    backBufferReset i
    Resize.resetLoop remaining (i + 1)

/-- `DX12App::Resize` (`DX12App.cpp`, lines 487-515). -/
def Resize (dev : Device) (width height : Nat) : Prog DX12App Unit := do
  let a ← Prog.get
  -- if ( m_ClientWidth != width || m_ClientHeight != height )
  if a.m_ClientWidth ≠ width ∨ a.m_ClientHeight ≠ height then
    -- m_ClientWidth = std::max( 1u, width ); m_ClientHeight = std::max( 1u, height );
    Prog.modify (fun a =>
      { a with m_ClientWidth := max 1 width, m_ClientHeight := max 1 height })
    -- m_CommandQueue->Flush();
    commandQueueFlush dev
    -- for ( auto& backBuffer : m_BackBuffers ) backBuffer.Reset();
    Resize.resetLoop m_NumFrames 0
    -- ThrowIfFailed( m_SwapChain->GetDesc( &swapChainDesc ) );
    let (hr, format, flags) ← swapChainGetDesc dev
    ThrowIfFailed hr
    -- ThrowIfFailed( m_SwapChain->ResizeBuffers( m_NumFrames, m_ClientWidth, m_ClientHeight,
    --     swapChainDesc.BufferDesc.Format, swapChainDesc.Flags ) );
    let a ← Prog.get
    let hr ← swapChainResizeBuffers dev m_NumFrames a.m_ClientWidth a.m_ClientHeight format flags
    ThrowIfFailed hr
    -- m_CurrentBackBufferIndex = m_SwapChain->GetCurrentBackBufferIndex();
    let index ← swapChainGetCurrentBackBufferIndex dev
    Prog.modify (fun a => { a with m_CurrentBackBufferIndex := index })
    -- UpdateRenderTargetViews( m_SwapChain, m_RTVDescriptorHeap );
    UpdateRenderTargetViews dev
  else
    pure ()

/-- The expression `m_VSync ? 1 : 0` of `DX12App::Render` (line 477). -/
def syncInterval (m_VSync : Bool) : Nat := if m_VSync then 1 else 0

/-- The expression `m_TearingSupported && !m_VSync ? DXGI_PRESENT_ALLOW_TEARING : 0`
of `DX12App::Render` (line 478). -/
def presentFlags (m_TearingSupported m_VSync : Bool) : Nat :=
  if m_TearingSupported && !m_VSync then DXGI_PRESENT_ALLOW_TEARING else 0

/-- `DX12App::Render` (`DX12App.cpp`, lines 448-485). -/
def Render (dev : Device) : Prog DX12App Unit := do
  let a ← Prog.get
  -- auto backBuffer = m_BackBuffers[m_CurrentBackBufferIndex];
  let backBuffer := a.m_BackBuffers a.m_CurrentBackBufferIndex
  -- commandList = m_CommandQueue->GetCommandList();
  let commandList ← commandQueueGetCommandList dev
  -- barrier = Transition( backBuffer.Get(), PRESENT, RENDER_TARGET ); ResourceBarrier( 1, &barrier );
  commandListResourceBarrier commandList backBuffer
    D3D12_RESOURCE_STATE_PRESENT D3D12_RESOURCE_STATE_RENDER_TARGET
  -- rtv( m_RTVDescriptorHeap->GetCPUDescriptorHandleForHeapStart(),
  --      m_CurrentBackBufferIndex, m_RTVDescriptorSize );
  let heapStart ← heapGetCPUDescriptorHandleForHeapStart dev
  let rtv := dev.handleAt heapStart a.m_CurrentBackBufferIndex a.m_RTVDescriptorSize
  -- commandList->ClearRenderTargetView( rtv, clearColor, 0, nullptr );
  commandListClearRenderTargetView commandList rtv
  -- barrier = Transition( backBuffer.Get(), RENDER_TARGET, PRESENT ); ResourceBarrier( 1, &barrier );
  commandListResourceBarrier commandList backBuffer
    D3D12_RESOURCE_STATE_RENDER_TARGET D3D12_RESOURCE_STATE_PRESENT
  -- const uint64_t fenceValueToWaitOn = m_CommandQueue->ExecuteCommandList( commandList );
  let fenceValueToWaitOn ← commandQueueExecuteCommandList dev commandList
  -- ThrowIfFailed( m_SwapChain->Present( syncInterval, presentFlags ) );
  let hr ← swapChainPresent dev (syncInterval a.m_VSync)
    (presentFlags a.m_TearingSupported a.m_VSync)
  ThrowIfFailed hr
  -- m_CurrentBackBufferIndex = m_SwapChain->GetCurrentBackBufferIndex();
  let index ← swapChainGetCurrentBackBufferIndex dev
  Prog.modify (fun a => { a with m_CurrentBackBufferIndex := index })
  -- m_CommandQueue->WaitForFenceValue( fenceValueToWaitOn );
  commandQueueWaitForFenceValue dev fenceValueToWaitOn

/-- The render loop runs `Render` for `n` frames, one after the other. -/
def renderFrames (dev : Device) : Nat → Prog DX12App Unit
  | 0 => pure ()
  | n + 1 => do
    Render dev
    renderFrames dev n

/-- Whether a log entry is an `ExecuteCommandList` call. -/
def isExecuteCommandList : Call → Bool
  | Call.ExecuteCommandList _ _ => true
  | _ => false

/-- Whether a log entry is a swap-chain `Present` call. -/
def isPresent : Call → Bool
  | Call.Present _ _ _ => true
  | _ => false

/-! ## The window: fullscreen toggle and key events -/

/-- The two's complement bit pattern of an `int`, as a natural number below
`2 ^ 32`. -/
def bits32 (z : Int) : Nat := (z % 4294967296).toNat

/-- The call `::GetWindowRect( m_hWnd, &m_WindowRect )`: the rectangle that the
window manager reports is written to `m_WindowRect`. -/
def getWindowRect (dev : Device) : Prog DX12App Unit := fun a =>
  (Outcome.ok (),
    { a.log (Call.GetWindowRect (dev.windowRect a.trace.length)) with
      m_WindowRect := dev.windowRect a.trace.length })

/-- The call `::SetWindowLong( m_hWnd, index, style )`. -/
def setWindowLong (index : Int) (style : Nat) : Prog DX12App Unit := fun a =>
  (Outcome.ok (), a.log (Call.SetWindowLong index style))

/-- The call `::MonitorFromWindow( m_hWnd, flags )`. -/
def monitorFromWindow (dev : Device) (flags : Nat) : Prog DX12App Nat := fun a =>
  (Outcome.ok (dev.monitor a.trace.length),
    a.log (Call.MonitorFromWindow flags (dev.monitor a.trace.length)))

/-- The call `::GetMonitorInfo( hMonitor, &monitorInfo )`; the result is
`monitorInfo.rcMonitor`. -/
def getMonitorInfo (dev : Device) (hMonitor : Nat) : Prog DX12App RECT := fun a =>
  (Outcome.ok (dev.rcMonitor a.trace.length),
    a.log (Call.GetMonitorInfo hMonitor (dev.rcMonitor a.trace.length)))

/-- The call `::SetWindowPos( m_hWnd, insertAfter, x, y, cx, cy, flags )`. -/
def setWindowPos (insertAfter x y cx cy : Int) (flags : Nat) : Prog DX12App Unit := fun a =>
  (Outcome.ok (), a.log (Call.SetWindowPos insertAfter x y cx cy flags))

/-- The call `::ShowWindow( m_hWnd, cmd )`. -/
def showWindow (cmd : Nat) : Prog DX12App Unit := fun a =>
  (Outcome.ok (), a.log (Call.ShowWindow cmd))

/-- The call `::GetAsyncKeyState( vKey )`. -/
def getAsyncKeyState (dev : Device) (vKey : Nat) : Prog DX12App Int := fun a =>
  (Outcome.ok (dev.asyncKeyState a.trace.length),
    a.log (Call.GetAsyncKeyState vKey (dev.asyncKeyState a.trace.length)))

/-- The call `::PostQuitMessage( exitCode )`. -/
def postQuitMessage (exitCode : Int) : Prog DX12App Unit := fun a =>
  (Outcome.ok (), a.log (Call.PostQuitMessage exitCode))

/-- The local `windowStyle` of `DX12App::SetFullscreen` (line 530):
`WS_OVERLAPPEDWINDOW & ~( WS_CAPTION | WS_SYSMENU | WS_THICKFRAME |
WS_MINIMIZEBOX | WS_MAXIMIZEBOX )`, a `UINT`. -/
def windowStyle : Nat :=
  WS_OVERLAPPEDWINDOW &&&
    (4294967295 ^^^
      (WS_CAPTION ||| WS_SYSMENU ||| WS_THICKFRAME ||| WS_MINIMIZEBOX ||| WS_MAXIMIZEBOX))

/-- `DX12App::SetFullscreen` (`DX12App.cpp`, lines 517-566).  The results of the
Win32 calls are not inspected by the code; a difference of two `LONG`
coordinates is reduced to the `LONG` range. -/
def SetFullscreen (dev : Device) (fullscreen : Bool) : Prog DX12App Unit := do
  let a ← Prog.get
  -- if ( m_Fullscreen != fullscreen )
  if a.m_Fullscreen ≠ fullscreen then
    -- m_Fullscreen = fullscreen;
    Prog.modify (fun a => { a with m_Fullscreen := fullscreen })
    let a ← Prog.get
    -- if ( m_Fullscreen ) // Switching to fullscreen.
    if a.m_Fullscreen then
      -- ::GetWindowRect( m_hWnd, &m_WindowRect );
      getWindowRect dev
      -- ::SetWindowLongW( m_hWnd, GWL_STYLE, windowStyle );
      setWindowLong GWL_STYLE windowStyle
      -- HMONITOR hMonitor = ::MonitorFromWindow( m_hWnd, MONITOR_DEFAULTTONEAREST );
      let hMonitor ← monitorFromWindow dev MONITOR_DEFAULTTONEAREST
      -- ::GetMonitorInfo( hMonitor, &monitorInfo );
      let rcMonitor ← getMonitorInfo dev hMonitor
      -- ::SetWindowPos( m_hWnd, HWND_TOP, rcMonitor.left, rcMonitor.top,
      --     rcMonitor.right - rcMonitor.left, rcMonitor.bottom - rcMonitor.top,
      --     SWP_FRAMECHANGED | SWP_NOACTIVATE );
      setWindowPos HWND_TOP rcMonitor.left rcMonitor.top
        (toLONG (rcMonitor.right - rcMonitor.left))
        (toLONG (rcMonitor.bottom - rcMonitor.top))
        (SWP_FRAMECHANGED ||| SWP_NOACTIVATE)
      -- ::ShowWindow( m_hWnd, SW_MAXIMIZE );
      showWindow SW_MAXIMIZE
    else
      -- ::SetWindowLong( m_hWnd, GWL_STYLE, WS_OVERLAPPEDWINDOW );
      setWindowLong GWL_STYLE WS_OVERLAPPEDWINDOW
      -- ::SetWindowPos( m_hWnd, HWND_NOTOPMOST, m_WindowRect.left, m_WindowRect.top,
      --     m_WindowRect.right - m_WindowRect.left, m_WindowRect.bottom - m_WindowRect.top,
      --     SWP_FRAMECHANGED | SWP_NOACTIVATE );
      setWindowPos HWND_NOTOPMOST a.m_WindowRect.left a.m_WindowRect.top
        (toLONG (a.m_WindowRect.right - a.m_WindowRect.left))
        (toLONG (a.m_WindowRect.bottom - a.m_WindowRect.top))
        (SWP_FRAMECHANGED ||| SWP_NOACTIVATE)
      -- ::ShowWindow( m_hWnd, SW_NORMAL );
      showWindow SW_NORMAL
  else
    pure ()

/-- The local `alt` of `DX12App::OnKeyEvent` (line 77):
`( ::GetAsyncKeyState( VK_MENU ) & 0x8000 ) != 0`, for the `SHORT` that the call
gave. -/
def alt (state : Int) : Bool := (bits32 state &&& 0x8000) != 0

/-- `DX12App::OnKeyEvent` (`DX12App.cpp`, lines 75-95).  The label `case VK_F11:`
stands inside the block of `if ( alt )` under `case VK_RETURN:`, so that block
is entered for `VK_F11` whatever `alt` is, and for `VK_RETURN` when `alt`
holds. -/
def OnKeyEvent (dev : Device) (wParam : Nat) : Prog DX12App Unit := do
  -- bool alt = ( ::GetAsyncKeyState( VK_MENU ) & 0x8000 ) != 0;
  let state ← getAsyncKeyState dev VK_MENU
  -- switch ( wParam )
  if wParam = KEY_V then
    -- case 'V': m_VSync = !m_VSync; break;
    Prog.modify (fun a => { a with m_VSync := !a.m_VSync })
  else if wParam = VK_ESCAPE then
    -- case VK_ESCAPE: ::PostQuitMessage( 0 ); break;
    postQuitMessage 0
  else if wParam = VK_RETURN then
    -- case VK_RETURN: if ( alt ) { SetFullscreen( !m_Fullscreen ); } break;
    if alt state then do
      let a ← Prog.get
      SetFullscreen dev (!a.m_Fullscreen)
    else
      pure ()
  else if wParam = VK_F11 then do
    -- case VK_F11: SetFullscreen( !m_Fullscreen ); break;
    let a ← Prog.get
    SetFullscreen dev (!a.m_Fullscreen)
  else
    pure ()

/-! ## Shutdown -/

/-- The call `m_currentGame->UnloadResources()`, a virtual call: it is logged
and its outcome is the device's. -/
def gameUnloadResources (dev : Device) : Prog DX12App Unit := fun a =>
  (dev.gameUnloadResources a.trace.length, a.log Call.GameUnloadResources)

/-- What DXGI and Direct3D answer for one adapter of an enumeration. -/
structure Adapter where
  /-- `dxgiAdapterDesc1.Flags` written by `GetDesc1`. -/
  Flags : Nat := 0
  /-- `dxgiAdapterDesc1.DedicatedVideoMemory` written by `GetDesc1`, a `SIZE_T`. -/
  DedicatedVideoMemory : Nat := 0
  /-- `HRESULT` of `D3D12CreateDevice( adapter, D3D_FEATURE_LEVEL_11_0,
  __uuidof( ID3D12Device ), nullptr )`. -/
  hrCreateDevice : Int := 0
  /-- `HRESULT` of `dxgiAdapter1.As( &dxgiAdapter4 )`. -/
  hrAs : Int := 0
  deriving DecidableEq

/-- What the DXGI factory answers: `EnumAdapters1( i, ... )` succeeds for the
indices of `adapters` and gives `DXGI_ERROR_NOT_FOUND` from its length on. -/
structure Factory where
  /-- `HRESULT` of `CreateDXGIFactory2`. -/
  hrCreateDXGIFactory2 : Int := 0
  /-- `HRESULT` of `dxgiFactory->EnumWarpAdapter`. -/
  hrEnumWarpAdapter : Int := 0
  /-- `HRESULT` of `dxgiAdapter1.As( &dxgiAdapter4 )` for the WARP adapter. -/
  hrWarpAs : Int := 0
  /-- The adapters, in enumeration order. -/
  adapters : List Adapter := []

/-- The adapter that a `ComPtr<IDXGIAdapter4>` holds. -/
inductive AdapterRef where
  /-- The WARP adapter. -/
  | warp
  /-- The adapter with index `i` of the enumeration. -/
  | enumerated (i : Nat)
  deriving DecidableEq

/-- The loop `for ( UINT i = 0; dxgiFactory->EnumAdapters1( i, &dxgiAdapter1 ) !=
DXGI_ERROR_NOT_FOUND; ++i )` of `DX12App::GetAdapter` (`DX12App.cpp`, lines
151-168) over the adapters still to come, with the locals `i`,
`maxDedicatedVideoMemory` and `dxgiAdapter4`.  An enumeration is indexed by a
`UINT`, so `++i` does not wrap before it ends. -/
def GetAdapter.loop : List Adapter → (i : Nat) → (maxDedicatedVideoMemory : Nat) →
    (dxgiAdapter4 : Option AdapterRef) → Prog DX12App (Option AdapterRef)
  | [], _, _, dxgiAdapter4 => pure dxgiAdapter4
  | dxgiAdapterDesc1 :: rest, i, maxDedicatedVideoMemory, dxgiAdapter4 =>
    -- if ( ( dxgiAdapterDesc1.Flags & DXGI_ADAPTER_FLAG_SOFTWARE ) == 0 )
    if dxgiAdapterDesc1.Flags &&& DXGI_ADAPTER_FLAG_SOFTWARE = 0 then
      -- if ( SUCCEEDED( D3D12CreateDevice( ... ) ) &&
      --     dxgiAdapterDesc1.DedicatedVideoMemory > maxDedicatedVideoMemory )
      if SUCCEEDED dxgiAdapterDesc1.hrCreateDevice &&
          decide (dxgiAdapterDesc1.DedicatedVideoMemory > maxDedicatedVideoMemory) then do
        -- maxDedicatedVideoMemory = dxgiAdapterDesc1.DedicatedVideoMemory;
        -- ThrowIfFailed( dxgiAdapter1.As( &dxgiAdapter4 ) );
        ThrowIfFailed dxgiAdapterDesc1.hrAs
        GetAdapter.loop rest (i + 1) dxgiAdapterDesc1.DedicatedVideoMemory
          (some (AdapterRef.enumerated i))
      else
        GetAdapter.loop rest (i + 1) maxDedicatedVideoMemory dxgiAdapter4
    else
      GetAdapter.loop rest (i + 1) maxDedicatedVideoMemory dxgiAdapter4

/-- `DX12App::GetAdapter` (`DX12App.cpp`, lines 128-172).  The function reads and
writes no data member; what DXGI answers is the argument `factory`.  The result
is the adapter that `dxgiAdapter4` holds, `none` for a null pointer. -/
def GetAdapter (factory : Factory) (useWarp : Bool) : Prog DX12App (Option AdapterRef) := do
  -- ThrowIfFailed( CreateDXGIFactory2( createFactoryFlags, IID_PPV_ARGS( &dxgiFactory ) ) );
  ThrowIfFailed factory.hrCreateDXGIFactory2
  if useWarp then
    -- ThrowIfFailed( dxgiFactory->EnumWarpAdapter( IID_PPV_ARGS( &dxgiAdapter1 ) ) );
    ThrowIfFailed factory.hrEnumWarpAdapter
    -- ThrowIfFailed( dxgiAdapter1.As( &dxgiAdapter4 ) );
    ThrowIfFailed factory.hrWarpAs
    pure (some AdapterRef.warp)
  else
    -- SIZE_T maxDedicatedVideoMemory = 0; for ( UINT i = 0; ...; ++i ) ...
    GetAdapter.loop factory.adapters 0 0 none

/-- An adapter that the comment of `GetAdapter` counts as a candidate: it is not
flagged as a software adapter and it can create a feature level 11_0 device. -/
def eligible (adapter : Adapter) : Bool :=
  (adapter.Flags &&& DXGI_ADAPTER_FLAG_SOFTWARE == 0) && SUCCEEDED adapter.hrCreateDevice

/-! ## Transition barriers -/

/-- The Direct3D 12 rule for transition barriers, applied to the entries of a
call log in order: a barrier on `resource` must name the state the resource is
in as its `before` state, and leaves the resource in its `after` state.  The
result is the state of `resource` after the log, or `none` when a barrier names
a wrong `before` state. -/
def resourceStateAfter (resource : Option Nat) : (state : Nat) → List Call → Option Nat
  | state, [] => some state
  | state, Call.ResourceBarrier _ r before after :: rest =>
    if r = resource then
      if before = state then resourceStateAfter resource after rest else none
    else resourceStateAfter resource state rest
  | state, _ :: rest => resourceStateAfter resource state rest

/-- Whether a log entry is a `ResourceBarrier` call. -/
def isResourceBarrier : Call → Bool
  | Call.ResourceBarrier _ _ _ _ => true
  | _ => false

/-- Whether a log entry records a command on a command list: a barrier or a
clear. -/
def isCommand : Call → Bool
  | Call.ResourceBarrier _ _ _ _ => true
  | Call.ClearRenderTargetView _ _ => true
  | _ => false

/-! ## The scene: `TexturedDemoBoxGame` -/

/-- The value `CD3DX12_VIEWPORT( 0.0f, 0.0f, static_cast<float>( width ),
static_cast<float>( height ) )`, identified by the two integers it is built
from. -/
structure Viewport where
  /-- The integer converted to `Width`. -/
  Width : Int := 0
  /-- The integer converted to `Height`. -/
  Height : Int := 0
  deriving DecidableEq

/-- The data members of `TexturedDemoBoxGame` that `Resize` and
`ResizeDepthBuffer` read or write, and the call log. -/
structure TexturedDemoBoxGame where
  /-- `int m_Width`. -/
  m_Width : Int := 0
  /-- `int m_Height`. -/
  m_Height : Int := 0
  /-- `D3D12_VIEWPORT m_Viewport`. -/
  m_Viewport : Viewport := {}
  /-- `bool m_ContentLoaded`. -/
  m_ContentLoaded : Bool := false
  /-- `ComPtr<ID3D12Resource> m_DepthBuffer`. -/
  m_DepthBuffer : Option Nat := none
  /-- The call log. -/
  trace : List Call := []
  deriving DecidableEq

/-- Append one entry to the call log of the scene. -/
def TexturedDemoBoxGame.log (g : TexturedDemoBoxGame) (c : Call) : TexturedDemoBoxGame :=
  { g with trace := g.trace ++ [c] }

/-- The constructor `TexturedDemoBoxGame::TexturedDemoBoxGame`
(`TexturedDemoBoxGame.cpp`, lines 17-28), for the rectangle that
`::GetWindowRect` wrote to `windowRect`. -/
def TexturedDemoBoxGame.construct (windowRect : RECT) : TexturedDemoBoxGame :=
  { m_Width := toLONG (windowRect.right - windowRect.left),
    m_Height := toLONG (windowRect.bottom - windowRect.top),
    m_Viewport :=
      { Width := toLONG (windowRect.right - windowRect.left),
        Height := toLONG (windowRect.bottom - windowRect.top) },
    m_ContentLoaded := false }

/-- The accessor `GetClientWidth()`: `return m_Width;` (`DemoBoxGame.h`, lines
25-28; the header of `TexturedDemoBoxGame` is not among the sources). -/
def TexturedDemoBoxGame.GetClientWidth (g : TexturedDemoBoxGame) : Int := g.m_Width

/-- The accessor `GetClientHeight()`: `return m_Height;` (`DemoBoxGame.h`, lines
30-33). -/
def TexturedDemoBoxGame.GetClientHeight (g : TexturedDemoBoxGame) : Int := g.m_Height

/-- The assignment `m_Viewport = CD3DX12_VIEWPORT( 0.0f, 0.0f, width, height )`. -/
def viewportStore (width height : Int) : Prog TexturedDemoBoxGame Unit := fun g =>
  (Outcome.ok (),
    { g.log (Call.ViewportStore width height) with
      m_Viewport := { Width := width, Height := height } })

/-- The call `device->CreateCommittedResource( ..., IID_PPV_ARGS( &m_DepthBuffer ) )`
for a depth texture of the given size: `m_DepthBuffer` is released, and holds
the new resource when the call succeeds. -/
def createCommittedResource (dev : Device) (width height : Int) :
    Prog TexturedDemoBoxGame Int := fun g =>
  (Outcome.ok (dev.hrCreateCommittedResource g.trace.length),
    { g.log (Call.CreateCommittedResource width height
        (dev.hrCreateCommittedResource g.trace.length)
        (dev.committedResource g.trace.length)) with
      m_DepthBuffer :=
        if FAILED (dev.hrCreateCommittedResource g.trace.length) then none
        else some (dev.committedResource g.trace.length) })

/-- The call `device->CreateDepthStencilView( m_DepthBuffer.Get(), &dsv, ... )`. -/
def createDepthStencilView : Prog TexturedDemoBoxGame Unit := fun g =>
  (Outcome.ok (), g.log (Call.CreateDepthStencilView g.m_DepthBuffer))

/-- `TexturedDemoBoxGame::ResizeDepthBuffer` (`TexturedDemoBoxGame.cpp`, lines
214-250).  The call itself is logged on entry. -/
def TexturedDemoBoxGame.ResizeDepthBuffer (dev : Device) (width height : Int) :
    Prog TexturedDemoBoxGame Unit := do
  Prog.modify (fun g => g.log (Call.ResizeDepthBuffer width height))
  let g ← Prog.get
  -- if ( m_ContentLoaded )
  if g.m_ContentLoaded then
    -- width = std::max( 1, width ); height = std::max( 1, height );
    let width := max 1 width
    let height := max 1 height
    -- ThrowIfFailed( device->CreateCommittedResource( ..., IID_PPV_ARGS( &m_DepthBuffer ) ) );
    let hr ← createCommittedResource dev width height
    ThrowIfFailed hr
    -- device->CreateDepthStencilView( m_DepthBuffer.Get(), &dsv, ... );
    createDepthStencilView
  else
    pure ()

/-- `TexturedDemoBoxGame::Resize` (`TexturedDemoBoxGame.cpp`, lines 252-261), for
`args.Width` and `args.Height`. -/
def TexturedDemoBoxGame.Resize (dev : Device) (Width Height : Int) :
    Prog TexturedDemoBoxGame Unit := do
  let g ← Prog.get
  -- if ( args.Width != GetClientWidth() || args.Height != GetClientHeight() )
  if Width ≠ g.GetClientWidth ∨ Height ≠ g.GetClientHeight then
    -- m_Viewport = CD3DX12_VIEWPORT( 0.0f, 0.0f, args.Width, args.Height );
    viewportStore Width Height
    -- ResizeDepthBuffer( args.Width, args.Height );
    TexturedDemoBoxGame.ResizeDepthBuffer dev Width Height
  else
    pure ()

/-- Whether a log entry is a call of `ResizeDepthBuffer`. -/
def isResizeDepthBuffer : Call → Bool
  | Call.ResizeDepthBuffer _ _ => true
  | _ => false

/-- Whether a log entry is an assignment to `m_Viewport`. -/
def isViewportStore : Call → Bool
  | Call.ViewportStore _ _ => true
  | _ => false

/-- Whether a log entry is a queue `Signal`, `GetDesc`, `ResizeBuffers` or
`Present` call that gave a failure code. -/
def isFailedCall : Call → Bool
  | Call.QueueSignal _ hr => FAILED hr
  | Call.GetDesc hr _ _ => FAILED hr
  | Call.ResizeBuffers _ _ _ _ _ hr => FAILED hr
  | Call.Present _ _ hr => FAILED hr
  | _ => false

/-- Whether a log entry is a `GetBuffer` call that gave a failure code. -/
def isFailedGetBuffer : Call → Bool
  | Call.GetBuffer _ hr _ => FAILED hr
  | _ => false

/-! # Theorems -/

/-! ## Programs and the call log -/

/-- Sequencing after a normal return runs the continuation. -/
theorem Prog.bind_of_ok {σ α β : Type} (m : Prog σ α) (f : α → Prog σ β) (s : σ) (a : α)
    (h : (m s).1 = Outcome.ok a) : Prog.bind m f s = f a (m s).2 := by
  unfold Prog.bind
  rcases hm : m s with ⟨o, s'⟩
  rw [hm] at h
  simp only at h
  subst h
  rfl

/-- Sequencing after a throw stops with the throw. -/
theorem Prog.bind_of_threw {σ α β : Type} (m : Prog σ α) (f : α → Prog σ β) (s : σ)
    (h : (m s).1 = Outcome.threw) : Prog.bind m f s = (Outcome.threw, (m s).2) := by
  unfold Prog.bind
  rcases hm : m s with ⟨o, s'⟩
  rw [hm] at h
  simp only at h
  subst h
  rfl

/-- Sequencing after a wait that never returns stops there. -/
theorem Prog.bind_of_hang {σ α β : Type} (m : Prog σ α) (f : α → Prog σ β) (s : σ)
    (h : (m s).1 = Outcome.hang) : Prog.bind m f s = (Outcome.hang, (m s).2) := by
  unfold Prog.bind
  rcases hm : m s with ⟨o, s'⟩
  rw [hm] at h
  simp only at h
  subst h
  rfl

/-- Sequencing after `ThrowIfFailed` is a test of the `HRESULT`. -/
theorem Prog.bind_ThrowIfFailed {σ β : Type} (hr : Int) (f : Unit → Prog σ β) :
    Prog.bind (ThrowIfFailed hr) f =
      fun s => if FAILED hr then (Outcome.threw, s) else f () s := by
  funext s
  unfold Prog.bind ThrowIfFailed
  split_ifs <;> rfl

/-- The entries appended to a log are the new calls. -/
theorem newCalls_append (t l : List Call) : newCalls t (t ++ l) = l := by
  simp [newCalls]

/-- The issued markers of a log in two parts. -/
theorem issuedMarkers_append (l₁ l₂ : List Call) :
    issuedMarkers (l₁ ++ l₂) = issuedMarkers l₁ ++ issuedMarkers l₂ := by
  induction l₁ with
  | nil => rfl
  | cons c l ih =>
    cases c <;> simp [issuedMarkers, ih]
    split <;> simp

/-! ## The GPU model -/

/-- A GPU step leaves an event without registrations as it is. -/
theorem gpuStep_clean (g : Gpu) (h : g.armed = []) :
    (gpuStep g).armed = [] ∧ (gpuStep g).eventSet = g.eventSet := by
  unfold gpuStep
  split <;> simp [h]

/-- GPU progress leaves an event without registrations as it is. -/
theorem gpuRun_clean (n : Nat) (g : Gpu) (h : g.armed = []) :
    (gpuRun n g).armed = [] ∧ (gpuRun n g).eventSet = g.eventSet := by
  induction n generalizing g with
  | zero => exact ⟨h, rfl⟩
  | succ n ih =>
    have hs := gpuStep_clean g h
    have := ih (gpuStep g) hs.1
    simp only [gpuRun]
    exact ⟨this.1, this.2.trans hs.2⟩

/-- A wait on a signalled event ends at once. -/
theorem gpuRunUntilEvent_of_eventSet (n : Nat) (g : Gpu) (h : g.eventSet = true) :
    gpuRunUntilEvent n g = g := by
  cases n <;> simp [gpuRunUntilEvent, h]

/-- A wait on an event that is registered for `m` alone wakes only once the
fence has reached `m`. -/
theorem gpuRunUntilEvent_armed (m : Nat) (n : Nat) (g : Gpu)
    (harmed : g.armed = [m]) (hset : g.eventSet = false)
    (hwake : (gpuRunUntilEvent n g).eventSet = true) :
    m ≤ (gpuRunUntilEvent n g).completed := by
  induction n generalizing g with
  | zero => simp [gpuRunUntilEvent, hset] at hwake
  | succ n ih =>
    simp only [gpuRunUntilEvent, hset, Bool.false_eq_true, if_false] at hwake ⊢
    cases hp : g.pending with
    | nil =>
      have hstep : gpuStep g = g := by simp [gpuStep, hp]
      rw [hstep] at hwake ⊢
      exact ih g harmed hset hwake
    | cons p rest =>
      by_cases hmp : m ≤ p
      · have hev : (gpuStep g).eventSet = true := by simp [gpuStep, hp, harmed, hmp]
        have hc : (gpuStep g).completed = p := by simp [gpuStep, hp]
        rw [gpuRunUntilEvent_of_eventSet _ _ hev, hc]
        exact hmp
      · have hev : (gpuStep g).eventSet = false := by simp [gpuStep, hp, harmed, hset, hmp]
        have ha : (gpuStep g).armed = [m] := by
          simp [gpuStep, hp, harmed]
          omega
        exact ih (gpuStep g) ha hev hwake

/-- While the event is registered for `m` and the fence is below `m`, a wait
that ends without the event being signalled leaves the fence below `m`. -/
theorem gpuRunUntilEvent_timeout (m : Nat) (n : Nat) (g : Gpu)
    (hinv : g.eventSet = false → m ∈ g.armed ∧ g.completed < m)
    (hno : (gpuRunUntilEvent n g).eventSet = false) :
    (gpuRunUntilEvent n g).completed < m := by
  induction n generalizing g with
  | zero => exact (hinv hno).2
  | succ n ih =>
    by_cases hset : g.eventSet = true
    · rw [gpuRunUntilEvent_of_eventSet _ _ hset] at hno
      simp [hset] at hno
    · simp only [Bool.not_eq_true] at hset
      simp only [gpuRunUntilEvent, hset, Bool.false_eq_true, if_false] at hno ⊢
      apply ih (gpuStep g) _ hno
      intro hev
      obtain ⟨hmem, hlt⟩ := hinv hset
      cases hp : g.pending with
      | nil =>
        have hstep : gpuStep g = g := by simp [gpuStep, hp]
        rw [hstep]
        exact ⟨hmem, hlt⟩
      | cons p rest =>
        simp only [gpuStep, hp, hset, Bool.false_or, List.any_eq_false, decide_eq_true_eq] at hev
        have hpm : p < m := by
          have := hev m hmem
          omega
        constructor
        · simp [gpuStep, hp, hmem, hpm]
        · simp [gpuStep, hp, hpm]

/-! ## The device calls -/

/-- The entry that `GetCompletedValue` logs. -/
theorem getCompletedValue_trace (dev : Device) (s : SyncState) :
    (getCompletedValue dev s).2.trace =
      s.trace ++ [Call.GetCompletedValue (gpuRun (dev.gpuProgress s.trace.length) s.gpu).completed] :=
  rfl

/-- The value that `GetCompletedValue` reports. -/
theorem getCompletedValue_completed (dev : Device) (s : SyncState) :
    (getCompletedValue dev s).2.gpu.completed =
      (gpuRun (dev.gpuProgress s.trace.length) s.gpu).completed := rfl

/-- The entry that `SetEventOnCompletion` logs. -/
theorem setEventOnCompletion_trace (dev : Device) (m : Nat) (s : SyncState) :
    (setEventOnCompletion dev m s).2.trace =
      s.trace ++ [Call.SetEventOnCompletion m (dev.hrSetEvent s.trace.length)] := rfl

/-- After a successful `SetEventOnCompletion( m )` on a clean event, the event is
either signalled with the fence at `m`, or registered for `m` alone. -/
theorem setEventOnCompletion_clean (dev : Device) (m : Nat) (s : SyncState)
    (hclean : s.gpu.eventSet = false ∧ s.gpu.armed = [])
    (hok : FAILED (dev.hrSetEvent s.trace.length) = false) :
    ((setEventOnCompletion dev m s).2.gpu.eventSet = true ∧
        m ≤ (setEventOnCompletion dev m s).2.gpu.completed) ∨
      ((setEventOnCompletion dev m s).2.gpu.eventSet = false ∧
        (setEventOnCompletion dev m s).2.gpu.armed = [m]) := by
  have hc := gpuRun_clean (dev.gpuProgress s.trace.length) s.gpu hclean.2
  simp only [setEventOnCompletion, hok, Bool.false_eq_true, if_false]
  split_ifs with h3
  · left; exact ⟨rfl, h3⟩
  · right
    exact ⟨by simp [hc.2, hclean.1], by simp [hc.1]⟩

/-- After a successful `SetEventOnCompletion( m )` the event is signalled, or it
is registered for `m` and the fence is below `m`. -/
theorem setEventOnCompletion_inv (dev : Device) (m : Nat) (s : SyncState)
    (hok : FAILED (dev.hrSetEvent s.trace.length) = false) :
    (setEventOnCompletion dev m s).2.gpu.eventSet = false →
      m ∈ (setEventOnCompletion dev m s).2.gpu.armed ∧
        (setEventOnCompletion dev m s).2.gpu.completed < m := by
  simp only [setEventOnCompletion, hok, Bool.false_eq_true, if_false]
  split_ifs with h3
  · intro h; simp at h
  · intro _
    exact ⟨by simp, not_le.mp h3⟩

/-- The entry that `WaitForSingleObject` logs. -/
theorem waitForSingleObject_trace (dev : Device) (ms : Nat) (s : SyncState) :
    ∃ result, (waitForSingleObject dev ms s).2.trace =
      s.trace ++ [Call.WaitForSingleObject ms result] := by
  simp only [waitForSingleObject]
  generalize (if ms = INFINITE then s.gpu.pending.length else dev.gpuProgress s.trace.length) = budget
  by_cases hw : (gpuRunUntilEvent budget s.gpu).eventSet = true
  · exact ⟨some WAIT_OBJECT_0, by simp [hw]⟩
  · by_cases hinf : ms = INFINITE
    · exact ⟨none, by simp [hw, hinf]⟩
    · exact ⟨some WAIT_TIMEOUT, by simp [hw, hinf]⟩

/-- The one wait of `WaitForFenceValue`, entered with the event signalled at the
marker or registered for the marker alone: if it returns, it returns
`WAIT_OBJECT_0` with the fence at the marker, or `WAIT_TIMEOUT`. -/
theorem waitForSingleObject_armed (dev : Device) (ms m : Nat) (s : SyncState)
    (hev : (s.gpu.eventSet = true ∧ m ≤ s.gpu.completed) ∨
      (s.gpu.eventSet = false ∧ s.gpu.armed = [m]))
    (hret : (waitForSingleObject dev ms s).1 ≠ Outcome.hang) :
    ∃ result, (waitForSingleObject dev ms s).1 = Outcome.ok result ∧
      (waitForSingleObject dev ms s).2.trace =
        s.trace ++ [Call.WaitForSingleObject ms (some result)] ∧
      (result = WAIT_OBJECT_0 ∨ result = WAIT_TIMEOUT) ∧
      (result ≠ WAIT_TIMEOUT → m ≤ (waitForSingleObject dev ms s).2.gpu.completed) := by
  simp only [waitForSingleObject] at hret ⊢
  rcases hev with ⟨hset, hge⟩ | ⟨hset, harm⟩
  · rw [gpuRunUntilEvent_of_eventSet _ _ hset]
    simp only [hset, if_true]
    exact ⟨WAIT_OBJECT_0, rfl, rfl, Or.inl rfl, fun _ => hge⟩
  · generalize (if ms = INFINITE then s.gpu.pending.length else dev.gpuProgress s.trace.length) =
      budget at hret ⊢
    by_cases hw : (gpuRunUntilEvent budget s.gpu).eventSet = true
    · simp only [hw, if_true]
      exact ⟨WAIT_OBJECT_0, rfl, rfl, Or.inl rfl,
        fun _ => gpuRunUntilEvent_armed m _ s.gpu harm hset hw⟩
    · simp only [hw, if_false] at hret ⊢
      by_cases hinf : ms = INFINITE
      · simp [hinf] at hret
      · simp only [hinf, if_false]
        exact ⟨WAIT_TIMEOUT, rfl, rfl, Or.inr rfl, fun h => absurd rfl h⟩

/-- A wait that ends with `WAIT_TIMEOUT`, entered with the event signalled or
registered for `m` with the fence below `m`, returns normally and leaves the fence
below `m`. -/
theorem waitForSingleObject_timeout (dev : Device) (ms m : Nat) (s : SyncState)
    (hinv : s.gpu.eventSet = false → m ∈ s.gpu.armed ∧ s.gpu.completed < m)
    (hto : (waitForSingleObject dev ms s).2.trace.getLast? =
      some (Call.WaitForSingleObject ms (some WAIT_TIMEOUT))) :
    (waitForSingleObject dev ms s).1 = Outcome.ok WAIT_TIMEOUT ∧
    (waitForSingleObject dev ms s).2.gpu.completed < m ∧
    (waitForSingleObject dev ms s).2.fenceValue = s.fenceValue := by
  simp only [waitForSingleObject] at hto ⊢
  generalize (if ms = INFINITE then s.gpu.pending.length else dev.gpuProgress s.trace.length) =
    budget at hto ⊢
  by_cases hw : (gpuRunUntilEvent budget s.gpu).eventSet = true
  · simp [hw, WAIT_OBJECT_0, WAIT_TIMEOUT] at hto
  · by_cases hinf : ms = INFINITE
    · simp [hw, hinf] at hto
    · simp only [hw, hinf, if_false]
      exact ⟨rfl, gpuRunUntilEvent_timeout m budget s.gpu hinv (by simpa using hw), rfl⟩

/-! ## Signal, WaitForFenceValue and Flush -/

/-- What `Signal` does, in one step. -/
theorem Signal_eq (dev : Device) (s : SyncState) :
    Signal dev s =
      (if FAILED (dev.hrSignal s.trace.length) then Outcome.threw
        else Outcome.ok ((s.fenceValue + 1) % UINT64_MOD),
       { fenceValue := (s.fenceValue + 1) % UINT64_MOD
         gpu :=
          if FAILED (dev.hrSignal s.trace.length) then gpuRun (dev.gpuProgress s.trace.length) s.gpu
          else { gpuRun (dev.gpuProgress s.trace.length) s.gpu with
                 pending := (gpuRun (dev.gpuProgress s.trace.length) s.gpu).pending ++
                   [(s.fenceValue + 1) % UINT64_MOD] }
         trace := s.trace ++
           [Call.QueueSignal ((s.fenceValue + 1) % UINT64_MOD) (dev.hrSignal s.trace.length)] }) := by
  by_cases h : FAILED (dev.hrSignal s.trace.length) = true <;>
    simp [Signal, bind, Prog.bind, Prog.modify, Prog.get, queueSignal, ThrowIfFailed, pure,
      Prog.pure, h]

/-- The outcome of `Signal`. -/
theorem Signal_fst (dev : Device) (s : SyncState) :
    (Signal dev s).1 =
      if FAILED (dev.hrSignal s.trace.length) then Outcome.threw
      else Outcome.ok ((s.fenceValue + 1) % UINT64_MOD) := by
  rw [Signal_eq]

/-- The counter that `Signal` leaves. -/
theorem Signal_fenceValue (dev : Device) (s : SyncState) :
    (Signal dev s).2.fenceValue = (s.fenceValue + 1) % UINT64_MOD := by
  rw [Signal_eq]

/-- The one call that `Signal` logs. -/
theorem Signal_trace (dev : Device) (s : SyncState) :
    (Signal dev s).2.trace = s.trace ++
      [Call.QueueSignal ((s.fenceValue + 1) % UINT64_MOD) (dev.hrSignal s.trace.length)] := by
  rw [Signal_eq]

/-- What `WaitForFenceValue` does, in terms of the device calls. -/
theorem WaitForFenceValue_eq (dev : Device) (m : Nat) (d : Int) (s : SyncState) :
    WaitForFenceValue dev m d s =
      if (getCompletedValue dev s).2.gpu.completed < m then
        if FAILED (dev.hrSetEvent (getCompletedValue dev s).2.trace.length) then
          (Outcome.threw, (setEventOnCompletion dev m (getCompletedValue dev s).2).2)
        else
          match waitForSingleObject dev (toDWORD d)
              (setEventOnCompletion dev m (getCompletedValue dev s).2).2 with
          | (Outcome.ok _, s') => (Outcome.ok (), s')
          | (Outcome.threw, s') => (Outcome.threw, s')
          | (Outcome.hang, s') => (Outcome.hang, s')
      else (Outcome.ok (), (getCompletedValue dev s).2) := by
  by_cases h1 : (getCompletedValue dev s).2.gpu.completed < m
  · by_cases h2 : FAILED (dev.hrSetEvent (getCompletedValue dev s).2.trace.length) = true
    · simp only [h1, h2, if_true]
      simp only [getCompletedValue, List.length_append, List.length_singleton] at h1 h2
      simp [WaitForFenceValue, bind, Prog.bind, getCompletedValue, setEventOnCompletion,
        ThrowIfFailed, pure, Prog.pure, h1, h2]
    · simp only [h1, h2, if_true]
      simp only [getCompletedValue, List.length_append, List.length_singleton] at h1 h2
      simp [WaitForFenceValue, bind, Prog.bind, getCompletedValue, setEventOnCompletion,
        ThrowIfFailed, pure, Prog.pure, h1, h2]
      split <;> simp_all
  · simp only [h1, if_false]
    simp only [getCompletedValue] at h1
    simp [WaitForFenceValue, bind, Prog.bind, getCompletedValue,
        pure, Prog.pure, h1]

/-- `WaitForFenceValue` leaves the caller's counter and the issued markers alone. -/
theorem WaitForFenceValue_frame (dev : Device) (m : Nat) (d : Int) (s : SyncState) :
    (WaitForFenceValue dev m d s).2.fenceValue = s.fenceValue ∧
    issuedMarkers (WaitForFenceValue dev m d s).2.trace = issuedMarkers s.trace := by
  rw [WaitForFenceValue_eq]
  split_ifs
  · simp [setEventOnCompletion, getCompletedValue, issuedMarkers_append, issuedMarkers]
  · simp only [waitForSingleObject]
    split_ifs <;>
      simp [setEventOnCompletion, getCompletedValue, issuedMarkers_append, issuedMarkers]
  · simp [getCompletedValue, issuedMarkers_append, issuedMarkers]

/-- The calls of `WaitForFenceValue` extend the log and issue no marker. -/
theorem WaitForFenceValue_log (dev : Device) (m : Nat) (d : Int) (s : SyncState) :
    ∃ l, (WaitForFenceValue dev m d s).2.trace = s.trace ++ l ∧ issuedMarkers l = [] := by
  rw [WaitForFenceValue_eq]
  by_cases h1 : (getCompletedValue dev s).2.gpu.completed < m
  · simp only [h1, if_true]
    by_cases h2 : FAILED (dev.hrSetEvent (getCompletedValue dev s).2.trace.length) = true
    · simp only [h2, if_true]
      exact ⟨_, by rw [setEventOnCompletion_trace, getCompletedValue_trace,
        List.append_assoc], by simp [issuedMarkers]⟩
    · simp only [h2, if_false]
      obtain ⟨result, hres⟩ := waitForSingleObject_trace dev (toDWORD d)
        (setEventOnCompletion dev m (getCompletedValue dev s).2).2
      rw [setEventOnCompletion_trace, getCompletedValue_trace, List.append_assoc,
        List.append_assoc] at hres
      rcases hw : waitForSingleObject dev (toDWORD d)
        (setEventOnCompletion dev m (getCompletedValue dev s).2).2 with ⟨o, s3⟩
      rw [hw] at hres
      simp only at hres
      cases o <;> exact ⟨_, hres, by simp [issuedMarkers]⟩
  · simp only [h1, if_false]
    exact ⟨_, getCompletedValue_trace dev s, by simp [issuedMarkers]⟩

/-- `WaitForFenceValue` on an event that is neither signalled nor registered:
on normal return either the fence was already at the marker, or the event was
armed and the one wait ended signalled, with the fence at the marker, or timed
out. -/
theorem WaitForFenceValue_clean (dev : Device) (m : Nat) (d : Int) (s : SyncState)
    (hclean : s.gpu.eventSet = false ∧ s.gpu.armed = [])
    (hret : (WaitForFenceValue dev m d s).1 = Outcome.ok ()) :
    ∃ c,
      (m ≤ c ∧
        (WaitForFenceValue dev m d s).2.trace = s.trace ++ [Call.GetCompletedValue c] ∧
        m ≤ (WaitForFenceValue dev m d s).2.gpu.completed) ∨
      (c < m ∧ ∃ hr result,
        (WaitForFenceValue dev m d s).2.trace = s.trace ++
          [Call.GetCompletedValue c, Call.SetEventOnCompletion m hr,
            Call.WaitForSingleObject (toDWORD d) (some result)] ∧
        (result = WAIT_OBJECT_0 ∨ result = WAIT_TIMEOUT) ∧
        (result ≠ WAIT_TIMEOUT → m ≤ (WaitForFenceValue dev m d s).2.gpu.completed)) := by
  refine ⟨(gpuRun (dev.gpuProgress s.trace.length) s.gpu).completed, ?_⟩
  rw [WaitForFenceValue_eq] at hret ⊢
  have hc1 := gpuRun_clean (dev.gpuProgress s.trace.length) s.gpu hclean.2
  by_cases h1 : (getCompletedValue dev s).2.gpu.completed < m
  · right
    simp only [h1, if_true] at hret ⊢
    by_cases h2 : FAILED (dev.hrSetEvent (getCompletedValue dev s).2.trace.length) = true
    · simp [h2] at hret
    · simp only [h2, if_false] at hret ⊢
      simp only [Bool.not_eq_true] at h2
      refine ⟨h1, dev.hrSetEvent (getCompletedValue dev s).2.trace.length, ?_⟩
      have hs1 : (getCompletedValue dev s).2.gpu.eventSet = false ∧
          (getCompletedValue dev s).2.gpu.armed = [] :=
        ⟨hc1.2.trans hclean.1, hc1.1⟩
      have hev := setEventOnCompletion_clean dev m _ hs1 h2
      have htr : (setEventOnCompletion dev m (getCompletedValue dev s).2).2.trace =
          s.trace ++ [Call.GetCompletedValue (gpuRun (dev.gpuProgress s.trace.length) s.gpu).completed,
            Call.SetEventOnCompletion m (dev.hrSetEvent (getCompletedValue dev s).2.trace.length)] := by
        simp [setEventOnCompletion_trace, getCompletedValue_trace]
      generalize (setEventOnCompletion dev m (getCompletedValue dev s).2).2 = s2
        at hret hev htr ⊢
      have hnh : (waitForSingleObject dev (toDWORD d) s2).1 ≠ Outcome.hang := by
        intro hh
        rcases hw : waitForSingleObject dev (toDWORD d) s2 with ⟨o, s3⟩
        rw [hw] at hret hh
        simp only at hh
        subst hh
        simp at hret
      obtain ⟨result, hr1, hr2, hr3, hr4⟩ := waitForSingleObject_armed dev _ m s2 hev hnh
      rcases hw : waitForSingleObject dev (toDWORD d) s2 with ⟨o, s3⟩
      rw [hw] at hr1 hr2 hr4
      simp only at hr1 hr2 hr4
      subst hr1
      simp only
      exact ⟨result, by simp [hr2, htr], hr3, hr4⟩
  · left
    simp only [h1, if_false]
    exact ⟨not_lt.mp h1, rfl, not_lt.mp h1⟩

/-- What `Flush` does, in terms of `Signal` and `WaitForFenceValue`. -/
theorem Flush_eq (dev : Device) (d : Int) (s : SyncState) :
    Flush dev d s =
      if FAILED (dev.hrSignal s.trace.length) then (Outcome.threw, (Signal dev s).2)
      else WaitForFenceValue dev ((s.fenceValue + 1) % UINT64_MOD) d (Signal dev s).2 := by
  by_cases h : FAILED (dev.hrSignal s.trace.length) = true
  · simp only [h, if_true]
    exact Prog.bind_of_threw _ _ _ (by simp [Signal_fst, h])
  · simp only [h, if_false]
    exact Prog.bind_of_ok _ _ _ _ (by simp [Signal_fst, h])

/-- A run of `Signal` and `Flush` calls that returns normally issues the
markers `v + 1, v + 2, ...` in this order, and `Signal` returns some of them. -/
theorem runSyncCalls_markers (dev : Device) (calls : List SyncCall) :
    ∀ (s : SyncState) (returned : List Nat), s.fenceValue + calls.length < 2 ^ 64 →
      (runSyncCalls dev calls s).1 = Outcome.ok returned →
      ∃ l, (runSyncCalls dev calls s).2.trace = s.trace ++ l ∧
        issuedMarkers l = List.range' (s.fenceValue + 1) calls.length ∧
        returned.Sublist (List.range' (s.fenceValue + 1) calls.length) := by
  induction calls with
  | nil =>
    intro s returned _ h
    simp [runSyncCalls, pure, Prog.pure] at h
    exact ⟨[], by simp [runSyncCalls, pure, Prog.pure], by simp [issuedMarkers], by simp [← h]⟩
  | cons c rest ih =>
    intro s returned hlen h
    simp only [List.length_cons] at hlen
    have hmod : (s.fenceValue + 1) % UINT64_MOD = s.fenceValue + 1 := by
      apply Nat.mod_eq_of_lt
      simp only [UINT64_MOD]
      omega
    cases c with
    | signal =>
      by_cases hf : FAILED (dev.hrSignal s.trace.length) = true
      · have hb := Prog.bind_of_threw (Signal dev)
          (fun marker => Prog.bind (runSyncCalls dev rest) fun markers =>
            Prog.pure (marker :: markers)) s (by simp [Signal_fst, hf])
        simp only [runSyncCalls, bind, pure] at h
        rw [hb] at h
        simp at h
      · have hb := Prog.bind_of_ok (Signal dev)
          (fun marker => Prog.bind (runSyncCalls dev rest) fun markers =>
            Prog.pure (marker :: markers)) s (s.fenceValue + 1) (by simp [Signal_fst, hf, hmod])
        simp only [runSyncCalls, bind, pure] at h ⊢
        rw [hb] at h ⊢
        beta_reduce at h ⊢
        have hfv : (Signal dev s).2.fenceValue = s.fenceValue + 1 := by
          rw [Signal_fenceValue, hmod]
        have htr : (Signal dev s).2.trace =
            s.trace ++ [Call.QueueSignal (s.fenceValue + 1) (dev.hrSignal s.trace.length)] := by
          rw [Signal_trace, hmod]
        generalize (Signal dev s).2 = s1 at h hfv htr ⊢
        rcases hr : (runSyncCalls dev rest s1).1 with ms | _ | _
        · rw [Prog.bind_of_ok _ _ _ _ hr] at h ⊢
          simp only [Prog.pure, Outcome.ok.injEq] at h ⊢
          obtain ⟨l, h1, h2, h3⟩ := ih s1 ms (by omega) hr
          simp only [hfv, htr] at h1 h2 h3
          refine ⟨Call.QueueSignal (s.fenceValue + 1) (dev.hrSignal s.trace.length) :: l, ?_, ?_, ?_⟩
          · simp [h1]
          · simp [issuedMarkers, hf, h2, List.range'_succ]
          · rw [← h, List.length_cons, List.range'_succ]
            exact h3.cons₂ _
        · rw [Prog.bind_of_threw _ _ _ hr] at h
          simp at h
        · rw [Prog.bind_of_hang _ _ _ hr] at h
          simp at h
    | flush d =>
      simp only [runSyncCalls, bind] at h ⊢
      rcases hfl : (Flush dev d s).1 with u | _ | _
      · rw [Prog.bind_of_ok _ _ _ _ hfl] at h ⊢
        have hf : FAILED (dev.hrSignal s.trace.length) = false := by
          by_contra hc
          simp [Flush_eq, hc] at hfl
        have hfl2 : Flush dev d s = WaitForFenceValue dev (s.fenceValue + 1) d (Signal dev s).2 := by
          simp [Flush_eq, hf, hmod]
        have hfv : (Flush dev d s).2.fenceValue = s.fenceValue + 1 := by
          rw [hfl2, (WaitForFenceValue_frame _ _ _ _).1, Signal_fenceValue, hmod]
        obtain ⟨lw, hlw, hlw0⟩ := WaitForFenceValue_log dev (s.fenceValue + 1) d (Signal dev s).2
        have htr : (Flush dev d s).2.trace =
            s.trace ++ (Call.QueueSignal (s.fenceValue + 1) (dev.hrSignal s.trace.length) :: lw) := by
          rw [hfl2, hlw, Signal_trace, hmod]
          simp
        generalize (Flush dev d s).2 = s1 at h hfv htr ⊢
        obtain ⟨l, h1, h2, h3⟩ := ih s1 returned (by omega) h
        simp only [hfv, htr] at h1 h2 h3
        refine ⟨Call.QueueSignal (s.fenceValue + 1) (dev.hrSignal s.trace.length) :: (lw ++ l),
          ?_, ?_, ?_⟩
        · simp [h1]
        · simp [issuedMarkers, hf, issuedMarkers_append, hlw0, h2, List.range'_succ]
        · rw [List.length_cons, List.range'_succ]
          exact h3.cons _
      · rw [Prog.bind_of_threw _ _ _ hfl] at h
        simp at h
      · rw [Prog.bind_of_hang _ _ _ hfl] at h
        simp at h

/-! ## Resize and Render -/

/-- The client size that `Resize` leaves. -/
theorem Resize_size (dev : Device) (a : DX12App) (width height : Nat) :
    (Resize dev width height a).2.m_ClientWidth =
      (if a.m_ClientWidth ≠ width ∨ a.m_ClientHeight ≠ height then max 1 width
        else a.m_ClientWidth) ∧
    (Resize dev width height a).2.m_ClientHeight =
      (if a.m_ClientWidth ≠ width ∨ a.m_ClientHeight ≠ height then max 1 height
        else a.m_ClientHeight) := by
  by_cases hne : a.m_ClientWidth ≠ width ∨ a.m_ClientHeight ≠ height
  · simp only [hne, if_true]
    rcases hfl : dev.cqFlush a.trace.length with u | _ | _
    · simp only [Resize, UpdateRenderTargetViews, UpdateRenderTargetViews.loop,
        Resize.resetLoop, m_NumFrames, bind, Prog.bind_ThrowIfFailed, pure]
      simp only [Prog.bind, Prog.get, Prog.pure, hne, Prog.modify,
        commandQueueFlush, hfl, DX12App.log,
        backBufferReset, swapChainGetDesc, swapChainResizeBuffers,
        swapChainGetCurrentBackBufferIndex,
        deviceGetDescriptorHandleIncrementSize, heapGetCPUDescriptorHandleForHeapStart,
        swapChainGetBuffer, deviceCreateRenderTargetView, backBufferStore, if_true]
      split_ifs <;> exact ⟨rfl, rfl⟩
    · simp [Resize, bind, Prog.bind, Prog.get, pure, Prog.pure, hne, Prog.modify,
        commandQueueFlush, hfl, DX12App.log]
    · simp [Resize, bind, Prog.bind, Prog.get, pure, Prog.pure, hne, Prog.modify,
        commandQueueFlush, hfl, DX12App.log]
  · simp [Resize, bind, Prog.bind, Prog.get, pure, Prog.pure, hne]

/-- The calls of `Render`, in order; the run stops at the first call that does
not return normally. -/
theorem Render_log (dev : Device) (a : DX12App) :
    ∃ (commandList : Option Nat) (fenceValue : Option Nat) (start : Nat) (hr : Int)
      (index : Nat),
      (∃ rest,
        [Call.GetCommandList commandList,
          Call.ResourceBarrier (commandList.getD 0) (a.m_BackBuffers a.m_CurrentBackBufferIndex)
            D3D12_RESOURCE_STATE_PRESENT D3D12_RESOURCE_STATE_RENDER_TARGET,
          Call.GetCPUDescriptorHandleForHeapStart start,
          Call.ClearRenderTargetView (commandList.getD 0)
            (dev.handleAt start a.m_CurrentBackBufferIndex a.m_RTVDescriptorSize),
          Call.ResourceBarrier (commandList.getD 0) (a.m_BackBuffers a.m_CurrentBackBufferIndex)
            D3D12_RESOURCE_STATE_RENDER_TARGET D3D12_RESOURCE_STATE_PRESENT,
          Call.ExecuteCommandList (commandList.getD 0) fenceValue,
          Call.Present (syncInterval a.m_VSync) (presentFlags a.m_TearingSupported a.m_VSync) hr,
          Call.GetCurrentBackBufferIndex index,
          Call.CommandQueueWaitForFenceValue (fenceValue.getD 0)] =
        newCalls a.trace (Render dev a).2.trace ++ rest) ∧
      ((Render dev a).1 = Outcome.ok () →
        (∃ cl marker, commandList = some cl ∧ fenceValue = some marker) ∧
        (Render dev a).2.trace = a.trace ++
        [Call.GetCommandList commandList,
          Call.ResourceBarrier (commandList.getD 0) (a.m_BackBuffers a.m_CurrentBackBufferIndex)
            D3D12_RESOURCE_STATE_PRESENT D3D12_RESOURCE_STATE_RENDER_TARGET,
          Call.GetCPUDescriptorHandleForHeapStart start,
          Call.ClearRenderTargetView (commandList.getD 0)
            (dev.handleAt start a.m_CurrentBackBufferIndex a.m_RTVDescriptorSize),
          Call.ResourceBarrier (commandList.getD 0) (a.m_BackBuffers a.m_CurrentBackBufferIndex)
            D3D12_RESOURCE_STATE_RENDER_TARGET D3D12_RESOURCE_STATE_PRESENT,
          Call.ExecuteCommandList (commandList.getD 0) fenceValue,
          Call.Present (syncInterval a.m_VSync) (presentFlags a.m_TearingSupported a.m_VSync) hr,
          Call.GetCurrentBackBufferIndex index,
          Call.CommandQueueWaitForFenceValue (fenceValue.getD 0)] ∧
        (Render dev a).2.m_CurrentBackBufferIndex = index) := by
  refine ⟨(dev.cqGetCommandList a.trace.length).toOption,
    (dev.cqExecute (a.trace.length + 5)).toOption, dev.heapStart (a.trace.length + 2),
    dev.hrPresent (a.trace.length + 6), dev.currentBackBufferIndex (a.trace.length + 7), ?_, ?_⟩
  all_goals simp only [Render, bind, Prog.bind_ThrowIfFailed, pure]
  all_goals rcases h1 : dev.cqGetCommandList a.trace.length with cl | _ | _
  all_goals rcases h2 : dev.cqExecute (a.trace.length + 5) with marker | _ | _
  all_goals rcases h3 : dev.cqWait (a.trace.length + 8) with u | _ | _
  all_goals simp only [Prog.bind, Prog.get, Prog.pure, Prog.modify, DX12App.log,
      commandQueueGetCommandList, commandListResourceBarrier,
      heapGetCPUDescriptorHandleForHeapStart, commandListClearRenderTargetView,
      commandQueueExecuteCommandList, swapChainPresent, swapChainGetCurrentBackBufferIndex,
      commandQueueWaitForFenceValue, h1, h2, h3, Outcome.toOption, Option.getD,
      List.append_assoc, List.singleton_append, List.cons_append, List.nil_append,
      Nat.reduceAdd, Nat.add_assoc, List.length_append, List.length_cons, List.length_nil]
  all_goals try split_ifs
  all_goals try simp only [newCalls_append]
  all_goals first
    | exact ⟨_, rfl⟩
    | exact fun h => h.elim
    | exact fun _ => ⟨⟨_, _, rfl, rfl⟩, rfl, rfl⟩
    | exact fun _ => ⟨⟨_, _, rfl, rfl⟩, trivial, trivial⟩
    | exact fun h => Outcome.noConfusion h

/-- A `Render` that returns normally logs the nine calls of one frame. -/
theorem Render_ok (dev : Device) (a : DX12App) (h : (Render dev a).1 = Outcome.ok ()) :
    ∃ commandList start marker hr index,
      (Render dev a).2.trace = a.trace ++
        [Call.GetCommandList (some commandList),
          Call.ResourceBarrier commandList (a.m_BackBuffers a.m_CurrentBackBufferIndex)
            D3D12_RESOURCE_STATE_PRESENT D3D12_RESOURCE_STATE_RENDER_TARGET,
          Call.GetCPUDescriptorHandleForHeapStart start,
          Call.ClearRenderTargetView commandList
            (dev.handleAt start a.m_CurrentBackBufferIndex a.m_RTVDescriptorSize),
          Call.ResourceBarrier commandList (a.m_BackBuffers a.m_CurrentBackBufferIndex)
            D3D12_RESOURCE_STATE_RENDER_TARGET D3D12_RESOURCE_STATE_PRESENT,
          Call.ExecuteCommandList commandList (some marker),
          Call.Present (syncInterval a.m_VSync) (presentFlags a.m_TearingSupported a.m_VSync) hr,
          Call.GetCurrentBackBufferIndex index,
          Call.CommandQueueWaitForFenceValue marker] ∧
      (Render dev a).2.m_CurrentBackBufferIndex = index := by
  obtain ⟨commandList, fenceValue, start, hr, index, _, hok⟩ := Render_log dev a
  obtain ⟨⟨cl, marker, hcl, hmarker⟩, htr, hidx⟩ := hok h
  subst hcl hmarker
  exact ⟨cl, start, marker, hr, index, htr, hidx⟩

/-- `n` frames that return normally log `n` frame blocks. -/
theorem renderFrames_ok (dev : Device) (n : Nat) :
    ∀ a : DX12App, (renderFrames dev n a).1 = Outcome.ok () →
      ∃ frames : List (List Call),
        frames.length = n ∧
        (renderFrames dev n a).2.trace = a.trace ++ frames.flatten ∧
        (∀ frame ∈ frames,
          ∃ commandList backBuffer start rtv marker sync flags hr index,
            frame =
              [Call.GetCommandList (some commandList),
                Call.ResourceBarrier commandList backBuffer
                  D3D12_RESOURCE_STATE_PRESENT D3D12_RESOURCE_STATE_RENDER_TARGET,
                Call.GetCPUDescriptorHandleForHeapStart start,
                Call.ClearRenderTargetView commandList rtv,
                Call.ResourceBarrier commandList backBuffer
                  D3D12_RESOURCE_STATE_RENDER_TARGET D3D12_RESOURCE_STATE_PRESENT,
                Call.ExecuteCommandList commandList (some marker),
                Call.Present sync flags hr,
                Call.GetCurrentBackBufferIndex index,
                Call.CommandQueueWaitForFenceValue marker]) := by
  induction n with
  | zero =>
    intro a _
    exact ⟨[], rfl, by simp [renderFrames, pure, Prog.pure], by simp⟩
  | succ n ih =>
    intro a h
    simp only [renderFrames, bind] at h ⊢
    rcases hr1 : (Render dev a).1 with u | _ | _
    · rw [Prog.bind_of_ok _ _ _ _ hr1] at h ⊢
      obtain ⟨cl, start, marker, hr, index, htr, _⟩ := Render_ok dev a hr1
      obtain ⟨frames, hlen, hfl, hshape⟩ := ih (Render dev a).2 h
      obtain ⟨f, htr', hf⟩ : ∃ f, (Render dev a).2.trace = a.trace ++ f ∧
          ∃ commandList backBuffer start rtv marker sync flags hr index,
            f =
              [Call.GetCommandList (some commandList),
                Call.ResourceBarrier commandList backBuffer
                  D3D12_RESOURCE_STATE_PRESENT D3D12_RESOURCE_STATE_RENDER_TARGET,
                Call.GetCPUDescriptorHandleForHeapStart start,
                Call.ClearRenderTargetView commandList rtv,
                Call.ResourceBarrier commandList backBuffer
                  D3D12_RESOURCE_STATE_RENDER_TARGET D3D12_RESOURCE_STATE_PRESENT,
                Call.ExecuteCommandList commandList (some marker),
                Call.Present sync flags hr,
                Call.GetCurrentBackBufferIndex index,
                Call.CommandQueueWaitForFenceValue marker] :=
        ⟨_, htr, _, _, _, _, _, _, _, _, _, rfl⟩
      refine ⟨f :: frames, by simp [hlen], ?_, ?_⟩
      · rw [hfl, htr', List.flatten_cons, List.append_assoc]
      · intro frame hmem
        rcases List.mem_cons.mp hmem with hfr | hfr
        · rw [hfr]; exact hf
        · exact hshape frame hfr
    · rw [Prog.bind_of_threw _ _ _ hr1] at h
      exact Outcome.noConfusion h
    · rw [Prog.bind_of_hang _ _ _ hr1] at h
      exact Outcome.noConfusion h

/-- A sequence of frame blocks holds one `ExecuteCommandList` and one `Present`
per block. -/
theorem frames_count (frames : List (List Call))
    (hshape : ∀ frame ∈ frames,
          ∃ commandList backBuffer start rtv marker sync flags hr index,
            frame =
              [Call.GetCommandList (some commandList),
                Call.ResourceBarrier commandList backBuffer
                  D3D12_RESOURCE_STATE_PRESENT D3D12_RESOURCE_STATE_RENDER_TARGET,
                Call.GetCPUDescriptorHandleForHeapStart start,
                Call.ClearRenderTargetView commandList rtv,
                Call.ResourceBarrier commandList backBuffer
                  D3D12_RESOURCE_STATE_RENDER_TARGET D3D12_RESOURCE_STATE_PRESENT,
                Call.ExecuteCommandList commandList (some marker),
                Call.Present sync flags hr,
                Call.GetCurrentBackBufferIndex index,
                Call.CommandQueueWaitForFenceValue marker]) :
    List.countP isExecuteCommandList frames.flatten = frames.length ∧
    List.countP isPresent frames.flatten = frames.length := by
  induction frames with
  | nil => simp
  | cons f rest ih =>
    obtain ⟨h1, h2⟩ := ih (fun frame hmem => hshape frame (List.mem_cons_of_mem _ hmem))
    obtain ⟨_, _, _, _, _, _, _, _, _, hf⟩ := hshape f (List.mem_cons_self _ _)
    subst hf
    simp only [List.flatten_cons, List.countP_append, h1, h2, List.length_cons]
    constructor <;> simp [List.countP_cons, isExecuteCommandList, isPresent] <;> omega

/-! ## Failure, repetition and presentation -/

/-- No call is new in a log that did not grow. -/
theorem newCalls_self (t : List Call) : newCalls t t = [] := by
  simp [newCalls]

/-- A failed queue call makes `Signal` raise right after it. -/
theorem Signal_failed (dev : Device) (s : SyncState) (c : Call)
    (hc : c ∈ newCalls s.trace (Signal dev s).2.trace) (hf : isFailedCall c = true) :
    (Signal dev s).1 = Outcome.threw ∧ (Signal dev s).2.trace.getLast? = some c ∧
    (Signal dev s).2.gpu.pending = (gpuRun (dev.gpuProgress s.trace.length) s.gpu).pending := by
  rw [Signal_eq] at hc ⊢
  simp only [newCalls_append, List.mem_singleton] at hc
  subst hc
  simp only [isFailedCall] at hf
  simp [hf]

/-- A failed `GetDesc` or `ResizeBuffers` call makes `Resize` raise right after
it. -/
theorem Resize_failed (dev : Device) (a : DX12App) (width height : Nat) :
    ∀ c ∈ newCalls a.trace (Resize dev width height a).2.trace, isFailedCall c = true →
      (Resize dev width height a).1 = Outcome.threw ∧
      (Resize dev width height a).2.trace.getLast? = some c ∧
      (Resize dev width height a).2.m_CurrentBackBufferIndex = a.m_CurrentBackBufferIndex ∧
      (Resize dev width height a).2.m_RTVDescriptorSize = a.m_RTVDescriptorSize := by
  by_cases hne : a.m_ClientWidth ≠ width ∨ a.m_ClientHeight ≠ height
  · rcases hfl : dev.cqFlush a.trace.length with u | _ | _
    · simp only [Resize, UpdateRenderTargetViews, UpdateRenderTargetViews.loop,
        Resize.resetLoop, m_NumFrames, bind, Prog.bind_ThrowIfFailed, pure]
      simp only [Prog.bind, Prog.get, Prog.pure, hne, Prog.modify,
        commandQueueFlush, hfl, DX12App.log,
        backBufferReset, swapChainGetDesc, swapChainResizeBuffers,
        swapChainGetCurrentBackBufferIndex,
        deviceGetDescriptorHandleIncrementSize, heapGetCPUDescriptorHandleForHeapStart,
        swapChainGetBuffer, deviceCreateRenderTargetView, backBufferStore,
        if_true, List.append_assoc, List.singleton_append,
        List.cons_append, List.nil_append, Nat.reduceAdd, Nat.add_assoc, List.length_append,
        List.length_cons, List.length_nil]
      split_ifs
      all_goals simp only [newCalls_append]
      all_goals simp [isFailedCall, *]
    · simp [Resize, bind, Prog.bind, Prog.get, pure, Prog.pure, hne, Prog.modify,
        commandQueueFlush, hfl, DX12App.log, newCalls_append, isFailedCall]
    · simp [Resize, bind, Prog.bind, Prog.get, pure, Prog.pure, hne, Prog.modify,
        commandQueueFlush, hfl, DX12App.log, newCalls_append, isFailedCall]
  · simp [Resize, bind, Prog.bind, Prog.get, pure, Prog.pure, hne, newCalls_self]

/-- A failed `Present` call makes `Render` raise right after it. -/
theorem Render_failed (dev : Device) (a : DX12App) :
    ∀ c ∈ newCalls a.trace (Render dev a).2.trace, isFailedCall c = true →
      (Render dev a).1 = Outcome.threw ∧
      (Render dev a).2.trace.getLast? = some c ∧
      (Render dev a).2.m_CurrentBackBufferIndex = a.m_CurrentBackBufferIndex := by
  simp only [Render, bind, Prog.bind_ThrowIfFailed, pure]
  rcases h1 : dev.cqGetCommandList a.trace.length with cl | _ | _
  all_goals rcases h2 : dev.cqExecute (a.trace.length + 5) with marker | _ | _
  all_goals rcases h3 : dev.cqWait (a.trace.length + 8) with u | _ | _
  all_goals simp only [Prog.bind, Prog.get, Prog.pure, Prog.modify, DX12App.log,
      commandQueueGetCommandList, commandListResourceBarrier,
      heapGetCPUDescriptorHandleForHeapStart, commandListClearRenderTargetView,
      commandQueueExecuteCommandList, swapChainPresent, swapChainGetCurrentBackBufferIndex,
      commandQueueWaitForFenceValue, h1, h2, h3,
      List.append_assoc, List.singleton_append, List.cons_append, List.nil_append,
      Nat.reduceAdd, Nat.add_assoc, List.length_append, List.length_cons, List.length_nil]
  all_goals try split_ifs
  all_goals simp only [newCalls_append]
  all_goals simp [isFailedCall, *]

/-- `Resize` with the stored client size does nothing. -/
theorem Resize_of_eq (dev : Device) (a : DX12App) (width height : Nat)
    (hw : a.m_ClientWidth = width) (hh : a.m_ClientHeight = height) :
    Resize dev width height a = (Outcome.ok (), a) := by
  simp [Resize, bind, Prog.bind, Prog.get, pure, Prog.pure, hw, hh]

/-- The calls of a `Resize` whose arguments differ from the stored client size,
on a device where `Flush` returns and no call of the run fails: the whole order,
with what the device answers at each position. -/
theorem Resize_ok_log (dev : Device) (a : DX12App) (width height : Nat)
    (hne : a.m_ClientWidth ≠ width ∨ a.m_ClientHeight ≠ height)
    (hflush : dev.cqFlush a.trace.length = Outcome.ok ())
    (hdesc : FAILED (dev.hrGetDesc (a.trace.length + 4)) = false)
    (hresize : FAILED (dev.hrResizeBuffers (a.trace.length + 5)) = false)
    (hb₀ : FAILED (dev.hrGetBuffer (a.trace.length + 9)) = false)
    (hb₁ : FAILED (dev.hrGetBuffer (a.trace.length + 12)) = false)
    (hb₂ : FAILED (dev.hrGetBuffer (a.trace.length + 15)) = false) :
    (Resize dev width height a).1 = Outcome.ok () ∧
    newCalls a.trace (Resize dev width height a).2.trace =
      [Call.CommandQueueFlush,
        Call.BackBufferReset 0, Call.BackBufferReset 1, Call.BackBufferReset 2,
        Call.GetDesc (dev.hrGetDesc (a.trace.length + 4)) (dev.descFormat (a.trace.length + 4))
          (dev.descFlags (a.trace.length + 4)),
        Call.ResizeBuffers m_NumFrames (max 1 width) (max 1 height)
          (dev.descFormat (a.trace.length + 4)) (dev.descFlags (a.trace.length + 4))
          (dev.hrResizeBuffers (a.trace.length + 5)),
        Call.GetCurrentBackBufferIndex (dev.currentBackBufferIndex (a.trace.length + 6)),
        Call.GetDescriptorHandleIncrementSize (dev.descriptorSize (a.trace.length + 7)),
        Call.GetCPUDescriptorHandleForHeapStart (dev.heapStart (a.trace.length + 8)),
        Call.GetBuffer 0 (dev.hrGetBuffer (a.trace.length + 9)) (dev.buffer (a.trace.length + 9)),
        Call.CreateRenderTargetView (some (dev.buffer (a.trace.length + 9)))
          (dev.heapStart (a.trace.length + 8)),
        Call.BackBufferStore 0 (dev.buffer (a.trace.length + 9)),
        Call.GetBuffer 1 (dev.hrGetBuffer (a.trace.length + 12))
          (dev.buffer (a.trace.length + 12)),
        Call.CreateRenderTargetView (some (dev.buffer (a.trace.length + 12)))
          (dev.handleOffset (dev.heapStart (a.trace.length + 8))
            (dev.descriptorSize (a.trace.length + 7))),
        Call.BackBufferStore 1 (dev.buffer (a.trace.length + 12)),
        Call.GetBuffer 2 (dev.hrGetBuffer (a.trace.length + 15))
          (dev.buffer (a.trace.length + 15)),
        Call.CreateRenderTargetView (some (dev.buffer (a.trace.length + 15)))
          (dev.handleOffset
            (dev.handleOffset (dev.heapStart (a.trace.length + 8))
              (dev.descriptorSize (a.trace.length + 7)))
            (dev.descriptorSize (a.trace.length + 7))),
        Call.BackBufferStore 2 (dev.buffer (a.trace.length + 15))] := by
  simp only [Resize, UpdateRenderTargetViews, UpdateRenderTargetViews.loop,
    Resize.resetLoop, m_NumFrames, bind, Prog.bind_ThrowIfFailed, pure]
  simp only [Prog.bind, Prog.get, Prog.pure, hne, Prog.modify,
    commandQueueFlush, hflush, DX12App.log,
    backBufferReset, swapChainGetDesc, swapChainResizeBuffers,
    swapChainGetCurrentBackBufferIndex,
    deviceGetDescriptorHandleIncrementSize, heapGetCPUDescriptorHandleForHeapStart,
    swapChainGetBuffer, deviceCreateRenderTargetView, backBufferStore,
    if_true, List.append_assoc, List.singleton_append,
    List.cons_append, List.nil_append, Nat.reduceAdd, Nat.add_assoc, List.length_append,
    List.length_cons, List.length_nil, hdesc, hresize, hb₀, hb₁, hb₂, Bool.false_eq_true,
    if_false, newCalls_append]
  exact ⟨trivial, trivial⟩

/-- `Resize` with a size that differs from the stored one calls `Flush` first. -/
theorem Resize_of_ne (dev : Device) (a : DX12App) (width height : Nat)
    (hne : a.m_ClientWidth ≠ width ∨ a.m_ClientHeight ≠ height) :
    ∃ rest, newCalls a.trace (Resize dev width height a).2.trace =
      Call.CommandQueueFlush :: rest := by
  rcases hfl : dev.cqFlush a.trace.length with u | _ | _
  · simp only [Resize, UpdateRenderTargetViews, UpdateRenderTargetViews.loop,
      Resize.resetLoop, m_NumFrames, bind, Prog.bind_ThrowIfFailed, pure]
    simp only [Prog.bind, Prog.get, Prog.pure, hne, Prog.modify,
      commandQueueFlush, hfl, DX12App.log,
      backBufferReset, swapChainGetDesc, swapChainResizeBuffers,
      swapChainGetCurrentBackBufferIndex,
      deviceGetDescriptorHandleIncrementSize, heapGetCPUDescriptorHandleForHeapStart,
      swapChainGetBuffer, deviceCreateRenderTargetView, backBufferStore,
      if_true, List.append_assoc, List.singleton_append,
      List.cons_append, List.nil_append, Nat.reduceAdd, Nat.add_assoc, List.length_append,
      List.length_cons, List.length_nil]
    split_ifs
    all_goals simp only [newCalls_append]
    all_goals exact ⟨_, rfl⟩
  · simp only [Resize, bind, Prog.bind, Prog.get, pure, Prog.pure, hne, Prog.modify,
      commandQueueFlush, hfl, DX12App.log, if_true, newCalls_append]
    exact ⟨_, rfl⟩
  · simp only [Resize, bind, Prog.bind, Prog.get, pure, Prog.pure, hne, Prog.modify,
      commandQueueFlush, hfl, DX12App.log, if_true, newCalls_append]
    exact ⟨_, rfl⟩

/-- The arguments of every `Present` call of `Render`. -/
theorem Render_present_args (dev : Device) (a : DX12App) (sync flags : Nat) (hr : Int)
    (hmem : Call.Present sync flags hr ∈ newCalls a.trace (Render dev a).2.trace) :
    sync = syncInterval a.m_VSync ∧ flags = presentFlags a.m_TearingSupported a.m_VSync := by
  obtain ⟨commandList, fenceValue, start, hr₀, index, ⟨rest, hfull⟩, _⟩ := Render_log dev a
  have hmem2 : Call.Present sync flags hr ∈ newCalls a.trace (Render dev a).2.trace ++ rest :=
    List.mem_append_left _ hmem
  rw [← hfull] at hmem2
  simp at hmem2
  exact ⟨hmem2.1, hmem2.2.1⟩

/-! ## Views, back buffers and barriers -/

/-- The run of `UpdateRenderTargetViews` when every `GetBuffer` call it makes
succeeds. -/
theorem UpdateRenderTargetViews_ok (dev : Device) (a : DX12App)
    (hok : ∀ c ∈ newCalls a.trace (UpdateRenderTargetViews dev a).2.trace,
      isFailedGetBuffer c = false) :
    ∃ size start hr₀ b₀ hr₁ b₁ hr₂ b₂,
      (UpdateRenderTargetViews dev a).1 = Outcome.ok () ∧
      newCalls a.trace (UpdateRenderTargetViews dev a).2.trace =
        [Call.GetDescriptorHandleIncrementSize size,
          Call.GetCPUDescriptorHandleForHeapStart start,
          Call.GetBuffer 0 hr₀ b₀, Call.CreateRenderTargetView (some b₀) start,
          Call.BackBufferStore 0 b₀,
          Call.GetBuffer 1 hr₁ b₁,
          Call.CreateRenderTargetView (some b₁) (dev.handleOffset start size),
          Call.BackBufferStore 1 b₁,
          Call.GetBuffer 2 hr₂ b₂,
          Call.CreateRenderTargetView (some b₂)
            (dev.handleOffset (dev.handleOffset start size) size),
          Call.BackBufferStore 2 b₂] ∧
      (UpdateRenderTargetViews dev a).2.m_RTVDescriptorSize = size ∧
      (UpdateRenderTargetViews dev a).2.m_BackBuffers 0 = some b₀ ∧
      (UpdateRenderTargetViews dev a).2.m_BackBuffers 1 = some b₁ ∧
      (UpdateRenderTargetViews dev a).2.m_BackBuffers 2 = some b₂ := by
  refine ⟨dev.descriptorSize a.trace.length, dev.heapStart (a.trace.length + 1),
    dev.hrGetBuffer (a.trace.length + 2), dev.buffer (a.trace.length + 2),
    dev.hrGetBuffer (a.trace.length + 5), dev.buffer (a.trace.length + 5),
    dev.hrGetBuffer (a.trace.length + 8), dev.buffer (a.trace.length + 8), ?_⟩
  revert hok
  simp only [UpdateRenderTargetViews, UpdateRenderTargetViews.loop,
    m_NumFrames, bind, Prog.bind_ThrowIfFailed, pure]
  simp only [Prog.bind, Prog.get, Prog.pure, Prog.modify, DX12App.log,
    deviceGetDescriptorHandleIncrementSize, heapGetCPUDescriptorHandleForHeapStart,
    swapChainGetBuffer, deviceCreateRenderTargetView, backBufferStore,
    List.append_assoc, List.singleton_append,
    List.cons_append, List.nil_append, Nat.reduceAdd, Nat.add_assoc, List.length_append,
    List.length_cons, List.length_nil]
  split_ifs with h0 h1 h2
  all_goals simp only [newCalls_append]
  all_goals intro hok
  · have hf := hok (Call.GetBuffer 0 (dev.hrGetBuffer (a.trace.length + 2))
      (dev.buffer (a.trace.length + 2))) (by simp)
    simp only [isFailedGetBuffer] at hf
    rw [h0] at hf
    exact Bool.noConfusion hf
  · have hf := hok (Call.GetBuffer 1 (dev.hrGetBuffer (a.trace.length + 5))
      (dev.buffer (a.trace.length + 5))) (by simp)
    simp only [isFailedGetBuffer] at hf
    rw [h1] at hf
    exact Bool.noConfusion hf
  · have hf := hok (Call.GetBuffer 2 (dev.hrGetBuffer (a.trace.length + 8))
      (dev.buffer (a.trace.length + 8))) (by simp)
    simp only [isFailedGetBuffer] at hf
    rw [h2] at hf
    exact Bool.noConfusion hf
  · simp [setSlot]

/-- The calls of `Render` once `GetCommandList` has returned the command list
`cl`: the five calls that record the frame, `ExecuteCommandList`, and then calls
that record nothing. -/
theorem Render_commands (dev : Device) (a : DX12App) (cl : Nat)
    (h : dev.cqGetCommandList a.trace.length = Outcome.ok cl) :
    ∃ start fenceValue rest,
      newCalls a.trace (Render dev a).2.trace =
        Call.GetCommandList (some cl) ::
        Call.ResourceBarrier cl (a.m_BackBuffers a.m_CurrentBackBufferIndex)
          D3D12_RESOURCE_STATE_PRESENT D3D12_RESOURCE_STATE_RENDER_TARGET ::
        Call.GetCPUDescriptorHandleForHeapStart start ::
        Call.ClearRenderTargetView cl
          (dev.handleAt start a.m_CurrentBackBufferIndex a.m_RTVDescriptorSize) ::
        Call.ResourceBarrier cl (a.m_BackBuffers a.m_CurrentBackBufferIndex)
          D3D12_RESOURCE_STATE_RENDER_TARGET D3D12_RESOURCE_STATE_PRESENT ::
        Call.ExecuteCommandList cl fenceValue :: rest ∧
      rest.filter isCommand = [] := by
  refine ⟨dev.heapStart (a.trace.length + 2), (dev.cqExecute (a.trace.length + 5)).toOption, ?_⟩
  simp only [Render, bind, Prog.bind_ThrowIfFailed, pure]
  rcases h2 : dev.cqExecute (a.trace.length + 5) with marker | _ | _
  all_goals rcases h3 : dev.cqWait (a.trace.length + 8) with u | _ | _
  all_goals simp only [Prog.bind, Prog.get, Prog.pure, Prog.modify, DX12App.log,
      commandQueueGetCommandList, commandListResourceBarrier,
      heapGetCPUDescriptorHandleForHeapStart, commandListClearRenderTargetView,
      commandQueueExecuteCommandList, swapChainPresent, swapChainGetCurrentBackBufferIndex,
      commandQueueWaitForFenceValue, h, h2, h3, Outcome.toOption,
      List.append_assoc, List.singleton_append, List.cons_append, List.nil_append,
      Nat.reduceAdd, Nat.add_assoc, List.length_append, List.length_cons, List.length_nil]
  all_goals try split_ifs
  all_goals simp only [newCalls_append]
  all_goals exact ⟨_, rfl, by simp [isCommand]⟩

/-- A transition barrier is a recorded command. -/
theorem isCommand_of_isResourceBarrier (c : Call) (h : isResourceBarrier c = true) :
    isCommand c = true := by
  cases c <;> simp_all [isResourceBarrier, isCommand]

/-- Calls that record no command leave the state of a resource as it is. -/
theorem resourceStateAfter_of_no_command (resource : Option Nat) (l : List Call) :
    ∀ state : Nat, l.filter isCommand = [] → resourceStateAfter resource state l = some state := by
  induction l with
  | nil => intro state _; rfl
  | cons c rest ih =>
    intro state h
    have hc : isCommand c = false := by
      by_contra hcon
      simp only [Bool.not_eq_false] at hcon
      simp [List.filter, hcon] at h
    have hrest : rest.filter isCommand = [] := by
      simpa [List.filter, hc] using h
    cases c <;> first
      | exact ih state hrest
      | exact Bool.noConfusion hc

/-- Calls that record no command hold no transition barrier. -/
theorem filter_isResourceBarrier_of_no_command (l : List Call)
    (h : l.filter isCommand = []) : l.filter isResourceBarrier = [] := by
  rw [List.filter_eq_nil_iff] at h ⊢
  intro c hc hb
  exact h c hc (isCommand_of_isResourceBarrier c hb)

/-! ## The window -/

/-- A difference that fits in a `LONG` is not changed by the reduction. -/
theorem toLONG_of_fits (z : Int) (h : -2147483648 ≤ z ∧ z < 2147483648) : toLONG z = z := by
  unfold toLONG
  omega

/-- `SetFullscreen( true )` on a windowed application. -/
theorem SetFullscreen_enter (dev : Device) (a : DX12App) (h : a.m_Fullscreen = false) :
    SetFullscreen dev true a =
      (Outcome.ok (),
        { a with
          m_Fullscreen := true
          m_WindowRect := dev.windowRect a.trace.length
          trace := a.trace ++
            [Call.GetWindowRect (dev.windowRect a.trace.length),
              Call.SetWindowLong GWL_STYLE windowStyle,
              Call.MonitorFromWindow MONITOR_DEFAULTTONEAREST (dev.monitor (a.trace.length + 2)),
              Call.GetMonitorInfo (dev.monitor (a.trace.length + 2))
                (dev.rcMonitor (a.trace.length + 3)),
              Call.SetWindowPos HWND_TOP (dev.rcMonitor (a.trace.length + 3)).left
                (dev.rcMonitor (a.trace.length + 3)).top
                (toLONG ((dev.rcMonitor (a.trace.length + 3)).right -
                  (dev.rcMonitor (a.trace.length + 3)).left))
                (toLONG ((dev.rcMonitor (a.trace.length + 3)).bottom -
                  (dev.rcMonitor (a.trace.length + 3)).top))
                (SWP_FRAMECHANGED ||| SWP_NOACTIVATE),
              Call.ShowWindow SW_MAXIMIZE] }) := by
  simp [SetFullscreen, bind, Prog.bind, Prog.get, pure, Prog.pure, Prog.modify, h,
    getWindowRect, setWindowLong, monitorFromWindow, getMonitorInfo, setWindowPos, showWindow,
    DX12App.log, Nat.add_assoc]

/-- `SetFullscreen( false )` on a fullscreen application. -/
theorem SetFullscreen_leave (dev : Device) (a : DX12App) (h : a.m_Fullscreen = true) :
    SetFullscreen dev false a =
      (Outcome.ok (),
        { a with
          m_Fullscreen := false
          trace := a.trace ++
            [Call.SetWindowLong GWL_STYLE WS_OVERLAPPEDWINDOW,
              Call.SetWindowPos HWND_NOTOPMOST a.m_WindowRect.left a.m_WindowRect.top
                (toLONG (a.m_WindowRect.right - a.m_WindowRect.left))
                (toLONG (a.m_WindowRect.bottom - a.m_WindowRect.top))
                (SWP_FRAMECHANGED ||| SWP_NOACTIVATE),
              Call.ShowWindow SW_NORMAL] }) := by
  simp [SetFullscreen, bind, Prog.bind, Prog.get, pure, Prog.pure, Prog.modify, h,
    setWindowLong, setWindowPos, showWindow, DX12App.log]

/-- `SetFullscreen( !m_Fullscreen )` always returns normally, negates the
fullscreen flag and keeps the vsync flag. -/
theorem SetFullscreen_toggle (dev : Device) (a : DX12App) :
    (SetFullscreen dev (!a.m_Fullscreen) a).1 = Outcome.ok () ∧
    (SetFullscreen dev (!a.m_Fullscreen) a).2.m_Fullscreen = (!a.m_Fullscreen) ∧
    (SetFullscreen dev (!a.m_Fullscreen) a).2.m_VSync = a.m_VSync := by
  cases h : a.m_Fullscreen
  · rw [Bool.not_false, SetFullscreen_enter dev a h]
    exact ⟨rfl, rfl, rfl⟩
  · rw [Bool.not_true, SetFullscreen_leave dev a h]
    exact ⟨rfl, rfl, rfl⟩

/-- The test `( state & 0x8000 ) != 0` on a `SHORT` holds iff the most
significant bit of the `SHORT` is set, that is, iff it is negative: the key is
down. -/
theorem alt_iff (state : Int) (h : -32768 ≤ state ∧ state < 32768) :
    alt state = true ↔ state < 0 := by
  have key : (bits32 state &&& 0x8000) = if state < 0 then 32768 else 0 := by
    unfold bits32
    rw [show (0x8000 : Nat) = 2 ^ 15 by norm_num, Nat.and_two_pow, Nat.testBit_to_div_mod]
    split_ifs with hneg
    · have hbit : (state % 4294967296).toNat / 2 ^ 15 % 2 = 1 := by omega
      rw [hbit]
      simp
    · have hbit : (state % 4294967296).toNat / 2 ^ 15 % 2 = 0 := by omega
      rw [hbit]
      simp
  unfold alt
  rw [key]
  split_ifs with hneg <;> simp [hneg]

/-! ## Shutdown -/

/-- One step of the adapter loop on an adapter that the two tests accept. -/
theorem GetAdapter.loop_cons_accept (ad : Adapter) (tl : List Adapter) (i m : Nat)
    (cur : Option AdapterRef) (a : DX12App)
    (hel : eligible ad = true) (hgt : m < ad.DedicatedVideoMemory) :
    GetAdapter.loop (ad :: tl) i m cur a =
      if FAILED ad.hrAs then (Outcome.threw, a)
      else GetAdapter.loop tl (i + 1) ad.DedicatedVideoMemory
        (some (AdapterRef.enumerated i)) a := by
  simp only [eligible, Bool.and_eq_true, beq_iff_eq] at hel
  simp [GetAdapter.loop, bind, Prog.bind_ThrowIfFailed, hel.1, hel.2, hgt]

/-- One step of the adapter loop on an adapter that one of the two tests
rejects. -/
theorem GetAdapter.loop_cons_reject (ad : Adapter) (tl : List Adapter) (i m : Nat)
    (cur : Option AdapterRef) (a : DX12App)
    (h : eligible ad = false ∨ ad.DedicatedVideoMemory ≤ m) :
    GetAdapter.loop (ad :: tl) i m cur a = GetAdapter.loop tl (i + 1) m cur a := by
  simp only [GetAdapter.loop]
  split_ifs with h1 h2
  · exfalso
    simp only [Bool.and_eq_true, decide_eq_true_eq] at h2
    rcases h with h | h
    · simp [eligible, h1, h2.1] at h
    · omega
  · rfl
  · rfl

/-- What the adapter loop computes.  It leaves the state as it is; it returns
when every `As` call succeeds; and when it returns, `best` being the final value
of `maxDedicatedVideoMemory`, either no adapter was accepted, or the result is
the first of the remaining adapters that is eligible with the memory `best`. -/
theorem GetAdapter.loop_spec (rest : List Adapter) :
    ∀ (i m : Nat) (cur : Option AdapterRef) (a : DX12App),
      (GetAdapter.loop rest i m cur a).2 = a ∧
      ((∀ ad ∈ rest, FAILED ad.hrAs = false) →
        ∃ res, (GetAdapter.loop rest i m cur a).1 = Outcome.ok res) ∧
      (∀ res, (GetAdapter.loop rest i m cur a).1 = Outcome.ok res →
        ∃ best, m ≤ best ∧
          (∀ ad ∈ rest, eligible ad = true → ad.DedicatedVideoMemory ≤ best) ∧
          ((res = cur ∧ best = m) ∨
            ∃ k ad, rest[k]? = some ad ∧ res = some (AdapterRef.enumerated (i + k)) ∧
              eligible ad = true ∧ ad.DedicatedVideoMemory = best ∧ m < best ∧
              ∀ j other, j < k → rest[j]? = some other → eligible other = true →
                other.DedicatedVideoMemory < best)) := by
  induction rest with
  | nil =>
    intro i m cur a
    refine ⟨rfl, fun _ => ⟨cur, rfl⟩, ?_⟩
    intro res h
    simp only [GetAdapter.loop, pure, Prog.pure, Outcome.ok.injEq] at h
    exact ⟨m, le_refl _, by simp, Or.inl ⟨h.symm, rfl⟩⟩
  | cons ad tl ih =>
    intro i m cur a
    by_cases hacc : eligible ad = true ∧ m < ad.DedicatedVideoMemory
    · obtain ⟨hel, hgt⟩ := hacc
      rw [GetAdapter.loop_cons_accept ad tl i m cur a hel hgt]
      by_cases hAs : FAILED ad.hrAs = true
      · rw [if_pos hAs]
        refine ⟨rfl, ?_, ?_⟩
        · intro hall
          have hf := hall ad (List.mem_cons_self _ _)
          rw [hAs] at hf
          exact Bool.noConfusion hf
        · intro res h
          exact Outcome.noConfusion h
      · rw [if_neg hAs]
        obtain ⟨h1, h2, h3⟩ := ih (i + 1) ad.DedicatedVideoMemory
          (some (AdapterRef.enumerated i)) a
        refine ⟨h1, fun hall => h2 (fun x hx => hall x (List.mem_cons_of_mem _ hx)), ?_⟩
        intro res hres
        obtain ⟨best, hle, hall, hcase⟩ := h3 res hres
        refine ⟨best, by omega, ?_, Or.inr ?_⟩
        · intro x hx hxe
          rcases List.mem_cons.mp hx with hx | hx
          · rw [hx]; exact hle
          · exact hall x hx hxe
        · rcases hcase with ⟨hr, hb⟩ | ⟨k, ad', hk, hr, he, hm, hlt, hfirst⟩
          · refine ⟨0, ad, by simp, by simp [hr], hel, hb.symm, by omega, ?_⟩
            intro j other hj
            omega
          · refine ⟨k + 1, ad', by simp [hk], ?_, he, hm, by omega, ?_⟩
            · rw [hr, Nat.add_assoc, Nat.add_comm 1 k]
            · intro j other hj hjo hoe
              cases j with
              | zero =>
                simp only [List.getElem?_cons_zero, Option.some.injEq] at hjo
                subst hjo
                omega
              | succ j =>
                simp only [List.getElem?_cons_succ] at hjo
                exact hfirst j other (by omega) hjo hoe
    · have hrej : eligible ad = false ∨ ad.DedicatedVideoMemory ≤ m := by
        by_cases hel : eligible ad = true
        · right
          by_contra hgt
          exact hacc ⟨hel, by omega⟩
        · left
          simpa using hel
      rw [GetAdapter.loop_cons_reject ad tl i m cur a hrej]
      obtain ⟨h1, h2, h3⟩ := ih (i + 1) m cur a
      refine ⟨h1, fun hall => h2 (fun x hx => hall x (List.mem_cons_of_mem _ hx)), ?_⟩
      intro res hres
      obtain ⟨best, hle, hall, hcase⟩ := h3 res hres
      have had : eligible ad = true → ad.DedicatedVideoMemory ≤ best := by
        intro hel
        rcases hrej with hrej | hrej
        · rw [hel] at hrej
          exact Bool.noConfusion hrej
        · omega
      refine ⟨best, hle, ?_, ?_⟩
      · intro x hx hxe
        rcases List.mem_cons.mp hx with hx | hx
        · rw [hx] at hxe ⊢; exact had hxe
        · exact hall x hx hxe
      · rcases hcase with ⟨hr, hb⟩ | ⟨k, ad', hk, hr, he, hm, hlt, hfirst⟩
        · exact Or.inl ⟨hr, hb⟩
        · refine Or.inr ⟨k + 1, ad', by simp [hk], ?_, he, hm, hlt, ?_⟩
          · rw [hr, Nat.add_assoc, Nat.add_comm 1 k]
          · intro j other hj hjo hoe
            cases j with
            | zero =>
              simp only [List.getElem?_cons_zero, Option.some.injEq] at hjo
              subst hjo
              rcases hrej with hrej | hrej
              · rw [hoe] at hrej
                exact Bool.noConfusion hrej
              · omega
            | succ j =>
              simp only [List.getElem?_cons_succ] at hjo
              exact hfirst j other (by omega) hjo hoe

/-- `GetAdapter` without WARP, once the factory is created, is the adapter
loop. -/
theorem GetAdapter_eq_loop (factory : Factory) (a : DX12App)
    (hfactory : FAILED factory.hrCreateDXGIFactory2 = false) :
    GetAdapter factory false a = GetAdapter.loop factory.adapters 0 0 none a := by
  simp [GetAdapter, bind, Prog.bind_ThrowIfFailed, hfactory]

/-! ## The scene -/

/-- `TexturedDemoBoxGame::ResizeDepthBuffer` writes neither `m_Width` nor
`m_Height`, and logs its own call first. -/
theorem TexturedDemoBoxGame.ResizeDepthBuffer_size (dev : Device) (g : TexturedDemoBoxGame)
    (width height : Int) :
    (TexturedDemoBoxGame.ResizeDepthBuffer dev width height g).2.m_Width = g.m_Width ∧
    (TexturedDemoBoxGame.ResizeDepthBuffer dev width height g).2.m_Height = g.m_Height ∧
    ∃ rest, (TexturedDemoBoxGame.ResizeDepthBuffer dev width height g).2.trace =
      g.trace ++ Call.ResizeDepthBuffer width height :: rest := by
  by_cases hc : g.m_ContentLoaded = true
  · by_cases hf : FAILED (dev.hrCreateCommittedResource (g.trace.length + 1)) = true
    · simp [TexturedDemoBoxGame.ResizeDepthBuffer, bind, Prog.bind, ThrowIfFailed, pure, Prog.get,
        Prog.pure, Prog.modify, TexturedDemoBoxGame.log, createCommittedResource,
        createDepthStencilView, hc, hf]
    · simp [TexturedDemoBoxGame.ResizeDepthBuffer, bind, Prog.bind, ThrowIfFailed, pure, Prog.get,
        Prog.pure, Prog.modify, TexturedDemoBoxGame.log, createCommittedResource,
        createDepthStencilView, hc, hf]
  · simp [TexturedDemoBoxGame.ResizeDepthBuffer, bind, Prog.bind, pure, Prog.get,
      Prog.pure, Prog.modify, TexturedDemoBoxGame.log, hc]

/-- `TexturedDemoBoxGame::Resize` writes neither `m_Width` nor `m_Height`: the
client size that `GetClientWidth` and `GetClientHeight` report stays the one
set by the constructor.  With arguments that differ from that size it replaces
the viewport and calls `ResizeDepthBuffer`, every time. -/
theorem TexturedDemoBoxGame.Resize_keeps_size (dev : Device) (g : TexturedDemoBoxGame)
    (Width Height : Int) :
    (TexturedDemoBoxGame.Resize dev Width Height g).2.GetClientWidth = g.GetClientWidth ∧
    (TexturedDemoBoxGame.Resize dev Width Height g).2.GetClientHeight = g.GetClientHeight ∧
    (Width ≠ g.GetClientWidth ∨ Height ≠ g.GetClientHeight →
      ∃ rest, newCalls g.trace (TexturedDemoBoxGame.Resize dev Width Height g).2.trace =
        Call.ViewportStore Width Height :: Call.ResizeDepthBuffer Width Height :: rest) := by
  by_cases hne : Width ≠ g.GetClientWidth ∨ Height ≠ g.GetClientHeight
  · have hrun : TexturedDemoBoxGame.Resize dev Width Height g =
        TexturedDemoBoxGame.ResizeDepthBuffer dev Width Height (viewportStore Width Height g).2 := by
      unfold TexturedDemoBoxGame.Resize
      simp only [bind, Prog.bind, Prog.get]
      rw [if_pos hne]
      exact Prog.bind_of_ok _ _ g () rfl
    obtain ⟨h1, h2, rest, h3⟩ := TexturedDemoBoxGame.ResizeDepthBuffer_size dev
      (viewportStore Width Height g).2 Width Height
    rw [hrun]
    refine ⟨h1, h2, fun _ => ⟨rest, ?_⟩⟩
    rw [h3]
    simp [viewportStore, TexturedDemoBoxGame.log, newCalls]
  · have hrun : TexturedDemoBoxGame.Resize dev Width Height g = (Outcome.ok (), g) := by
      unfold TexturedDemoBoxGame.Resize
      simp only [bind, Prog.bind, Prog.get]
      rw [if_neg hne]
      rfl
    rw [hrun]
    exact ⟨rfl, rfl, fun h => absurd h hne⟩

/-! ## Calls after a failed Signal -/

/-- The signalled values of a log in two parts. -/
theorem signalledValues_append (l₁ l₂ : List Call) :
    signalledValues (l₁ ++ l₂) = signalledValues l₁ ++ signalledValues l₂ := by
  induction l₁ with
  | nil => rfl
  | cons c l ih =>
    cases c <;> simp [signalledValues, ih]

/-- The calls of `WaitForFenceValue` extend the log and signal no value on the
queue. -/
theorem WaitForFenceValue_signalled (dev : Device) (m : Nat) (d : Int) (s : SyncState) :
    ∃ l, (WaitForFenceValue dev m d s).2.trace = s.trace ++ l ∧ signalledValues l = [] := by
  rw [WaitForFenceValue_eq]
  by_cases h1 : (getCompletedValue dev s).2.gpu.completed < m
  · simp only [h1, if_true]
    by_cases h2 : FAILED (dev.hrSetEvent (getCompletedValue dev s).2.trace.length) = true
    · simp only [h2, if_true]
      exact ⟨_, by rw [setEventOnCompletion_trace, getCompletedValue_trace,
        List.append_assoc], by simp [signalledValues]⟩
    · simp only [h2, if_false]
      obtain ⟨result, hres⟩ := waitForSingleObject_trace dev (toDWORD d)
        (setEventOnCompletion dev m (getCompletedValue dev s).2).2
      rw [setEventOnCompletion_trace, getCompletedValue_trace, List.append_assoc,
        List.append_assoc] at hres
      rcases hw : waitForSingleObject dev (toDWORD d)
        (setEventOnCompletion dev m (getCompletedValue dev s).2).2 with ⟨o, s3⟩
      rw [hw] at hres
      simp only at hres
      cases o <;> exact ⟨_, hres, by simp [signalledValues]⟩
  · simp only [h1, if_false]
    exact ⟨_, getCompletedValue_trace dev s, by simp [signalledValues]⟩

/-- Whatever its outcome, `Flush` advances the counter by one and passes the new
value to the one queue `Signal` call it makes. -/
theorem Flush_signalled (dev : Device) (d : Int) (s : SyncState) :
    ∃ l, (Flush dev d s).2.trace = s.trace ++ l ∧
      signalledValues l = [(s.fenceValue + 1) % UINT64_MOD] ∧
      (Flush dev d s).2.fenceValue = (s.fenceValue + 1) % UINT64_MOD := by
  rw [Flush_eq]
  by_cases h : FAILED (dev.hrSignal s.trace.length) = true
  · rw [if_pos h]
    exact ⟨_, Signal_trace dev s, by simp [signalledValues], Signal_fenceValue dev s⟩
  · rw [if_neg h]
    obtain ⟨lw, hlw, hlw0⟩ :=
      WaitForFenceValue_signalled dev ((s.fenceValue + 1) % UINT64_MOD) d (Signal dev s).2
    refine ⟨Call.QueueSignal ((s.fenceValue + 1) % UINT64_MOD) (dev.hrSignal s.trace.length) :: lw,
      ?_, ?_, ?_⟩
    · rw [hlw, Signal_trace, List.append_assoc, List.singleton_append]
    · simp [signalledValues, hlw0]
    · rw [(WaitForFenceValue_frame _ _ _ _).1, Signal_fenceValue]

/-- A run of `Signal` and `Flush` calls, whatever their outcomes, passes the
values `v + 1, v + 2, ...` to the queue, one per call, as long as the counter
stays below `2 ^ 64`. -/
theorem syncAll_signalled (dev : Device) (calls : List SyncCall) :
    ∀ s : SyncState, s.fenceValue + calls.length < 2 ^ 64 →
      ∃ l, (syncAll dev calls s).trace = s.trace ++ l ∧
        signalledValues l = List.range' (s.fenceValue + 1) calls.length ∧
        (syncAll dev calls s).fenceValue = s.fenceValue + calls.length := by
  induction calls with
  | nil =>
    intro s _
    exact ⟨[], by simp [syncAll], by simp [signalledValues], by simp [syncAll]⟩
  | cons c rest ih =>
    intro s hlen
    simp only [List.length_cons] at hlen
    have hmod : (s.fenceValue + 1) % UINT64_MOD = s.fenceValue + 1 := by
      apply Nat.mod_eq_of_lt
      simp only [UINT64_MOD]
      omega
    have hstep : ∃ s1 l1, syncAll dev (c :: rest) s = syncAll dev rest s1 ∧
        s1.trace = s.trace ++ l1 ∧ signalledValues l1 = [s.fenceValue + 1] ∧
        s1.fenceValue = s.fenceValue + 1 := by
      cases c with
      | signal =>
        exact ⟨(Signal dev s).2, _, rfl, Signal_trace dev s, by simp [signalledValues, hmod],
          by rw [Signal_fenceValue, hmod]⟩
      | flush d =>
        obtain ⟨l, h1, h2, h3⟩ := Flush_signalled dev d s
        exact ⟨(Flush dev d s).2, l, rfl, h1, by rw [h2, hmod], by rw [h3, hmod]⟩
    obtain ⟨s1, l1, hrun, htr, hsig, hfv⟩ := hstep
    obtain ⟨l, h1, h2, h3⟩ := ih s1 (by omega)
    refine ⟨l1 ++ l, ?_, ?_, ?_⟩
    · rw [hrun, h1, htr, List.append_assoc]
    · rw [signalledValues_append, hsig, h2, hfv, List.length_cons, List.range'_succ]
      rfl
    · rw [hrun, h3, hfv, List.length_cons]
      omega

/-! ## The claims -/

/-- Claim C1. `DX12App::Signal`, called with a counter holding `v < 2 ^ 64 - 1`
and a queue whose `Signal` call succeeds, returns `v + 1`, leaves the counter at
`v + 1`, and logs one call only, the queue `Signal` with the value `v + 1`: it
performs no wait. -/
theorem Signal_issues_next_marker (dev : Device) (s : SyncState)
    (hv : s.fenceValue < 2 ^ 64 - 1) (hok : FAILED (dev.hrSignal s.trace.length) = false) :
    (Signal dev s).1 = Outcome.ok (s.fenceValue + 1) ∧
    (Signal dev s).2.fenceValue = s.fenceValue + 1 ∧
    (Signal dev s).2.trace =
      s.trace ++ [Call.QueueSignal (s.fenceValue + 1) (dev.hrSignal s.trace.length)] := by
  have hmod : (s.fenceValue + 1) % UINT64_MOD = s.fenceValue + 1 := by
    apply Nat.mod_eq_of_lt
    simp only [UINT64_MOD]
    omega
  rw [Signal_eq]
  simp [hok, hmod]

/-- Claim C1, witness: a counter at 41 and a queue that accepts the signal. -/
theorem Signal_issues_next_marker_witness :
    (Signal {} ⟨41, ⟨40, [41], [], false⟩, []⟩).1 = Outcome.ok 42 ∧
    (Signal {} ⟨41, ⟨40, [41], [], false⟩, []⟩).2.fenceValue = 42 ∧
    (Signal {} ⟨41, ⟨40, [41], [], false⟩, []⟩).2.trace = [Call.QueueSignal 42 0] :=
  Signal_issues_next_marker {} ⟨41, ⟨40, [41], [], false⟩, []⟩ (by decide) (by decide)

/-- Claim C2. For every sequence of `DX12App::Signal` and `DX12App::Flush` calls
on the same counter that all return normally, starting from any counter value `v`
and with fewer calls than remain before `2 ^ 64 - 1`, the markers issued are
`v + 1, v + 2, ...`, one per call and in call order: they are strictly
increasing, so each is greater than every marker issued before it and none is
issued twice; the values that `Signal` returned are among them, in the same
order, and hence strictly increasing as well. -/
theorem markers_strictly_increasing (dev : Device) (calls : List SyncCall) (s : SyncState)
    (returned : List Nat)
    (hroom : calls.length < 2 ^ 64 - 1 - s.fenceValue)
    (hok : (runSyncCalls dev calls s).1 = Outcome.ok returned) :
    issuedMarkers (newCalls s.trace (runSyncCalls dev calls s).2.trace) =
      List.range' (s.fenceValue + 1) calls.length ∧
    (issuedMarkers (newCalls s.trace (runSyncCalls dev calls s).2.trace)).Pairwise
      (fun a b => a < b) ∧
    (issuedMarkers (newCalls s.trace (runSyncCalls dev calls s).2.trace)).Nodup ∧
    returned.Sublist (issuedMarkers (newCalls s.trace (runSyncCalls dev calls s).2.trace)) ∧
    returned.Pairwise (fun a b => a < b) := by
  obtain ⟨l, h1, h2, h3⟩ := runSyncCalls_markers dev calls s returned (by omega) hok
  rw [h1, newCalls_append, h2]
  have hpw : (List.range' (s.fenceValue + 1) calls.length).Pairwise (fun a b => a < b) := by
    have := List.pairwise_lt_range' (s.fenceValue + 1) calls.length 1
    simpa using this
  exact ⟨rfl, hpw, List.nodup_range' _ _, h3, hpw.sublist h3⟩

/-- Claim C2, witness: `Signal`, `Flush`, `Signal` from the counter value 7. -/
theorem markers_strictly_increasing_witness :
    issuedMarkers (newCalls []
      (runSyncCalls {} [SyncCall.signal, SyncCall.flush 5, SyncCall.signal]
        ⟨7, ⟨7, [], [], false⟩, []⟩).2.trace) = List.range' 8 3 ∧
    ([8, 10] : List Nat).Pairwise (fun a b => a < b) :=
  have hok : (runSyncCalls {} [SyncCall.signal, SyncCall.flush 5, SyncCall.signal]
      ⟨7, ⟨7, [], [], false⟩, []⟩).1 = Outcome.ok [8, 10] := by
    simp [runSyncCalls, bind, Prog.bind, pure, Prog.pure, Signal_eq, Flush_eq,
      WaitForFenceValue_eq, getCompletedValue, setEventOnCompletion, waitForSingleObject,
      gpuRun, gpuRunUntilEvent, FAILED, UINT64_MOD, toDWORD, INFINITE]
  ⟨(markers_strictly_increasing {} [SyncCall.signal, SyncCall.flush 5, SyncCall.signal]
      ⟨7, ⟨7, [], [], false⟩, []⟩ [8, 10] (by simp) hok).1,
    (markers_strictly_increasing {} [SyncCall.signal, SyncCall.flush 5, SyncCall.signal]
      ⟨7, ⟨7, [], [], false⟩, []⟩ [8, 10] (by simp) hok).2.2.2.2⟩

/-- Claim C3, counterexample. The claim fails in three ways.  With the counter
at `2 ^ 64 - 1`, `Flush` returns with the counter at `0`, not one higher.  With a
queue whose `Signal` call fails, `Flush` throws after the one `Signal` and
performs no `WaitForFenceValue`.  And after a `WaitForFenceValue` for marker `5`
whose wait of 10 ms timed out, the event is still registered for `5`; when the
GPU then reaches `5`, a `Flush` with the counter at `5` issues marker `6`, its
wait is woken by the signal for `5` and ends with `WAIT_OBJECT_0`, not with a
time-out, and `Flush` returns while the completed value is `5`, below its
marker. -/
theorem Flush_claim_fails :
    ((Flush {} 1000 ⟨2 ^ 64 - 1, ⟨0, [], [], false⟩, []⟩).1 = Outcome.ok () ∧
      (Flush {} 1000 ⟨2 ^ 64 - 1, ⟨0, [], [], false⟩, []⟩).2.fenceValue = 0) ∧
    ((Flush { hrSignal := fun _ => -2147467259 } 1000 ⟨5, ⟨5, [], [], false⟩, []⟩).1 =
        Outcome.threw ∧
      (Flush { hrSignal := fun _ => -2147467259 } 1000 ⟨5, ⟨5, [], [], false⟩, []⟩).2.trace =
        [Call.QueueSignal 6 (-2147467259)]) ∧
    ((WaitForFenceValue { gpuProgress := fun n => if n = 3 then 1 else 0 } 5 10
          ⟨5, ⟨0, [5], [], false⟩, []⟩).2 =
        ⟨5, ⟨0, [5], [5], false⟩,
          [Call.GetCompletedValue 0, Call.SetEventOnCompletion 5 0,
            Call.WaitForSingleObject 10 (some WAIT_TIMEOUT)]⟩ ∧
      Flush { gpuProgress := fun n => if n = 3 then 1 else 0 } 1000
          ⟨5, ⟨0, [5], [5], false⟩,
            [Call.GetCompletedValue 0, Call.SetEventOnCompletion 5 0,
              Call.WaitForSingleObject 10 (some WAIT_TIMEOUT)]⟩ =
        (Outcome.ok (),
          ⟨6, ⟨5, [6], [6], false⟩,
            [Call.GetCompletedValue 0, Call.SetEventOnCompletion 5 0,
              Call.WaitForSingleObject 10 (some WAIT_TIMEOUT),
              Call.QueueSignal 6 0, Call.GetCompletedValue 5,
              Call.SetEventOnCompletion 6 0,
              Call.WaitForSingleObject 1000 (some WAIT_OBJECT_0)]⟩)) := by
  decide

/-- Claim C3 (as amended). `DX12App::Flush`, called with a counter
`v < 2 ^ 64 - 1` and an event that is neither signalled nor registered for a fence
value, and returning normally, is exactly one `Signal`, which returns the marker
`v + 1`, followed by exactly one `WaitForFenceValue` on that marker: the counter
ends at `v + 1`; the calls are the queue signal of `v + 1`, one read of the
completed value and, when that is below the marker, one arming and one wait for
the marker; and unless that wait timed out, the completed value of the fence is
at least the marker when `Flush` returns. -/
theorem Flush_signals_then_waits (dev : Device) (d : Int) (s : SyncState)
    (hv : s.fenceValue < 2 ^ 64 - 1)
    (hclean : s.gpu.eventSet = false ∧ s.gpu.armed = [])
    (hret : (Flush dev d s).1 = Outcome.ok ()) :
    (Signal dev s).1 = Outcome.ok (s.fenceValue + 1) ∧
    Flush dev d s = WaitForFenceValue dev (s.fenceValue + 1) d (Signal dev s).2 ∧
    (Flush dev d s).2.fenceValue = s.fenceValue + 1 ∧
    ∃ hr c,
      (s.fenceValue + 1 ≤ c ∧
        newCalls s.trace (Flush dev d s).2.trace =
          [Call.QueueSignal (s.fenceValue + 1) hr, Call.GetCompletedValue c] ∧
        s.fenceValue + 1 ≤ (Flush dev d s).2.gpu.completed) ∨
      (c < s.fenceValue + 1 ∧ ∃ hr' result,
        newCalls s.trace (Flush dev d s).2.trace =
          [Call.QueueSignal (s.fenceValue + 1) hr, Call.GetCompletedValue c,
            Call.SetEventOnCompletion (s.fenceValue + 1) hr',
            Call.WaitForSingleObject (toDWORD d) (some result)] ∧
        (result = WAIT_OBJECT_0 ∨ result = WAIT_TIMEOUT) ∧
        (result ≠ WAIT_TIMEOUT → s.fenceValue + 1 ≤ (Flush dev d s).2.gpu.completed)) := by
  have hmod : (s.fenceValue + 1) % UINT64_MOD = s.fenceValue + 1 := by
    apply Nat.mod_eq_of_lt
    simp only [UINT64_MOD]
    omega
  have hf : FAILED (dev.hrSignal s.trace.length) = false := by
    by_contra hc
    simp [Flush_eq, hc] at hret
  have hfl : Flush dev d s = WaitForFenceValue dev (s.fenceValue + 1) d (Signal dev s).2 := by
    simp [Flush_eq, hf, hmod]
  have hs1 : (Signal dev s).2.gpu.eventSet = false ∧ (Signal dev s).2.gpu.armed = [] := by
    have hc := gpuRun_clean (dev.gpuProgress s.trace.length) s.gpu hclean.2
    rw [Signal_eq]
    simp [hf, hc.1, hc.2, hclean.1]
  rw [hfl] at hret
  obtain ⟨c, hcase⟩ := WaitForFenceValue_clean dev _ d _ hs1 hret
  refine ⟨by simp [Signal_fst, hf, hmod], hfl, ?_, dev.hrSignal s.trace.length, c, ?_⟩
  · rw [hfl, (WaitForFenceValue_frame _ _ _ _).1, Signal_fenceValue, hmod]
  · rw [hfl]
    rcases hcase with ⟨h1, h2, h3⟩ | ⟨h1, hr', result, h2, h3, h4⟩
    · left
      refine ⟨h1, ?_, h3⟩
      rw [h2, Signal_trace, hmod, List.append_assoc, newCalls_append]
      rfl
    · right
      refine ⟨h1, hr', result, ?_, h3, h4⟩
      rw [h2, Signal_trace, hmod, List.append_assoc, newCalls_append]
      rfl

/-- Claim C3, witness: the counter at 7 and a GPU that retires the signal at once. -/
theorem Flush_signals_then_waits_witness :
    (Flush { gpuProgress := fun n => n } 1000 ⟨7, ⟨7, [], [], false⟩, []⟩).2.fenceValue
      = 8 ∧
    (Flush { gpuProgress := fun n => n } 1000 ⟨7, ⟨7, [], [], false⟩, []⟩).2.trace =
      [Call.QueueSignal 8 0, Call.GetCompletedValue 8] := by
  have h := Flush_signals_then_waits { gpuProgress := fun n => n } 1000
    ⟨7, ⟨7, [], [], false⟩, []⟩ (by decide) (by decide) (by decide)
  exact ⟨h.2.2.1, by decide⟩

/-- Claim C4, counterexample. With the fence at `0` and an arming call that
fails, `WaitForFenceValue` for marker `5` finds the completed value below the
marker and calls `SetEventOnCompletion`, but then throws: it does not wait. -/
theorem WaitForFenceValue_reached_iff_fails :
    (WaitForFenceValue { hrSetEvent := fun _ => -2147467259 } 5 1000
      ⟨5, ⟨0, [5], [], false⟩, []⟩).1 = Outcome.threw ∧
    (WaitForFenceValue { hrSetEvent := fun _ => -2147467259 } 5 1000
      ⟨5, ⟨0, [5], [], false⟩, []⟩).2.trace =
      [Call.GetCompletedValue 0, Call.SetEventOnCompletion 5 (-2147467259)] := by
  decide

/-- Claim C4 (as amended). `DX12App::WaitForFenceValue` reads the completed value
`c` of the fence once and treats the marker `m` as reached iff `m ≤ c`: then it
returns at once and its only call is that read.  It arms the event for `m` iff
`c < m`, and it then waits on the event iff the arming call succeeded (when
arming fails, `ThrowIfFailed` raises before the wait).  For the same completed
value, every marker below one that is treated as reached is treated as reached. -/
theorem WaitForFenceValue_reached_iff (dev : Device) (s : SyncState) (d : Int) (m : Nat) :
    (m ≤ (gpuRun (dev.gpuProgress s.trace.length) s.gpu).completed ↔
      newCalls s.trace (WaitForFenceValue dev m d s).2.trace =
        [Call.GetCompletedValue (gpuRun (dev.gpuProgress s.trace.length) s.gpu).completed]) ∧
    (m ≤ (gpuRun (dev.gpuProgress s.trace.length) s.gpu).completed →
      WaitForFenceValue dev m d s = (Outcome.ok (), (getCompletedValue dev s).2)) ∧
    ((gpuRun (dev.gpuProgress s.trace.length) s.gpu).completed < m ↔
      ∃ rest, newCalls s.trace (WaitForFenceValue dev m d s).2.trace =
        Call.GetCompletedValue (gpuRun (dev.gpuProgress s.trace.length) s.gpu).completed ::
          Call.SetEventOnCompletion m (dev.hrSetEvent (getCompletedValue dev s).2.trace.length) ::
            rest) ∧
    (((gpuRun (dev.gpuProgress s.trace.length) s.gpu).completed < m ∧
        FAILED (dev.hrSetEvent (getCompletedValue dev s).2.trace.length) = false) ↔
      ∃ result, newCalls s.trace (WaitForFenceValue dev m d s).2.trace =
        [Call.GetCompletedValue (gpuRun (dev.gpuProgress s.trace.length) s.gpu).completed,
          Call.SetEventOnCompletion m (dev.hrSetEvent (getCompletedValue dev s).2.trace.length),
          Call.WaitForSingleObject (toDWORD d) result]) ∧
    (∀ j, j ≤ m →
      newCalls s.trace (WaitForFenceValue dev m d s).2.trace =
        [Call.GetCompletedValue (gpuRun (dev.gpuProgress s.trace.length) s.gpu).completed] →
      newCalls s.trace (WaitForFenceValue dev j d s).2.trace =
        [Call.GetCompletedValue (gpuRun (dev.gpuProgress s.trace.length) s.gpu).completed]) := by
  -- the log in each of the three cases
  have hreach : ∀ k, k ≤ (gpuRun (dev.gpuProgress s.trace.length) s.gpu).completed →
      WaitForFenceValue dev k d s = (Outcome.ok (), (getCompletedValue dev s).2) := by
    intro k hk
    rw [WaitForFenceValue_eq, getCompletedValue_completed, if_neg (not_lt.mpr hk)]
  have hreachlog : ∀ k, k ≤ (gpuRun (dev.gpuProgress s.trace.length) s.gpu).completed →
      newCalls s.trace (WaitForFenceValue dev k d s).2.trace =
        [Call.GetCompletedValue (gpuRun (dev.gpuProgress s.trace.length) s.gpu).completed] := by
    intro k hk
    rw [hreach k hk]
    exact newCalls_append _ _
  have hfail : ∀ k, (gpuRun (dev.gpuProgress s.trace.length) s.gpu).completed < k →
      FAILED (dev.hrSetEvent (getCompletedValue dev s).2.trace.length) = true →
      newCalls s.trace (WaitForFenceValue dev k d s).2.trace =
        [Call.GetCompletedValue (gpuRun (dev.gpuProgress s.trace.length) s.gpu).completed,
          Call.SetEventOnCompletion k (dev.hrSetEvent (getCompletedValue dev s).2.trace.length)] := by
    intro k hk hf
    rw [WaitForFenceValue_eq, getCompletedValue_completed, if_pos hk, if_pos hf]
    simp only [setEventOnCompletion_trace]
    rw [getCompletedValue_trace, List.append_assoc, newCalls_append]
    rfl
  have hwait : ∀ k, (gpuRun (dev.gpuProgress s.trace.length) s.gpu).completed < k →
      FAILED (dev.hrSetEvent (getCompletedValue dev s).2.trace.length) = false →
      ∃ result, newCalls s.trace (WaitForFenceValue dev k d s).2.trace =
        [Call.GetCompletedValue (gpuRun (dev.gpuProgress s.trace.length) s.gpu).completed,
          Call.SetEventOnCompletion k (dev.hrSetEvent (getCompletedValue dev s).2.trace.length),
          Call.WaitForSingleObject (toDWORD d) result] := by
    intro k hk hf
    rw [WaitForFenceValue_eq, getCompletedValue_completed, if_pos hk, hf]
    simp only [Bool.false_eq_true, if_false]
    have htr : (setEventOnCompletion dev k (getCompletedValue dev s).2).2.trace =
        s.trace ++ [Call.GetCompletedValue (gpuRun (dev.gpuProgress s.trace.length) s.gpu).completed,
          Call.SetEventOnCompletion k (dev.hrSetEvent (getCompletedValue dev s).2.trace.length)] := by
      simp [setEventOnCompletion_trace, getCompletedValue_trace]
    generalize (setEventOnCompletion dev k (getCompletedValue dev s).2).2 = s2 at htr ⊢
    obtain ⟨result, hres⟩ := waitForSingleObject_trace dev (toDWORD d) s2
    refine ⟨result, ?_⟩
    rcases hw : waitForSingleObject dev (toDWORD d) s2 with ⟨o, s3⟩
    rw [hw] at hres
    simp only at hres
    have h3 : s3.trace = s.trace ++
        [Call.GetCompletedValue (gpuRun (dev.gpuProgress s.trace.length) s.gpu).completed,
          Call.SetEventOnCompletion k (dev.hrSetEvent (getCompletedValue dev s).2.trace.length),
          Call.WaitForSingleObject (toDWORD d) result] := by
      rw [hres, htr, List.append_assoc]
      rfl
    cases o <;> simp only [h3, newCalls_append]
  have hbelow : ∀ k, (gpuRun (dev.gpuProgress s.trace.length) s.gpu).completed < k →
      ∃ rest, newCalls s.trace (WaitForFenceValue dev k d s).2.trace =
        Call.GetCompletedValue (gpuRun (dev.gpuProgress s.trace.length) s.gpu).completed ::
          Call.SetEventOnCompletion k (dev.hrSetEvent (getCompletedValue dev s).2.trace.length) ::
            rest := by
    intro k hk
    by_cases hf : FAILED (dev.hrSetEvent (getCompletedValue dev s).2.trace.length) = true
    · exact ⟨[], hfail k hk hf⟩
    · obtain ⟨result, hres⟩ := hwait k hk (by simpa using hf)
      exact ⟨_, hres⟩
  refine ⟨⟨hreachlog m, ?_⟩, hreach m, ⟨hbelow m, ?_⟩, ⟨fun h => hwait m h.1 h.2, ?_⟩, ?_⟩
  · intro h
    by_contra hlt
    obtain ⟨rest, hrest⟩ := hbelow m (not_le.mp hlt)
    rw [h] at hrest
    simp at hrest
  · rintro ⟨rest, hrest⟩
    by_contra hge
    rw [hreachlog m (not_lt.mp hge)] at hrest
    simp at hrest
  · rintro ⟨result, hres⟩
    have hlt : (gpuRun (dev.gpuProgress s.trace.length) s.gpu).completed < m := by
      by_contra hge
      rw [hreachlog m (not_lt.mp hge)] at hres
      simp at hres
    refine ⟨hlt, ?_⟩
    by_contra hf
    rw [hfail m hlt (by simpa using hf)] at hres
    simp at hres
  · intro j hj h
    have hm : m ≤ (gpuRun (dev.gpuProgress s.trace.length) s.gpu).completed := by
      by_contra hlt
      obtain ⟨rest, hrest⟩ := hbelow m (not_le.mp hlt)
      rw [h] at hrest
      simp at hrest
    exact hreachlog j (le_trans hj hm)

/-- Claim C5, counterexample. A wait that times out is not reported.  With the fence
at `0`, `WaitForFenceValue` for marker `5` arms the event, its wait of 10 ms
ends with `WAIT_TIMEOUT` and the fence is still at `0`; with the fence at `5` the
marker is reached.  Both calls return normally, with no value, and leave the
caller's counter alone; so do the two calls of `Flush` of which the first times
out and the second finds the marker reached. -/
theorem WaitForFenceValue_timeout_not_reported :
    (WaitForFenceValue {} 5 10 ⟨5, ⟨0, [5], [], false⟩, []⟩).2.trace =
      [Call.GetCompletedValue 0, Call.SetEventOnCompletion 5 0,
        Call.WaitForSingleObject 10 (some WAIT_TIMEOUT)] ∧
    (WaitForFenceValue {} 5 10 ⟨5, ⟨0, [5], [], false⟩, []⟩).2.gpu.completed = 0 ∧
    (WaitForFenceValue {} 5 10 ⟨5, ⟨5, [], [], false⟩, []⟩).2.trace =
      [Call.GetCompletedValue 5] ∧
    (WaitForFenceValue {} 5 10 ⟨5, ⟨0, [5], [], false⟩, []⟩).1 = Outcome.ok () ∧
    (WaitForFenceValue {} 5 10 ⟨5, ⟨5, [], [], false⟩, []⟩).1 = Outcome.ok () ∧
    (WaitForFenceValue {} 5 10 ⟨5, ⟨0, [5], [], false⟩, []⟩).2.fenceValue =
      (WaitForFenceValue {} 5 10 ⟨5, ⟨5, [], [], false⟩, []⟩).2.fenceValue ∧
    (Flush {} 10 ⟨4, ⟨0, [], [], false⟩, []⟩).2.trace =
      [Call.QueueSignal 5 0, Call.GetCompletedValue 0, Call.SetEventOnCompletion 5 0,
        Call.WaitForSingleObject 10 (some WAIT_TIMEOUT)] ∧
    (Flush { gpuProgress := fun n => n } 10 ⟨4, ⟨0, [], [], false⟩, []⟩).2.trace =
      [Call.QueueSignal 5 0, Call.GetCompletedValue 5] ∧
    (Flush {} 10 ⟨4, ⟨0, [], [], false⟩, []⟩).1 = Outcome.ok () ∧
    (Flush { gpuProgress := fun n => n } 10 ⟨4, ⟨0, [], [], false⟩, []⟩).1 =
      Outcome.ok () ∧
    (Flush {} 10 ⟨4, ⟨0, [], [], false⟩, []⟩).2.fenceValue =
      (Flush { gpuProgress := fun n => n } 10
        ⟨4, ⟨0, [], [], false⟩, []⟩).2.fenceValue := by
  decide

/-- Claim C5 (as amended). When the wait of `DX12App::WaitForFenceValue` ends because
the time-out elapsed, the completed value of the fence is still below the marker
and the call returns normally, with no value and with the caller's counter
unchanged, just as when the marker is reached; a `Flush` whose wait times out
returns normally as well.  The time-out is not reported to the caller. -/
theorem WaitForFenceValue_timeout_returns_normally (dev : Device) (s : SyncState)
    (m : Nat) (d : Int)
    (hto : (WaitForFenceValue dev m d s).2.trace.getLast? =
      some (Call.WaitForSingleObject (toDWORD d) (some WAIT_TIMEOUT))) :
    (WaitForFenceValue dev m d s).1 = Outcome.ok () ∧
    (WaitForFenceValue dev m d s).2.gpu.completed < m ∧
    (WaitForFenceValue dev m d s).2.fenceValue = s.fenceValue ∧
    (∀ s₀, Signal dev s₀ = (Outcome.ok m, s) →
      Flush dev d s₀ = (Outcome.ok (), (WaitForFenceValue dev m d s).2)) := by
  have hmain : (WaitForFenceValue dev m d s).1 = Outcome.ok () ∧
      (WaitForFenceValue dev m d s).2.gpu.completed < m := by
    rw [WaitForFenceValue_eq] at hto ⊢
    by_cases h1 : (getCompletedValue dev s).2.gpu.completed < m
    · simp only [h1, if_true] at hto ⊢
      by_cases h2 : FAILED (dev.hrSetEvent (getCompletedValue dev s).2.trace.length) = true
      · simp [h2, setEventOnCompletion_trace] at hto
      · simp only [h2, if_false] at hto ⊢
        have hinv := setEventOnCompletion_inv dev m (getCompletedValue dev s).2
          (by simpa using h2)
        generalize (setEventOnCompletion dev m (getCompletedValue dev s).2).2 = s2
          at hto hinv ⊢
        have hto' : (waitForSingleObject dev (toDWORD d) s2).2.trace.getLast? =
            some (Call.WaitForSingleObject (toDWORD d) (some WAIT_TIMEOUT)) := by
          rcases hw : waitForSingleObject dev (toDWORD d) s2 with ⟨o, s3⟩
          rw [hw] at hto
          cases o <;> exact hto
        obtain ⟨hr1, hr2, _⟩ := waitForSingleObject_timeout dev _ m s2 hinv hto'
        rcases hw : waitForSingleObject dev (toDWORD d) s2 with ⟨o, s3⟩
        rw [hw] at hr1 hr2
        simp only at hr1 hr2
        subst hr1
        exact ⟨rfl, hr2⟩
    · simp [h1, getCompletedValue_trace] at hto
  refine ⟨hmain.1, hmain.2, (WaitForFenceValue_frame _ _ _ _).1, ?_⟩
  intro s₀ hs₀
  have hb := Prog.bind_of_ok (Signal dev) (fun v => WaitForFenceValue dev v d) s₀ m
    (by rw [hs₀])
  have hfl : Flush dev d s₀ = WaitForFenceValue dev m d s := by
    simp only [Flush, bind]
    rw [hb, hs₀]
  rw [hfl]
  rcases hw : WaitForFenceValue dev m d s with ⟨o, s3⟩
  rw [hw] at hmain
  simp only at hmain ⊢
  rw [hmain.1]

/-- Claim C5, witness: the fence at 3, marker 9, a wait of 250 ms and a GPU that
makes no progress. -/
theorem WaitForFenceValue_timeout_returns_normally_witness :
    (WaitForFenceValue {} 9 250 ⟨9, ⟨3, [9], [], false⟩, []⟩).1 = Outcome.ok () ∧
    (WaitForFenceValue {} 9 250 ⟨9, ⟨3, [9], [], false⟩, []⟩).2.gpu.completed < 9 :=
  ⟨(WaitForFenceValue_timeout_returns_normally {} ⟨9, ⟨3, [9], [], false⟩, []⟩ 9 250
      (by decide)).1,
    (WaitForFenceValue_timeout_returns_normally {} ⟨9, ⟨3, [9], [], false⟩, []⟩ 9 250
      (by decide)).2.1⟩

/-- Claim C7. `DX12App::Resize` with the stored client width and height is a
no-op: it returns normally and leaves the whole state as it was, so it logs no
call (no `Flush`, no `ResizeBuffers`, no release or re-creation of a back buffer
or view) and the client size and the current back-buffer index are unchanged. -/
theorem Resize_same_size_noop (dev : Device) (a : DX12App) :
    Resize dev a.m_ClientWidth a.m_ClientHeight a = (Outcome.ok (), a) := by
  simp [Resize, bind, Prog.bind, Prog.get, pure, Prog.pure]

/-- Claim C9. Every `Present` call of `DX12App::Render` is made with the sync interval
`m_VSync ? 1 : 0` and the flags `m_TearingSupported && !m_VSync ?
DXGI_PRESENT_ALLOW_TEARING : 0`, and a `Render` that returns has made such a
call.  These flags contain the allow-tearing flag iff tearing is supported and
vsync is off; so the flag is never set when vsync is on, whatever the tearing
support, and when it is not set the flags are 0. -/
theorem Render_present_flags (dev : Device) (a : DX12App) :
    (∀ sync flags hr,
      Call.Present sync flags hr ∈ newCalls a.trace (Render dev a).2.trace →
      sync = syncInterval a.m_VSync ∧ flags = presentFlags a.m_TearingSupported a.m_VSync) ∧
    ((Render dev a).1 = Outcome.ok () →
      ∃ hr, Call.Present (syncInterval a.m_VSync)
        (presentFlags a.m_TearingSupported a.m_VSync) hr ∈
          newCalls a.trace (Render dev a).2.trace) ∧
    (presentFlags a.m_TearingSupported a.m_VSync &&& DXGI_PRESENT_ALLOW_TEARING ≠ 0 ↔
      a.m_TearingSupported = true ∧ a.m_VSync = false) ∧
    (a.m_VSync = true →
      presentFlags a.m_TearingSupported a.m_VSync &&& DXGI_PRESENT_ALLOW_TEARING = 0) ∧
    (presentFlags a.m_TearingSupported a.m_VSync &&& DXGI_PRESENT_ALLOW_TEARING = 0 →
      presentFlags a.m_TearingSupported a.m_VSync = 0) := by
  obtain ⟨commandList, fenceValue, start, hr, index, ⟨rest, hfull⟩, hok⟩ :=
    Render_log dev a
  refine ⟨?_, ?_, ?_, ?_, ?_⟩
  · intro sync flags hr' hmem
    have : Call.Present sync flags hr' ∈ newCalls a.trace (Render dev a).2.trace ++ rest :=
      List.mem_append_left _ hmem
    rw [← hfull] at this
    simp at this
    exact ⟨this.1, this.2.1⟩
  · intro h
    obtain ⟨_, htr, _⟩ := hok h
    refine ⟨hr, ?_⟩
    rw [htr, newCalls_append]
    simp
  · cases a.m_TearingSupported <;> cases a.m_VSync <;> decide
  · cases a.m_TearingSupported <;> cases a.m_VSync <;> decide
  · cases a.m_TearingSupported <;> cases a.m_VSync <;> decide

/-- Claim C10. Each `DX12App::Render` that returns normally makes, in this order, the
calls of one frame: it takes a command list, records the transition to the render
target, the clear and the transition back, makes exactly one
`ExecuteCommandList` and then exactly one `Present`, re-reads the current
back-buffer index from the swap chain and stores what the swap chain reports, and
last waits on exactly the fence value that its `ExecuteCommandList` returned.
Hence `n` frames that return normally log `n` such blocks, one after the other,
with exactly `n` `ExecuteCommandList` calls and `n` `Present` calls, and the
recording of a frame starts only after the wait on the marker of the frame
before it. -/
theorem Render_frame_order (dev : Device) :
    (∀ a : DX12App, (Render dev a).1 = Outcome.ok () →
      ∃ commandList start marker hr index,
        newCalls a.trace (Render dev a).2.trace =
          [Call.GetCommandList (some commandList),
            Call.ResourceBarrier commandList (a.m_BackBuffers a.m_CurrentBackBufferIndex)
              D3D12_RESOURCE_STATE_PRESENT D3D12_RESOURCE_STATE_RENDER_TARGET,
            Call.GetCPUDescriptorHandleForHeapStart start,
            Call.ClearRenderTargetView commandList
              (dev.handleAt start a.m_CurrentBackBufferIndex a.m_RTVDescriptorSize),
            Call.ResourceBarrier commandList (a.m_BackBuffers a.m_CurrentBackBufferIndex)
              D3D12_RESOURCE_STATE_RENDER_TARGET D3D12_RESOURCE_STATE_PRESENT,
            Call.ExecuteCommandList commandList (some marker),
            Call.Present (syncInterval a.m_VSync)
              (presentFlags a.m_TearingSupported a.m_VSync) hr,
            Call.GetCurrentBackBufferIndex index,
            Call.CommandQueueWaitForFenceValue marker] ∧
        (Render dev a).2.m_CurrentBackBufferIndex = index) ∧
    (∀ (n : Nat) (a : DX12App), (renderFrames dev n a).1 = Outcome.ok () →
      ∃ frames : List (List Call),
        frames.length = n ∧
        newCalls a.trace (renderFrames dev n a).2.trace = frames.flatten ∧
        (∀ frame ∈ frames,
          ∃ commandList backBuffer start rtv marker sync flags hr index,
            frame =
              [Call.GetCommandList (some commandList),
                Call.ResourceBarrier commandList backBuffer
                  D3D12_RESOURCE_STATE_PRESENT D3D12_RESOURCE_STATE_RENDER_TARGET,
                Call.GetCPUDescriptorHandleForHeapStart start,
                Call.ClearRenderTargetView commandList rtv,
                Call.ResourceBarrier commandList backBuffer
                  D3D12_RESOURCE_STATE_RENDER_TARGET D3D12_RESOURCE_STATE_PRESENT,
                Call.ExecuteCommandList commandList (some marker),
                Call.Present sync flags hr,
                Call.GetCurrentBackBufferIndex index,
                Call.CommandQueueWaitForFenceValue marker]) ∧
        List.countP isExecuteCommandList
          (newCalls a.trace (renderFrames dev n a).2.trace) = n ∧
        List.countP isPresent (newCalls a.trace (renderFrames dev n a).2.trace) = n) := by
  refine ⟨?_, ?_⟩
  · intro a h
    obtain ⟨cl, start, marker, hr, index, htr, hidx⟩ := Render_ok dev a h
    exact ⟨cl, start, marker, hr, index, by rw [htr, newCalls_append], hidx⟩
  · intro n a h
    obtain ⟨frames, hlen, htr, hshape⟩ := renderFrames_ok dev n a h
    obtain ⟨hexec, hpres⟩ := frames_count frames hshape
    rw [htr, newCalls_append]
    exact ⟨frames, hlen, rfl, hshape, by rw [hexec, hlen], by rw [hpres, hlen]⟩

/-- Claim C10, witness: two frames on a device where every call succeeds log two
`Present` calls. -/
theorem Render_frame_order_witness :
    List.countP isPresent (newCalls [] (renderFrames {} 2 {}).2.trace) = 2 := by
  have hok : (renderFrames {} 2 {}).1 = Outcome.ok () := by
    simp [renderFrames, Render, bind, Prog.bind, pure, Prog.pure, Prog.get, Prog.modify,
      DX12App.log, ThrowIfFailed, FAILED,
      commandQueueGetCommandList, commandListResourceBarrier,
      heapGetCPUDescriptorHandleForHeapStart, commandListClearRenderTargetView,
      commandQueueExecuteCommandList, swapChainPresent, swapChainGetCurrentBackBufferIndex,
      commandQueueWaitForFenceValue]
  obtain ⟨_, _, _, _, _, h⟩ := (Render_frame_order {}).2 2 {} hok
  exact h

/-- Claim C11. Start windowed, with `R` the rectangle that the window manager
reports for the window, its width and height fitting in a `LONG`.  Then
`DX12App::SetFullscreen( true )` followed by `SetFullscreen( false )` both
return normally; the second call sets the style `WS_OVERLAPPEDWINDOW`, requests
the position and size `( R.left, R.top, R.right - R.left, R.bottom - R.top )`
and shows the window in its normal state, and it makes no other call; the
fullscreen flag is false afterwards. -/
theorem SetFullscreen_round_trip (dev : Device) (a : DX12App) (R : RECT)
    (hwindowed : a.m_Fullscreen = false)
    (hR : dev.windowRect a.trace.length = R)
    (hwidth : -2147483648 ≤ R.right - R.left ∧ R.right - R.left < 2147483648)
    (hheight : -2147483648 ≤ R.bottom - R.top ∧ R.bottom - R.top < 2147483648) :
    (SetFullscreen dev true a).1 = Outcome.ok () ∧
    (SetFullscreen dev false (SetFullscreen dev true a).2).1 = Outcome.ok () ∧
    newCalls (SetFullscreen dev true a).2.trace
        (SetFullscreen dev false (SetFullscreen dev true a).2).2.trace =
      [Call.SetWindowLong GWL_STYLE WS_OVERLAPPEDWINDOW,
        Call.SetWindowPos HWND_NOTOPMOST R.left R.top (R.right - R.left) (R.bottom - R.top)
          (SWP_FRAMECHANGED ||| SWP_NOACTIVATE),
        Call.ShowWindow SW_NORMAL] ∧
    (SetFullscreen dev false (SetFullscreen dev true a).2).2.m_Fullscreen = false ∧
    (SetFullscreen dev false (SetFullscreen dev true a).2).2.m_WindowRect = R := by
  rw [SetFullscreen_enter dev a hwindowed, SetFullscreen_leave dev _ rfl]
  refine ⟨rfl, rfl, ?_, rfl, hR⟩
  simp only [newCalls_append, hR, toLONG_of_fits _ hwidth, toLONG_of_fits _ hheight]

/-- Claim C11, witness: a window at (100, 50) of size 1280 x 720. -/
theorem SetFullscreen_round_trip_witness :
    newCalls
        (SetFullscreen { windowRect := fun _ => { left := 100, top := 50, right := 1380, bottom := 770 } }
          true {}).2.trace
        (SetFullscreen { windowRect := fun _ => { left := 100, top := 50, right := 1380, bottom := 770 } }
          false
          (SetFullscreen { windowRect := fun _ => { left := 100, top := 50, right := 1380, bottom := 770 } }
            true {}).2).2.trace =
      [Call.SetWindowLong GWL_STYLE WS_OVERLAPPEDWINDOW,
        Call.SetWindowPos HWND_NOTOPMOST 100 50 (1380 - 100) (770 - 50)
          (SWP_FRAMECHANGED ||| SWP_NOACTIVATE),
        Call.ShowWindow SW_NORMAL] :=
  (SetFullscreen_round_trip
    { windowRect := fun _ => { left := 100, top := 50, right := 1380, bottom := 770 } } {}
    { left := 100, top := 50, right := 1380, bottom := 770 } rfl rfl
    (by decide) (by decide)).2.2.1

/-- Claim C12. `DX12App::ThrowIfFailed` raises iff its `HRESULT` argument is
negative, and returns normally, leaving the state as it is, for every other
value.  Hence, whenever the queue `Signal` call of `Signal`, the `GetDesc` or
`ResizeBuffers` call of `Resize`, or the `Present` call of `Render` gives a
failure code, the operation ends with an exception and the failed call is the
last entry of its log: no later step runs (`Signal` queues no fence signal,
`Resize` and `Render` do not re-read the back-buffer index). -/
theorem ThrowIfFailed_aborts (dev : Device) :
    (∀ (σ : Type) (hr : Int) (s : σ),
      ((ThrowIfFailed hr s).1 = Outcome.threw ↔ hr < 0) ∧
      (0 ≤ hr → ThrowIfFailed hr s = (Outcome.ok (), s)) ∧
      (ThrowIfFailed hr s).2 = s) ∧
    (∀ (s : SyncState) (c : Call),
      c ∈ newCalls s.trace (Signal dev s).2.trace → isFailedCall c = true →
      (Signal dev s).1 = Outcome.threw ∧ (Signal dev s).2.trace.getLast? = some c ∧
      (Signal dev s).2.gpu.pending = (gpuRun (dev.gpuProgress s.trace.length) s.gpu).pending) ∧
    (∀ (a : DX12App) (width height : Nat) (c : Call),
      c ∈ newCalls a.trace (Resize dev width height a).2.trace → isFailedCall c = true →
      (Resize dev width height a).1 = Outcome.threw ∧
      (Resize dev width height a).2.trace.getLast? = some c ∧
      (Resize dev width height a).2.m_CurrentBackBufferIndex = a.m_CurrentBackBufferIndex ∧
      (Resize dev width height a).2.m_RTVDescriptorSize = a.m_RTVDescriptorSize) ∧
    (∀ (a : DX12App) (c : Call),
      c ∈ newCalls a.trace (Render dev a).2.trace → isFailedCall c = true →
      (Render dev a).1 = Outcome.threw ∧
      (Render dev a).2.trace.getLast? = some c ∧
      (Render dev a).2.m_CurrentBackBufferIndex = a.m_CurrentBackBufferIndex) := by
  refine ⟨?_, ?_, ?_, ?_⟩
  · intro σ hr s
    by_cases h : hr < 0
    · simp [ThrowIfFailed, FAILED, h]
    · simp [ThrowIfFailed, FAILED, h, not_lt.mp h]
  · intro s c hc hf
    exact Signal_failed dev s c hc hf
  · intro a width height c hc hf
    exact Resize_failed dev a width height c hc hf
  · intro a c hc hf
    exact Render_failed dev a c hc hf

/-- Claim C12, witness: a failing `GetDesc` aborts `Resize` and a failing `Present`
aborts `Render`, each right after the failed call. -/
theorem ThrowIfFailed_aborts_witness :
    ((Resize { hrGetDesc := fun _ => -1 } 800 600 {}).1 = Outcome.threw ∧
      (Resize { hrGetDesc := fun _ => -1 } 800 600 {}).2.trace.getLast? =
        some (Call.GetDesc (-1) 0 0)) ∧
    ((Render { hrPresent := fun _ => -1 } {}).1 = Outcome.threw ∧
      (Render { hrPresent := fun _ => -1 } {}).2.trace.getLast? =
        some (Call.Present 1 0 (-1))) :=
  ⟨⟨((ThrowIfFailed_aborts { hrGetDesc := fun _ => -1 }).2.2.1 {} 800 600
        (Call.GetDesc (-1) 0 0) (by decide) (by decide)).1,
      ((ThrowIfFailed_aborts { hrGetDesc := fun _ => -1 }).2.2.1 {} 800 600
        (Call.GetDesc (-1) 0 0) (by decide) (by decide)).2.1⟩,
    ⟨((ThrowIfFailed_aborts { hrPresent := fun _ => -1 }).2.2.2 {}
        (Call.Present 1 0 (-1)) (by decide) (by decide)).1,
      ((ThrowIfFailed_aborts { hrPresent := fun _ => -1 }).2.2.2 {}
        (Call.Present 1 0 (-1)) (by decide) (by decide)).2.1⟩⟩

/-- Claim C14. `DX12App::OnKeyEvent` returns normally for every key, and changes
the presentation state as documented: key `V` negates the vsync flag and leaves
fullscreen unchanged; `F11`, with or without Alt, and `Return` with Alt held
negate the fullscreen flag and leave vsync unchanged; `Return` without Alt,
`Escape` and every other key leave both flags unchanged; and pressing `V` twice
restores the vsync flag.  Alt is held when the test on `GetAsyncKeyState(
VK_MENU )` at the start of the call holds. -/
theorem OnKeyEvent_presentation (dev : Device) (a : DX12App) (wParam : Nat) :
    (OnKeyEvent dev wParam a).1 = Outcome.ok () ∧
    (wParam = KEY_V →
      (OnKeyEvent dev wParam a).2.m_VSync = (!a.m_VSync) ∧
      (OnKeyEvent dev wParam a).2.m_Fullscreen = a.m_Fullscreen) ∧
    (wParam = VK_F11 ∨ (wParam = VK_RETURN ∧ alt (dev.asyncKeyState a.trace.length) = true) →
      (OnKeyEvent dev wParam a).2.m_Fullscreen = (!a.m_Fullscreen) ∧
      (OnKeyEvent dev wParam a).2.m_VSync = a.m_VSync) ∧
    (wParam ≠ KEY_V → wParam ≠ VK_F11 →
      ¬ (wParam = VK_RETURN ∧ alt (dev.asyncKeyState a.trace.length) = true) →
      (OnKeyEvent dev wParam a).2.m_VSync = a.m_VSync ∧
      (OnKeyEvent dev wParam a).2.m_Fullscreen = a.m_Fullscreen) ∧
    (OnKeyEvent dev KEY_V (OnKeyEvent dev KEY_V a).2).2.m_VSync = a.m_VSync := by
  have htoggle := SetFullscreen_toggle dev
    (a.log (Call.GetAsyncKeyState VK_MENU (dev.asyncKeyState a.trace.length)))
  simp only [DX12App.log] at htoggle
  obtain ⟨ht1, ht2, ht3⟩ := htoggle
  refine ⟨?_, ?_, ?_, ?_, ?_⟩
  · simp only [OnKeyEvent, bind, Prog.bind, getAsyncKeyState, DX12App.log, Prog.modify,
      postQuitMessage, Prog.get, pure, Prog.pure]
    split_ifs <;> first | rfl | exact ht1
  · intro hV
    subst hV
    simp [OnKeyEvent, bind, Prog.bind, getAsyncKeyState, DX12App.log, Prog.modify]
  · intro hkey
    simp only [OnKeyEvent, bind, Prog.bind, getAsyncKeyState, DX12App.log, Prog.modify,
      postQuitMessage, Prog.get, pure, Prog.pure]
    rcases hkey with hkey | ⟨hkey, halt⟩
    · subst hkey
      simp only [VK_F11, KEY_V, VK_ESCAPE, VK_RETURN, Nat.reduceEqDiff, if_false, if_true]
      exact ⟨ht2, ht3⟩
    · subst hkey
      simp only [VK_RETURN, KEY_V, VK_ESCAPE, Nat.reduceEqDiff, if_false, if_true, halt]
      exact ⟨ht2, ht3⟩
  · intro h1 h2 h3
    simp only [OnKeyEvent, bind, Prog.bind, getAsyncKeyState, DX12App.log, Prog.modify,
      postQuitMessage, Prog.get, pure, Prog.pure, h1, h2, if_false]
    split_ifs with h4 h5 h6
    · exact ⟨rfl, rfl⟩
    · exact absurd ⟨h5, h6⟩ h3
    · exact ⟨rfl, rfl⟩
    · exact ⟨rfl, rfl⟩
  · simp [OnKeyEvent, bind, Prog.bind, getAsyncKeyState, DX12App.log, Prog.modify]

/-- Claim C14, witness: `F11` on the default state switches to fullscreen and
keeps vsync on. -/
theorem OnKeyEvent_presentation_witness :
    (OnKeyEvent {} VK_F11 {}).2.m_Fullscreen = true ∧ (OnKeyEvent {} VK_F11 {}).2.m_VSync = true :=
  (OnKeyEvent_presentation {} {} VK_F11).2.2.1 (Or.inl rfl)

/-- Claim C15, counterexample. The only adapter of the enumeration is eligible
and reports no dedicated video memory: the test `DedicatedVideoMemory >
maxDedicatedVideoMemory` fails against the initial 0, and `GetAdapter` returns a
null pointer.  And when the `As` call on the only eligible adapter fails,
`GetAdapter` raises and returns nothing. -/
theorem GetAdapter_zero_memory :
    eligible { DedicatedVideoMemory := 0 } = true ∧
    (GetAdapter { adapters := [{ DedicatedVideoMemory := 0 }] } false {}).1 =
      Outcome.ok none ∧
    eligible { DedicatedVideoMemory := 4, hrAs := -1 } = true ∧
    (GetAdapter { adapters := [{ DedicatedVideoMemory := 4, hrAs := -1 }] } false {}).1 =
      Outcome.threw := by
  decide

/-- Claim C15 (as amended). `DX12App::GetAdapter` with `useWarp = false`
favours the adapter with the largest dedicated video memory: for every
enumeration that contains an eligible adapter (not flagged as software and able
to create a feature level 11_0 device) with dedicated video memory above 0,
when the factory is created and the `As` calls succeed, it returns an adapter
of the enumeration that is eligible, whose dedicated video memory is at least
that of every eligible adapter, and strictly above that of every eligible
adapter before it in enumeration order.  Whenever it returns an adapter, that
adapter is eligible: software adapters and adapters that cannot create a device
are never returned. -/
theorem GetAdapter_favours_largest (factory : Factory) (a : DX12App) :
    (FAILED factory.hrCreateDXGIFactory2 = false →
      (∀ ad ∈ factory.adapters, FAILED ad.hrAs = false) →
      (∃ ad ∈ factory.adapters, eligible ad = true ∧ 0 < ad.DedicatedVideoMemory) →
      ∃ k ad,
        GetAdapter factory false a = (Outcome.ok (some (AdapterRef.enumerated k)), a) ∧
        factory.adapters[k]? = some ad ∧ eligible ad = true ∧
        (∀ other ∈ factory.adapters, eligible other = true →
          other.DedicatedVideoMemory ≤ ad.DedicatedVideoMemory) ∧
        (∀ j other, j < k → factory.adapters[j]? = some other → eligible other = true →
          other.DedicatedVideoMemory < ad.DedicatedVideoMemory)) ∧
    (∀ res, (GetAdapter factory false a).1 = Outcome.ok (some res) →
      ∃ k ad, res = AdapterRef.enumerated k ∧ factory.adapters[k]? = some ad ∧
        eligible ad = true) := by
  constructor
  · intro hfactory hAs ⟨big, hbig, hbige, hbigm⟩
    rw [GetAdapter_eq_loop factory a hfactory]
    obtain ⟨h1, h2, h3⟩ := GetAdapter.loop_spec factory.adapters 0 0 none a
    obtain ⟨res, hres⟩ := h2 hAs
    obtain ⟨best, _, hall, hcase⟩ := h3 res hres
    rcases hcase with ⟨_, hb⟩ | ⟨k, ad, hk, hr, he, hm, _, hfirst⟩
    · have := hall big hbig hbige
      omega
    · refine ⟨k, ad, ?_, hk, he, ?_, ?_⟩
      · rw [Nat.zero_add] at hr
        exact Prod.ext (hres.trans (by rw [hr])) h1
      · intro other ho hoe
        rw [hm]
        exact hall other ho hoe
      · intro j other hj hjo hoe
        rw [hm]
        exact hfirst j other hj hjo hoe
  · intro res hres
    by_cases hfactory : FAILED factory.hrCreateDXGIFactory2 = true
    · simp [GetAdapter, bind, Prog.bind_ThrowIfFailed, hfactory] at hres
    · rw [GetAdapter_eq_loop factory a (by simpa using hfactory)] at hres
      obtain ⟨_, _, h3⟩ := GetAdapter.loop_spec factory.adapters 0 0 none a
      obtain ⟨best, _, _, hcase⟩ := h3 (some res) hres
      rcases hcase with ⟨hr, _⟩ | ⟨k, ad, hk, hr, he, _, _, _⟩
      · exact Option.noConfusion hr
      · rw [Nat.zero_add] at hr
        exact ⟨k, ad, Option.some.inj hr, hk, he⟩

/-- Claim C15, witness: of a software adapter and two eligible adapters with the
same memory, the first eligible one is returned. -/
theorem GetAdapter_favours_largest_witness :
    ∃ k ad,
      GetAdapter
          { adapters := [{ Flags := 2, DedicatedVideoMemory := 9 }, { DedicatedVideoMemory := 4 },
              { DedicatedVideoMemory := 4 }] } false {} =
        (Outcome.ok (some (AdapterRef.enumerated k)), {}) ∧
      ([{ Flags := 2, DedicatedVideoMemory := 9 }, { DedicatedVideoMemory := 4 },
          { DedicatedVideoMemory := 4 }] : List Adapter)[k]? = some ad ∧
      eligible ad = true := by
  obtain ⟨k, ad, h1, h2, h3, _⟩ :=
    (GetAdapter_favours_largest
      { adapters := [{ Flags := 2, DedicatedVideoMemory := 9 }, { DedicatedVideoMemory := 4 },
          { DedicatedVideoMemory := 4 }] } {}).1 rfl (by decide)
      ⟨{ DedicatedVideoMemory := 4 }, by decide, by decide, by decide⟩
  exact ⟨k, ad, h1, h2, h3⟩

/-- Claim C16, counterexample. `Resize( 0, 0 )` called twice on the default state:
the first call stores 1 x 1, so the second call again finds a size that differs
from its arguments and repeats `Flush`, the releases and `ResizeBuffers`. -/
theorem Resize_twice_zero_repeats :
    newCalls (Resize {} 0 0 {}).2.trace (Resize {} 0 0 (Resize {} 0 0 {}).2).2.trace =
      [Call.CommandQueueFlush,
        Call.BackBufferReset 0, Call.BackBufferReset 1, Call.BackBufferReset 2,
        Call.GetDesc 0 0 0, Call.ResizeBuffers 3 1 1 0 0 0,
        Call.GetCurrentBackBufferIndex 0, Call.GetDescriptorHandleIncrementSize 0,
        Call.GetCPUDescriptorHandleForHeapStart 0,
        Call.GetBuffer 0 0 0, Call.CreateRenderTargetView (some 0) 0, Call.BackBufferStore 0 0,
        Call.GetBuffer 1 0 0, Call.CreateRenderTargetView (some 0) 0, Call.BackBufferStore 1 0,
        Call.GetBuffer 2 0 0, Call.CreateRenderTargetView (some 0) 0,
        Call.BackBufferStore 2 0] ∧
    (Resize {} 0 0 (Resize {} 0 0 {}).2).2.trace ≠ (Resize {} 0 0 {}).2.trace := by
  have hw : (Resize {} 0 0 {}).2.m_ClientWidth = 1 := (Resize_size {} {} 0 0).1
  have hne : (Resize {} 0 0 {}).2.m_ClientWidth ≠ 0 ∨ (Resize {} 0 0 {}).2.m_ClientHeight ≠ 0 :=
    Or.inl (by rw [hw]; decide)
  have hlog := (Resize_ok_log {} (Resize {} 0 0 {}).2 0 0 hne rfl rfl rfl rfl rfl rfl).2
  refine ⟨hlog, ?_⟩
  intro heq
  rw [heq, newCalls_self] at hlog
  exact List.noConfusion hlog

/-- Claim C16 (as amended). For every width and height of at least 1, a second
`DX12App::Resize( width, height )` right after the first returns normally and
leaves the whole state, call log included, as the first call left it: it makes
no `Flush`, releases no back buffer and calls neither `ResizeBuffers` nor the
re-creation of the views.  When the width or the height is 0, and the stored
client size is at least 1 x 1 as in every reachable state, the first call
stores the clamped size, so the second call starts the resize again with
`Flush`. -/
theorem Resize_twice (dev : Device) (a : DX12App) (width height : Nat) :
    (1 ≤ width ∧ 1 ≤ height →
      Resize dev width height (Resize dev width height a).2 =
        (Outcome.ok (), (Resize dev width height a).2)) ∧
    (1 ≤ a.m_ClientWidth ∧ 1 ≤ a.m_ClientHeight → width = 0 ∨ height = 0 →
      ∃ rest, newCalls (Resize dev width height a).2.trace
        (Resize dev width height (Resize dev width height a).2).2.trace =
          Call.CommandQueueFlush :: rest) := by
  obtain ⟨hw, hh⟩ := Resize_size dev a width height
  constructor
  · rintro ⟨h1, h2⟩
    apply Resize_of_eq
    · rw [hw]; split_ifs with hne
      · exact max_eq_right h1
      · push_neg at hne; exact hne.1
    · rw [hh]; split_ifs with hne
      · exact max_eq_right h2
      · push_neg at hne; exact hne.2
  · rintro ⟨ha1, ha2⟩ h0
    have hne : a.m_ClientWidth ≠ width ∨ a.m_ClientHeight ≠ height := by
      rcases h0 with h0 | h0
      · left; omega
      · right; omega
    apply Resize_of_ne
    rw [hw, hh]
    simp only [hne, if_true]
    rcases h0 with h0 | h0
    · left; subst h0; simp
    · right; subst h0; simp

/-- Claim C16, witness: a second `Resize( 800, 600 )` changes nothing. -/
theorem Resize_twice_witness :
    Resize {} 800 600 (Resize {} 800 600 {}).2 = (Outcome.ok (), (Resize {} 800 600 {}).2) :=
  (Resize_twice {} {} 800 600).1 ⟨by decide, by decide⟩

/-- Claim C17. Every `Present` call of `DX12App::Render` is valid, whatever the
vsync and tearing-supported flags are: its sync interval is 1 when vsync is on
and 0 when vsync is off, and when its flags contain the allow-tearing flag its
sync interval is 0. -/
theorem Render_present_valid (dev : Device) (a : DX12App) (sync flags : Nat) (hr : Int) :
    Call.Present sync flags hr ∈ newCalls a.trace (Render dev a).2.trace →
      (a.m_VSync = true → sync = 1) ∧ (a.m_VSync = false → sync = 0) ∧
      (flags &&& DXGI_PRESENT_ALLOW_TEARING ≠ 0 → sync = 0) := by
  intro hmem
  obtain ⟨hs, hf⟩ := Render_present_args dev a sync flags hr hmem
  subst hs hf
  cases a.m_TearingSupported <;> cases a.m_VSync <;> decide

/-- Claim C17, witness: the `Present` call of a frame with vsync off and tearing
supported carries the allow-tearing flag and the sync interval 0. -/
theorem Render_present_valid_witness :
    Call.Present 0 512 0 ∈
      newCalls [] (Render {} { m_VSync := false, m_TearingSupported := true }).2.trace ∧
    (512 &&& DXGI_PRESENT_ALLOW_TEARING ≠ 0 → 0 = 0) :=
  ⟨by decide,
    (Render_present_valid {} { m_VSync := false, m_TearingSupported := true } 0 512 0
      (by decide)).2.2⟩

/-- Claim C18, counterexample. `GetBuffer` fails for slot 0: `ThrowIfFailed` raises
before anything is stored, so `m_BackBuffers[0]` stays empty and no view is
created. -/
theorem UpdateRenderTargetViews_aborts :
    (UpdateRenderTargetViews { hrGetBuffer := fun _ => -1, buffer := fun _ => 7 } {}).1 =
      Outcome.threw ∧
    (UpdateRenderTargetViews { hrGetBuffer := fun _ => -1, buffer := fun _ => 7 } {}).2.trace =
      [Call.GetDescriptorHandleIncrementSize 0, Call.GetCPUDescriptorHandleForHeapStart 0,
        Call.GetBuffer 0 (-1) 7] ∧
    (UpdateRenderTargetViews { hrGetBuffer := fun _ => -1, buffer := fun _ => 7 } {}).2.m_BackBuffers 0 =
      none := by
  decide

/-- Claim C18 (as amended). Take the helpers of `d3dx12.h` to do the address
arithmetic of descriptor handles, and a call of `UpdateRenderTargetViews` in
which every `GetBuffer` call succeeds.  It returns normally, and for every slot
index `i < N` it stores swap-chain buffer `i` in `m_BackBuffers[i]` and creates
the view of that buffer at the address `heapStart + i * descriptorSize`.  A
`Render` on these back buffers and this descriptor size with
`m_CurrentBackBufferIndex = i`, to which the heap reports the same start,
transitions that buffer and clears the view at that address. -/
theorem UpdateRenderTargetViews_pairs (dev : Device) (a : DX12App)
    (hOffset : ∀ handle size, dev.handleOffset handle size = handle + size)
    (hAt : ∀ start index size, dev.handleAt start index size = start + index * size)
    (hok : ∀ c ∈ newCalls a.trace (UpdateRenderTargetViews dev a).2.trace,
      isFailedGetBuffer c = false) :
    (UpdateRenderTargetViews dev a).1 = Outcome.ok () ∧
    ∃ size start,
      Call.GetDescriptorHandleIncrementSize size ∈
        newCalls a.trace (UpdateRenderTargetViews dev a).2.trace ∧
      Call.GetCPUDescriptorHandleForHeapStart start ∈
        newCalls a.trace (UpdateRenderTargetViews dev a).2.trace ∧
      (UpdateRenderTargetViews dev a).2.m_RTVDescriptorSize = size ∧
      ∀ i, i < m_NumFrames →
        ∃ hr b,
          Call.GetBuffer i hr b ∈ newCalls a.trace (UpdateRenderTargetViews dev a).2.trace ∧
          (UpdateRenderTargetViews dev a).2.m_BackBuffers i = some b ∧
          Call.CreateRenderTargetView (some b) (start + i * size) ∈
            newCalls a.trace (UpdateRenderTargetViews dev a).2.trace ∧
          ∀ r : DX12App,
            r.m_BackBuffers = (UpdateRenderTargetViews dev a).2.m_BackBuffers →
            r.m_RTVDescriptorSize = (UpdateRenderTargetViews dev a).2.m_RTVDescriptorSize →
            r.m_CurrentBackBufferIndex = i →
            Call.GetCPUDescriptorHandleForHeapStart start ∈
              newCalls r.trace (Render dev r).2.trace →
            (∀ cl resource before after,
              Call.ResourceBarrier cl resource before after ∈
                newCalls r.trace (Render dev r).2.trace → resource = some b) ∧
            (∀ cl rtv,
              Call.ClearRenderTargetView cl rtv ∈
                newCalls r.trace (Render dev r).2.trace → rtv = start + i * size) := by
  obtain ⟨size, start, hr₀, b₀, hr₁, b₁, hr₂, b₂, hout, htr, hsize, hb0, hb1, hb2⟩ :=
    UpdateRenderTargetViews_ok dev a hok
  refine ⟨hout, size, start, ?_, ?_, hsize, ?_⟩
  · rw [htr]; simp
  · rw [htr]; simp
  · intro i hi
    have hrender : ∀ (b : Nat), (UpdateRenderTargetViews dev a).2.m_BackBuffers i = some b →
        ∀ r : DX12App,
          r.m_BackBuffers = (UpdateRenderTargetViews dev a).2.m_BackBuffers →
          r.m_RTVDescriptorSize = (UpdateRenderTargetViews dev a).2.m_RTVDescriptorSize →
          r.m_CurrentBackBufferIndex = i →
          Call.GetCPUDescriptorHandleForHeapStart start ∈
            newCalls r.trace (Render dev r).2.trace →
          (∀ cl resource before after,
            Call.ResourceBarrier cl resource before after ∈
              newCalls r.trace (Render dev r).2.trace → resource = some b) ∧
          (∀ cl rtv,
            Call.ClearRenderTargetView cl rtv ∈
              newCalls r.trace (Render dev r).2.trace → rtv = start + i * size) := by
      intro b hb r hbb hsz hidx hstart
      obtain ⟨commandList, fenceValue, start₀, hr, index, ⟨rest, hfull⟩, _⟩ := Render_log dev r
      have hsub : ∀ c, c ∈ newCalls r.trace (Render dev r).2.trace →
          c ∈ newCalls r.trace (Render dev r).2.trace ++ rest :=
        fun c hc => List.mem_append_left _ hc
      rw [← hfull] at hsub
      have hs := hsub _ hstart
      simp at hs
      subst hs
      constructor
      · intro cl resource before after hmem
        have hm := hsub _ hmem
        simp at hm
        rcases hm with hm | hm
        · rw [hm.2.1, hbb, hidx, hb]
        · rw [hm.2.1, hbb, hidx, hb]
      · intro cl rtv hmem
        have hm := hsub _ hmem
        simp at hm
        rw [hm.2, hAt, hidx, hsz, hsize]
    simp only [m_NumFrames] at hi
    have hcases : i = 0 ∨ i = 1 ∨ i = 2 := by omega
    rcases hcases with h | h | h
    · subst h
      refine ⟨hr₀, b₀, ?_, hb0, ?_, hrender b₀ hb0⟩
      · rw [htr]; simp
      · rw [htr]; simp
    · subst h
      refine ⟨hr₁, b₁, ?_, hb1, ?_, hrender b₁ hb1⟩
      · rw [htr]; simp
      · rw [htr, hOffset]; simp
    · subst h
      refine ⟨hr₂, b₂, ?_, hb2, ?_, hrender b₂ hb2⟩
      · rw [htr]; simp
      · rw [htr, hOffset, hOffset]
        have : start + size + size = start + 2 * size := by ring
        simp [this]

/-- Claim C18, witness: with descriptor size 32 and heap start 100 the three
views are created at the addresses 100, 132 and 164. -/
theorem UpdateRenderTargetViews_pairs_witness :
    (UpdateRenderTargetViews { descriptorSize := fun _ => 32, heapStart := fun _ => 100 } {}).1 =
      Outcome.ok () :=
  (UpdateRenderTargetViews_pairs { descriptorSize := fun _ => 32, heapStart := fun _ => 100 } {}
    (fun _ _ => rfl) (fun _ _ _ => rfl)
    (by
      simp [UpdateRenderTargetViews, UpdateRenderTargetViews.loop, m_NumFrames, bind,
        Prog.bind, Prog.get, pure, Prog.pure, Prog.modify, ThrowIfFailed, FAILED,
        DX12App.log, deviceGetDescriptorHandleIncrementSize,
        heapGetCPUDescriptorHandleForHeapStart, swapChainGetBuffer,
        deviceCreateRenderTargetView, backBufferStore, newCalls, isFailedGetBuffer])).1

/-- Claim C19. Once `GetCommandList` has given `DX12App::Render` a command list,
the commands recorded on it are exactly three: the transition of the current
slot's back buffer from `PRESENT` to `RENDER_TARGET`, the clear of the render
target, and the transition of the same back buffer from `RENDER_TARGET` to
`PRESENT`; they all precede `ExecuteCommandList`, and no call after it records
a command.  So for a back buffer that is in the `PRESENT` state before the
frame, the first barrier finds it in `PRESENT`, the second finds it in
`RENDER_TARGET`, and it is in `PRESENT` again when the list is executed and at
the end of the frame. -/
theorem Render_barriers_balanced (dev : Device) (a : DX12App) (cl : Nat)
    (h : dev.cqGetCommandList a.trace.length = Outcome.ok cl) :
    ∃ start fenceValue rest,
      newCalls a.trace (Render dev a).2.trace =
        Call.GetCommandList (some cl) ::
        Call.ResourceBarrier cl (a.m_BackBuffers a.m_CurrentBackBufferIndex)
          D3D12_RESOURCE_STATE_PRESENT D3D12_RESOURCE_STATE_RENDER_TARGET ::
        Call.GetCPUDescriptorHandleForHeapStart start ::
        Call.ClearRenderTargetView cl
          (dev.handleAt start a.m_CurrentBackBufferIndex a.m_RTVDescriptorSize) ::
        Call.ResourceBarrier cl (a.m_BackBuffers a.m_CurrentBackBufferIndex)
          D3D12_RESOURCE_STATE_RENDER_TARGET D3D12_RESOURCE_STATE_PRESENT ::
        Call.ExecuteCommandList cl fenceValue :: rest ∧
      rest.filter isCommand = [] ∧
      (newCalls a.trace (Render dev a).2.trace).filter isCommand =
        [Call.ResourceBarrier cl (a.m_BackBuffers a.m_CurrentBackBufferIndex)
          D3D12_RESOURCE_STATE_PRESENT D3D12_RESOURCE_STATE_RENDER_TARGET,
         Call.ClearRenderTargetView cl
          (dev.handleAt start a.m_CurrentBackBufferIndex a.m_RTVDescriptorSize),
         Call.ResourceBarrier cl (a.m_BackBuffers a.m_CurrentBackBufferIndex)
          D3D12_RESOURCE_STATE_RENDER_TARGET D3D12_RESOURCE_STATE_PRESENT] ∧
      (newCalls a.trace (Render dev a).2.trace).filter isResourceBarrier =
        [Call.ResourceBarrier cl (a.m_BackBuffers a.m_CurrentBackBufferIndex)
          D3D12_RESOURCE_STATE_PRESENT D3D12_RESOURCE_STATE_RENDER_TARGET,
         Call.ResourceBarrier cl (a.m_BackBuffers a.m_CurrentBackBufferIndex)
          D3D12_RESOURCE_STATE_RENDER_TARGET D3D12_RESOURCE_STATE_PRESENT] ∧
      resourceStateAfter (a.m_BackBuffers a.m_CurrentBackBufferIndex)
        D3D12_RESOURCE_STATE_PRESENT
        [Call.GetCommandList (some cl),
         Call.ResourceBarrier cl (a.m_BackBuffers a.m_CurrentBackBufferIndex)
          D3D12_RESOURCE_STATE_PRESENT D3D12_RESOURCE_STATE_RENDER_TARGET,
         Call.GetCPUDescriptorHandleForHeapStart start,
         Call.ClearRenderTargetView cl
          (dev.handleAt start a.m_CurrentBackBufferIndex a.m_RTVDescriptorSize)] =
        some D3D12_RESOURCE_STATE_RENDER_TARGET ∧
      resourceStateAfter (a.m_BackBuffers a.m_CurrentBackBufferIndex)
        D3D12_RESOURCE_STATE_PRESENT
        [Call.GetCommandList (some cl),
         Call.ResourceBarrier cl (a.m_BackBuffers a.m_CurrentBackBufferIndex)
          D3D12_RESOURCE_STATE_PRESENT D3D12_RESOURCE_STATE_RENDER_TARGET,
         Call.GetCPUDescriptorHandleForHeapStart start,
         Call.ClearRenderTargetView cl
          (dev.handleAt start a.m_CurrentBackBufferIndex a.m_RTVDescriptorSize),
         Call.ResourceBarrier cl (a.m_BackBuffers a.m_CurrentBackBufferIndex)
          D3D12_RESOURCE_STATE_RENDER_TARGET D3D12_RESOURCE_STATE_PRESENT] =
        some D3D12_RESOURCE_STATE_PRESENT ∧
      resourceStateAfter (a.m_BackBuffers a.m_CurrentBackBufferIndex)
        D3D12_RESOURCE_STATE_PRESENT (newCalls a.trace (Render dev a).2.trace) =
        some D3D12_RESOURCE_STATE_PRESENT := by
  obtain ⟨start, fenceValue, rest, htr, hrest⟩ := Render_commands dev a cl h
  refine ⟨start, fenceValue, rest, htr, hrest, ?_, ?_, ?_, ?_, ?_⟩
  · rw [htr]
    simp [List.filter, isCommand, hrest]
  · rw [htr]
    simp [List.filter, isResourceBarrier, filter_isResourceBarrier_of_no_command rest hrest]
  · simp [resourceStateAfter]
  · simp [resourceStateAfter]
  · rw [htr]
    simp [resourceStateAfter, resourceStateAfter_of_no_command _ rest _ hrest]

/-- Claim C19, witness: a frame on slot 1, which holds back buffer 11. -/
theorem Render_barriers_balanced_witness :
    ∃ start fenceValue rest,
      newCalls []
        (Render {}
          { m_BackBuffers := (fun i => some (10 + i)), m_CurrentBackBufferIndex := 1 }).2.trace =
        Call.GetCommandList (some 0) ::
        Call.ResourceBarrier 0 (some 11)
          D3D12_RESOURCE_STATE_PRESENT D3D12_RESOURCE_STATE_RENDER_TARGET ::
        Call.GetCPUDescriptorHandleForHeapStart start ::
        Call.ClearRenderTargetView 0 (start + 1 * 0) ::
        Call.ResourceBarrier 0 (some 11)
          D3D12_RESOURCE_STATE_RENDER_TARGET D3D12_RESOURCE_STATE_PRESENT ::
        Call.ExecuteCommandList 0 fenceValue :: rest := by
  obtain ⟨start, fenceValue, rest, h, _⟩ :=
    Render_barriers_balanced {}
      { m_BackBuffers := (fun i => some (10 + i)), m_CurrentBackBufferIndex := 1 } 0 rfl
  exact ⟨start, fenceValue, rest, h⟩

/-- Claim C20, the code at the failing input. A scene built for a 1280 x 720
window and loaded: after `Resize( 800, 600 )` the accessors still report
1280 x 720, and an immediately following `Resize( 800, 600 )` replaces the
viewport and calls `ResizeDepthBuffer` again, creating a new depth buffer. -/
theorem TexturedDemoBoxGame_Resize_repeats :
    ((TexturedDemoBoxGame.Resize {} 800 600
        { TexturedDemoBoxGame.construct { right := 1280, bottom := 720 } with
          m_ContentLoaded := true }).2.GetClientWidth,
      (TexturedDemoBoxGame.Resize {} 800 600
        { TexturedDemoBoxGame.construct { right := 1280, bottom := 720 } with
          m_ContentLoaded := true }).2.GetClientHeight) = (1280, 720) ∧
    newCalls
        (TexturedDemoBoxGame.Resize {} 800 600
          { TexturedDemoBoxGame.construct { right := 1280, bottom := 720 } with
            m_ContentLoaded := true }).2.trace
        (TexturedDemoBoxGame.Resize {} 800 600
          (TexturedDemoBoxGame.Resize {} 800 600
            { TexturedDemoBoxGame.construct { right := 1280, bottom := 720 } with
              m_ContentLoaded := true }).2).2.trace =
      [Call.ViewportStore 800 600, Call.ResizeDepthBuffer 800 600,
        Call.CreateCommittedResource 800 600 0 0, Call.CreateDepthStencilView (some 0)] := by
  decide

/-- Claim C22. When the queue `Signal` call fails, `DX12App::Signal` raises, but
the caller's counter has already been advanced by one (to `v + 1` below the top
of the 64-bit range): the failed call is logged with the new value, no marker is
issued or returned, and the counter differs from what it was, so when the
counter was the last marker issued before the call it no longer is after it.
The counter is not rolled back: as long as it stays below `2 ^ 64`, every queue
`Signal` call made by later `Signal` and `Flush` calls, whatever their outcomes,
passes a value above that of the failed attempt, and the next `Signal` that
succeeds returns the value after it. -/
theorem Signal_not_atomic (dev : Device) (s : SyncState)
    (hfail : FAILED (dev.hrSignal s.trace.length) = true) :
    (Signal dev s).1 = Outcome.threw ∧
    (Signal dev s).2.fenceValue = (s.fenceValue + 1) % UINT64_MOD ∧
    (s.fenceValue < 2 ^ 64 - 1 → (Signal dev s).2.fenceValue = s.fenceValue + 1) ∧
    (Signal dev s).2.fenceValue ≠ s.fenceValue ∧
    newCalls s.trace (Signal dev s).2.trace =
      [Call.QueueSignal (Signal dev s).2.fenceValue (dev.hrSignal s.trace.length)] ∧
    issuedMarkers (Signal dev s).2.trace = issuedMarkers s.trace ∧
    ((issuedMarkers s.trace).getLast? = some s.fenceValue →
      (issuedMarkers (Signal dev s).2.trace).getLast? ≠ some (Signal dev s).2.fenceValue) ∧
    (∀ calls : List SyncCall, (Signal dev s).2.fenceValue + calls.length < 2 ^ 64 →
      ∀ value ∈ signalledValues
          (newCalls (Signal dev s).2.trace (syncAll dev calls (Signal dev s).2).trace),
        (Signal dev s).2.fenceValue < value) ∧
    ((Signal dev s).2.fenceValue < 2 ^ 64 - 1 →
      FAILED (dev.hrSignal (Signal dev s).2.trace.length) = false →
      (Signal dev (Signal dev s).2).1 = Outcome.ok ((Signal dev s).2.fenceValue + 1)) := by
  have hne : (s.fenceValue + 1) % UINT64_MOD ≠ s.fenceValue := by
    simp only [UINT64_MOD]
    omega
  have hissued : issuedMarkers (Signal dev s).2.trace = issuedMarkers s.trace := by
    rw [Signal_trace, issuedMarkers_append]
    simp [issuedMarkers, hfail]
  refine ⟨?_, Signal_fenceValue dev s, ?_, ?_, ?_, hissued, ?_, ?_, ?_⟩
  · rw [Signal_fst, if_pos hfail]
  · intro hv
    rw [Signal_fenceValue]
    apply Nat.mod_eq_of_lt
    simp only [UINT64_MOD]
    omega
  · rw [Signal_fenceValue]
    exact hne
  · rw [Signal_trace, newCalls_append, Signal_fenceValue]
  · intro hlast
    rw [hissued, hlast, Signal_fenceValue]
    intro heq
    exact hne (Option.some.inj heq).symm
  · intro calls hroom value hmem
    obtain ⟨l, h1, h2, _⟩ := syncAll_signalled dev calls (Signal dev s).2 hroom
    rw [h1, newCalls_append, h2] at hmem
    have := (List.mem_range'_1.mp hmem).1
    omega
  · intro hroom hok
    rw [Signal_fst, if_neg (by simpa using hok)]
    congr 1
    apply Nat.mod_eq_of_lt
    simp only [UINT64_MOD]
    omega

/-- Claim C22, witness: a failing queue `Signal` at the counter value 7 raises
and leaves the counter at 8. -/
theorem Signal_not_atomic_witness :
    (Signal { hrSignal := fun _ => -1 } ⟨7, ⟨7, [], [], false⟩, []⟩).1 = Outcome.threw ∧
    (Signal { hrSignal := fun _ => -1 } ⟨7, ⟨7, [], [], false⟩, []⟩).2.fenceValue = 7 + 1 :=
  ⟨(Signal_not_atomic { hrSignal := fun _ => -1 } ⟨7, ⟨7, [], [], false⟩, []⟩ (by decide)).1,
    (Signal_not_atomic { hrSignal := fun _ => -1 } ⟨7, ⟨7, [], [], false⟩, []⟩
      (by decide)).2.2.1 (by decide)⟩

end Olex
